import Mathlib

/-!
# Smokey: the reconciliation manager

A shallow embedding of `internal/manager/manager.go`, `internal/manager/utils.go`
and the message builders of `internal/mqtt_agent/mqtt_agent.go`.

Modelling conventions

* Go `int` and `uint64` fields are `Int` and `Nat`: the counters advance by one per
  second or per message and never come near the machine word size.  The bit sizes
  that decide a branch (the `bitSize` argument of `strconv.ParseInt`) are kept.
* `time.Time` is the number of nanoseconds since the zero `time.Time`; a handler
  runs at one instant `now`, which every `time.Now()` inside it returns.
* `m.mqttPub <- msg` appends to the list `mqttPub` of sent messages, oldest first.
* `math/rand` is a stream of raw draws with a cursor (`randDraws`).
* Go strings are valid UTF-8 texts, i.e. `String`.
* Logging has no effect on the state and is left out.
-/

namespace Smokey

/-! ## Library functions used by the manager -/

/-- The rune mapping of `unicode.ToLower`, exact on every code point whose image or
preimage is ASCII: `A`..`Z`, U+0130 (lower case `i`) and U+212A (lower case `k`).
All other code points are outside ASCII and stay outside ASCII; the program only
compares lower-cased text with ASCII literals, so they are left as they are. -/
def unicodeToLower (c : Char) : Char :=
  if 65 ≤ c.toNat ∧ c.toNat ≤ 90 then Char.ofNat (c.toNat + 32)
  else if c.toNat = 0x130 then 'i'
  else if c.toNat = 0x212A then 'k'
  else c

/-- Go `strings.ToLower`. -/
def ToLower (s : String) : String :=
  String.mk (s.data.map unicodeToLower)

/-- The fields of a text around each occurrence of the separator character. -/
def splitChars (sep : Char) : List Char → List (List Char)
  | [] => [[]]
  | c :: cs =>
    if c = sep then [] :: splitChars sep cs
    else
      match splitChars sep cs with
      | [] => [[c]]
      | w :: ws => (c :: w) :: ws

/-- Go `strings.Split(s, sep)` for a one-character separator (the source only
splits on `"x"`). -/
def Split (s : String) (sep : Char) : List String :=
  (splitChars sep s.data).map String.mk

/-- The expression `xs[len(xs)-1]` on the result of `Split`, which is never empty. -/
def lastField (xs : List String) : String :=
  xs.getLastD ""

/-- The value of one digit in `strconv.ParseUint`: `0`..`9`, then letters of either
case from 10 on; anything else (the underscore too, as the base is never 0 here)
is not a digit. -/
def digitVal (c : Char) : Option Nat :=
  if 48 ≤ c.toNat ∧ c.toNat ≤ 57 then some (c.toNat - 48)
  else if 97 ≤ c.toNat ∧ c.toNat ≤ 122 then some (c.toNat - 97 + 10)
  else if 65 ≤ c.toNat ∧ c.toNat ≤ 90 then some (c.toNat - 65 + 10)
  else none

/-- The digit loop of `strconv.ParseUint`, without the range check. -/
def parseDigits (base : Nat) : Nat → List Char → Option Nat
  | acc, [] => some acc
  | acc, c :: cs =>
    match digitVal c with
    | none => none
    | some d => if d < base then parseDigits base (acc * base + d) cs else none

/-- Magnitude of a number text: at least one digit, all of them below the base. -/
def parseMagnitude (base : Nat) (cs : List Char) : Option Nat :=
  match cs with
  | [] => none
  | _ :: _ => parseDigits base 0 cs

/-- Go `strconv.ParseInt(s, base, bitSize)` for a base other than 0 and a bit size
other than 0: `none` stands for a non-nil error (syntax or range). -/
def ParseInt (s : String) (base bitSize : Nat) : Option Int :=
  match s.data with
  | [] => none
  | c :: cs =>
    if c = '-' then
      match parseMagnitude base cs with
      | none => none
      | some n => if n ≤ 2 ^ (bitSize - 1) then some (-(n : Int)) else none
    else
      match parseMagnitude base (if c = '+' then cs else c :: cs) with
      | none => none
      | some n => if n < 2 ^ (bitSize - 1) then some (n : Int) else none

/-- Width of Go `int`, which `ParseInt` uses for bit size 0. -/
def intSize : Nat := 64

/-- Go `fmt.Sprintf("%d", n)`. -/
def fmtDecimal (n : Int) : String :=
  match n with
  | Int.ofNat k => String.mk (Nat.toDigits 10 k)
  | Int.negSucc k => String.mk ('-' :: Nat.toDigits 10 (k + 1))

/-- Left padding with zeros up to a width. -/
def zeroPad (width : Nat) (ds : List Char) : List Char :=
  List.replicate (width - ds.length) '0' ++ ds

/-- Go `fmt.Sprintf("#%06x", n)`: lower-case hexadecimal, zero padded to six
characters, the sign of a negative number taking one of them. -/
def fmtColor (n : Int) : String :=
  match n with
  | Int.ofNat k => String.mk ('#' :: zeroPad 6 (Nat.toDigits 16 k))
  | Int.negSucc k => String.mk ('#' :: '-' :: zeroPad 5 (Nat.toDigits 16 (k + 1)))

/-! ## Data model (`manager.go`, `utils.go`, `mqtt_agent.go`) -/

/-- An instant: nanoseconds since the zero `time.Time`. -/
abbrev Time := Int

/-- Go `t.After(u)`. -/
def After (t u : Time) : Bool := decide (u < t)

/-- The constant `6 * time.Second`, in nanoseconds. -/
def cmdTsDampenInterval : Int := 6 * 1000000000

/-- Default budget of `CmdLightColor`. -/
def DefaultAutoOffSeconds : Int := 3600

/-- The constants `Crazy`, `Solid`, `NightMode`, `Sunshine` of type `LightMode`. -/
inductive LightMode where
  | Crazy
  | Solid
  | NightMode
  | Sunshine
  deriving DecidableEq, Repr, Inhabited

/-- Go `type LightColor string`. -/
abbrev LightColor := String

/-- The constant `LightColorOff`. -/
def LightColorOff : LightColor := "off"

/-- A message of the transport: `mqtt_agent.Msg`. -/
structure Msg where
  Topic : String
  Payload : String
  deriving DecidableEq, Repr

/-- The decoded telemetry record `OperState`. -/
structure OperState where
  DiffuserOn : String
  LightOn : String
  LightColor : String
  LightDim : Int
  UptimeSec : Int
  Heap : Int
  deriving DecidableEq, Repr

/-- Observed state: `OperStateParsed`. -/
structure OperStateParsed where
  DiffuserOn : Bool
  LightOn : Bool
  LightColor : Int
  LightDim : Int
  Uptime : String
  Heap : Int
  LowWater : Bool
  Raw : String
  LastReceiveTs : String
  DiffuserOnSecs : Int
  LightOnSecs : Int
  deriving DecidableEq, Repr

/-- Desired state: `WantedState`. -/
structure WantedState where
  DiffuserOn : Bool
  LightOn : Bool
  LightColor : Int
  LightColorName : String
  LightDim : Int
  LightMode : LightMode
  LightModeName : String
  IncreaseDim : Bool
  DiffuserAutoOffSecs : Int
  LightAutoOffSecs : Int
  DampenDiffuserTs : Time
  DampenLightTs : Time
  deriving DecidableEq, Repr

/-- Counters: `Stats`. -/
structure Stats where
  PubQueryStatus : Nat
  ParseStateMsgs : Nat
  GetStateHits : Nat
  GetStateWaterHits : Nat
  deriving DecidableEq, Repr

/-- The record `ManagerState`. -/
structure ManagerState where
  WantedState : WantedState
  OperStateParsed : OperStateParsed
  Stats : Stats
  deriving DecidableEq, Repr

/-- The manager: its state, the messages it has sent on `mqttPub` (oldest first) and
the number of draws it has taken from the random source. -/
structure Manager where
  state : ManagerState
  mqttPub : List Msg
  randDraws : Nat
  deriving DecidableEq, Repr

/-- What the manager reads from outside its own state: the configured topic prefix
(`gConf.TopicPrefix`), the raw draws of `math/rand`, the result of `json.Unmarshal`
into `OperState` and into `OperState11` (its `StatusSTS` field; `none` is a decoding
error), the text `time.Now().Format(time.RFC1123)` and the text of `secondsToHuman`,
which is computed in floating point and carried as a function of its input. -/
structure Env where
  TopicPrefix : String
  rand : Nat → Nat
  unmarshalOperState : String → Option OperState
  unmarshalOperState11 : String → Option OperState
  ts : Time → String
  secondsToHuman : Int → String

/-- The value every field has when the manager is started. -/
def ManagerState.zero : ManagerState :=
  { WantedState :=
      { DiffuserOn := false, LightOn := false, LightColor := 0, LightColorName := "",
        LightDim := 0, LightMode := LightMode.Crazy, LightModeName := "",
        IncreaseDim := false, DiffuserAutoOffSecs := 0, LightAutoOffSecs := 0,
        DampenDiffuserTs := 0, DampenLightTs := 0 },
    OperStateParsed :=
      { DiffuserOn := false, LightOn := false, LightColor := 0, LightDim := 0,
        Uptime := "", Heap := 0, LowWater := false, Raw := "", LastReceiveTs := "",
        DiffuserOnSecs := 0, LightOnSecs := 0 },
    Stats :=
      { PubQueryStatus := 0, ParseStateMsgs := 0, GetStateHits := 0,
        GetStateWaterHits := 0 } }

/-- The manager built by `Start`. -/
def Start : Manager :=
  { state := ManagerState.zero, mqttPub := [], randDraws := 0 }

/-! ## Protocol codec (`mqtt_agent.go`, `utils.go`) -/

def TopicSubPower1 (e : Env) : String := e.TopicPrefix ++ "stat/POWER1"

def TopicSubPower2 (e : Env) : String := e.TopicPrefix ++ "stat/POWER2"

def TopicSubError (e : Env) : String := e.TopicPrefix ++ "stat/error"

def TopicSubStatus11 (e : Env) : String := e.TopicPrefix ++ "stat/STATUS11"

def TopicSubState (e : Env) : String := e.TopicPrefix ++ "tele/STATE"

def MsgPubCheckStatus11 (e : Env) : Msg :=
  { Topic := e.TopicPrefix ++ "cmnd/Status", Payload := "11" }

def MsgPubCheckWater (e : Env) : Msg :=
  { Topic := e.TopicPrefix ++ "cmnd/TuyaSend8", Payload := "" }

def onOff (isOn : Bool) : String :=
  if isOn then "ON" else "OFF"

def MsgPubSetDiffuser (e : Env) (isOn : Bool) : Msg :=
  { Topic := e.TopicPrefix ++ "cmnd/Power1", Payload := onOff isOn }

def MsgPubSetLight (e : Env) (isOn : Bool) : Msg :=
  { Topic := e.TopicPrefix ++ "cmnd/Power2", Payload := onOff isOn }

def MsgPubSetLightMode (e : Env) (mode : Int) : Msg :=
  { Topic := e.TopicPrefix ++ "cmnd/TuyaEnum2", Payload := fmtDecimal mode }

def MsgPubSetLightDim (e : Env) (dim : Int) : Msg :=
  { Topic := e.TopicPrefix ++ "cmnd/Dimmer0", Payload := fmtDecimal dim }

def MsgPubSetLightColor (e : Env) (color : Int) : Msg :=
  { Topic := e.TopicPrefix ++ "cmnd/Color1", Payload := fmtColor color }

/-- The method `XlateVal` of `LightMode`. -/
def LightMode.XlateVal : LightMode → String × Int
  | LightMode.Crazy => ("crazy", 0)
  | LightMode.Solid => ("solid", 1)
  | LightMode.NightMode => ("night-mode", 2)
  | LightMode.Sunshine => ("sunshine", 1)

/-- The function `parseOperLightColor`: `none` is the error result. -/
def parseOperLightColor (color : String) : Option Int :=
  ParseInt (lastField (Split (ToLower color) 'x')) 16 intSize

/-- The named values in the `switch` of the method `Int` of `LightColor`. -/
def namedColor (name : String) : Option Int :=
  if name = "out" then some 0
  else if name = "none" then some 0
  else if name = "off" then some 0
  else if name = "black" then some 0
  else if name = "red" then some 0xff0000
  else if name = "green" then some 0x00ff00
  else if name = "blue" then some 0x0000ff
  else if name = "yellow" then some 0xffff00
  else if name = "cyan" then some 0x00ffff
  else if name = "magenta" then some 0xff00ff
  else if name = "purple" then some 0x4b0082
  else if name = "pink" then some 0xff1493
  else if name = "orange" then some 0xff8c00
  else if name = "brown" then some 0x8b4513
  else if name = "gold" then some 0xd4Af37
  else if name = "snow" then some 0xfffafa
  else if name = "azure" then some 0xf0ffff
  else if name = "white" then some 0xffffff
  else none

/-- Go `rand.Intn(n)` on one raw draw. -/
def Intn (raw n : Nat) : Nat := raw % n

/-- The method `Int` of `LightColor` (`c.Int()`).  `draw i` is the raw value of the `i`-th draw
the call would take from the random source; the result is the colour value and the
number of draws taken (3 in the catch-all, 0 otherwise). -/
def LightColorInt (c : LightColor) (draw : Nat → Nat) : Int × Nat :=
  let val2 := Split (ToLower c) 'x'
  let valBase := if val2.length > 1 then 16 else 10
  match ParseInt (lastField val2) valBase 32 with
  | some val3 => (val3, 0)
  | none =>
    match namedColor (ToLower c) with
    | some v => (v, 0)
    | none =>
      let red := Intn (draw 0) 256
      let green := Intn (draw 1) 256
      let blue := Intn (draw 2) 256
      (((blue + green <<< 8 + red <<< 16 : Nat) : Int), 3)

/-! ## Message parser (`manager.go`) -/

/-- Sending on the channel: `m.mqttPub <- msg`. -/
def publish (msg : Msg) (m : Manager) : Manager :=
  { m with mqttPub := m.mqttPub ++ [msg] }

def msgParseStatePower1 (raw : String) (m : Manager) : Manager :=
  let m1 : Manager := { m with state.OperStateParsed.DiffuserOn := decide (ToLower raw = "on") }
  if !m1.state.OperStateParsed.DiffuserOn then
    { m1 with state.OperStateParsed.DiffuserOnSecs := 0 }
  else m1

def msgParseStatePower2 (raw : String) (m : Manager) : Manager :=
  let m1 : Manager := { m with state.OperStateParsed.LightOn := decide (ToLower raw = "on") }
  if !m1.state.OperStateParsed.LightOn then
    { m1 with state.OperStateParsed.LightOnSecs := 0 }
  else m1

def msgParseStateCommon (e : Env) (now : Time) (o : OperState) (raw : String)
    (m : Manager) : Manager :=
  if o.DiffuserOn = "" ∨ o.LightOn = "" ∨ o.LightColor = "" then m
  else
    let m1 : Manager :=
      { m with state.OperStateParsed.DiffuserOn := decide (ToLower o.DiffuserOn = "on") }
    let m2 : Manager :=
      if !m1.state.OperStateParsed.DiffuserOn then
        { m1 with state.OperStateParsed.DiffuserOnSecs := 0 }
      else m1
    let m3 : Manager :=
      { m2 with state.OperStateParsed.LightOn := decide (ToLower o.LightOn = "on") }
    let m4 : Manager :=
      if !m3.state.OperStateParsed.LightOn then
        { m3 with state.OperStateParsed.LightOnSecs := 0 }
      else m3
    let m5 : Manager :=
      match parseOperLightColor o.LightColor with
      | some lightColor => { m4 with state.OperStateParsed.LightColor := lightColor }
      | none => m4
    { m5 with
      state.OperStateParsed.LightDim := o.LightDim
      state.OperStateParsed.Uptime := e.secondsToHuman o.UptimeSec
      state.OperStateParsed.Heap := o.Heap
      state.OperStateParsed.Raw := raw
      state.OperStateParsed.LastReceiveTs := e.ts now
      state.Stats.ParseStateMsgs := m5.state.Stats.ParseStateMsgs + 1 }

def msgParseState (e : Env) (now : Time) (payload : String) (m : Manager) : Manager :=
  match e.unmarshalOperState payload with
  | none => m
  | some o => msgParseStateCommon e now o payload m

def msgParseStatus11 (e : Env) (now : Time) (payload : String) (m : Manager) : Manager :=
  match e.unmarshalOperState11 payload with
  | none => m
  | some o => msgParseStateCommon e now o payload m

def msgParseSmokeyError (payload : String) (m : Manager) : Manager :=
  let payload2 := Split (ToLower payload) 'x'
  match ParseInt (lastField payload2) 16 64 with
  | none => m
  | some value =>
    let newLowWater : Bool := decide (Int.land value 1 = 1)
    if newLowWater = m.state.OperStateParsed.LowWater then m
    else
      let m1 : Manager := { m with state.OperStateParsed.LowWater := newLowWater }
      if newLowWater then { m1 with state.WantedState.DiffuserOn := false }
      else m1

/-! ## Command encoder (`manager.go`) -/

def cmdPubQueryStatus (e : Env) (m : Manager) : Manager :=
  let m1 := publish (MsgPubCheckStatus11 e) m
  let m2 := publish (MsgPubCheckWater e) m1
  { m2 with state.Stats.PubQueryStatus := m2.state.Stats.PubQueryStatus + 1 }

def cmdDiffuser (e : Env) (now : Time) (isOn : Bool) (m : Manager) : Manager :=
  let m1 := publish (MsgPubSetDiffuser e isOn) m
  let m2 := cmdPubQueryStatus e m1
  { m2 with
    state.OperStateParsed.DiffuserOnSecs := 0
    state.WantedState.DampenDiffuserTs := now + cmdTsDampenInterval }

def cmdDiffuserOn (e : Env) (now : Time) (autoOffSecs : Int) (m : Manager) : Manager :=
  let m1 : Manager :=
    { m with
      state.WantedState.DiffuserAutoOffSecs := autoOffSecs
      state.WantedState.DiffuserOn := true }
  cmdDiffuser e now m1.state.WantedState.DiffuserOn m1

def cmdDiffuserOff (e : Env) (now : Time) (m : Manager) : Manager :=
  let m1 : Manager := { m with state.WantedState.DiffuserOn := false }
  cmdDiffuser e now m1.state.WantedState.DiffuserOn m1

def currentState (m : Manager) : Manager :=
  { m with state.Stats.GetStateHits := m.state.Stats.GetStateHits + 1 }

def currentStateWater (m : Manager) : Manager :=
  { m with state.Stats.GetStateWaterHits := m.state.Stats.GetStateWaterHits + 1 }

def cmdLightColor (e : Env) (color : LightColor) (m : Manager) : Manager :=
  let r := LightColorInt color (fun i => e.rand (m.randDraws + i))
  let colorInt := r.1
  let m1 : Manager :=
    { m with
      randDraws := m.randDraws + r.2
      state.WantedState.LightColor := colorInt
      state.WantedState.LightColorName := color }
  publish (MsgPubSetLightColor e colorInt) m1

def cmdLightDim (e : Env) (dim : Int) (m : Manager) : Manager :=
  let m1 : Manager := { m with state.WantedState.LightDim := dim }
  publish (MsgPubSetLightDim e dim) m1

def cmdLight (e : Env) (now : Time) (isOn : Bool) (mode : LightMode) (color : LightColor)
    (m : Manager) : Manager :=
  let m1 : Manager :=
    if isOn ≠ m.state.OperStateParsed.LightOn then publish (MsgPubSetLight e isOn) m else m
  let m2 : Manager :=
    if isOn then
      let m' := publish (MsgPubSetLightMode e mode.XlateVal.2) m1
      if mode = LightMode.Solid ∨ mode = LightMode.Sunshine then cmdLightColor e color m'
      else m'
    else m1
  let m3 := cmdPubQueryStatus e m2
  { m3 with
    state.OperStateParsed.LightOnSecs := 0
    state.WantedState.LightMode := mode
    state.WantedState.LightModeName := mode.XlateVal.1
    state.WantedState.IncreaseDim := decide (mode = LightMode.Sunshine)
    state.WantedState.DampenLightTs := now + cmdTsDampenInterval }

def cmdLightOn (e : Env) (now : Time) (autoOffSecs : Int) (mode : LightMode)
    (color : LightColor) (m : Manager) : Manager :=
  let m1 : Manager :=
    { m with
      state.WantedState.LightAutoOffSecs := autoOffSecs
      state.WantedState.LightOn := true }
  let m2 := cmdLight e now m1.state.WantedState.LightOn mode color m1
  if mode = LightMode.Sunshine then cmdLightDim e 1 m2 else m2

def cmdLightOff (e : Env) (now : Time) (m : Manager) : Manager :=
  let m1 : Manager := { m with state.WantedState.LightOn := false }
  cmdLight e now m1.state.WantedState.LightOn LightMode.Solid LightColorOff m1

/-! ## Reconciliation loop (`manager.go`) -/

def recalculateLightAutoOff (m : Manager) : Int :=
  let newAutoOffSecs := m.state.WantedState.LightAutoOffSecs
  if newAutoOffSecs > 0 then
    let newAutoOffSecs := newAutoOffSecs - m.state.OperStateParsed.LightOnSecs
    if newAutoOffSecs ≤ 0 then 1 else newAutoOffSecs
  else newAutoOffSecs

def bumpIncreaseDim (e : Env) (now : Time) (m : Manager) : Manager :=
  if !m.state.WantedState.LightOn ∨ !m.state.OperStateParsed.LightOn ∨
      m.state.WantedState.LightMode ≠ LightMode.Sunshine then m
  else if m.state.WantedState.LightDim ≥ 99 then
    let newAutoOffSecs := recalculateLightAutoOff m
    cmdLightOn e now newAutoOffSecs LightMode.Crazy "" m
  else cmdLightDim e (m.state.WantedState.LightDim + 1) m

/-- The part of `handleSecondTick` under its comment `// Diffuser`. -/
def handleSecondTickDiffuser (e : Env) (now : Time) (m : Manager) : Manager :=
  if m.state.OperStateParsed.DiffuserOn ≠ m.state.WantedState.DiffuserOn ∧
      After now m.state.WantedState.DampenDiffuserTs then
    cmdDiffuser e now m.state.WantedState.DiffuserOn m
  else if m.state.OperStateParsed.DiffuserOn then
    let m1 : Manager :=
      { m with
        state.OperStateParsed.DiffuserOnSecs := m.state.OperStateParsed.DiffuserOnSecs + 1 }
    if m1.state.WantedState.DiffuserOn ∧ m1.state.WantedState.DiffuserAutoOffSecs > 0 ∧
        m1.state.OperStateParsed.DiffuserOnSecs ≥ m1.state.WantedState.DiffuserAutoOffSecs then
      cmdDiffuserOff e now m1
    else m1
  else m

/-- The part of `handleSecondTick` under its comment `// Light`. -/
def handleSecondTickLight (e : Env) (now : Time) (m : Manager) : Manager :=
  if m.state.OperStateParsed.LightOn ≠ m.state.WantedState.LightOn ∧
      After now m.state.WantedState.DampenLightTs then
    if m.state.WantedState.LightOn then
      let newAutoOffSecs := recalculateLightAutoOff m
      let sameStrColor : LightColor := m.state.WantedState.LightColorName
      let savedDim := m.state.WantedState.LightDim
      let m1 := cmdLightOn e now newAutoOffSecs m.state.WantedState.LightMode sameStrColor m
      if m1.state.WantedState.LightMode = LightMode.Sunshine then cmdLightDim e savedDim m1
      else m1
    else cmdLightOff e now m
  else if m.state.OperStateParsed.LightOn then
    let m1 : Manager :=
      { m with state.OperStateParsed.LightOnSecs := m.state.OperStateParsed.LightOnSecs + 1 }
    if m1.state.WantedState.LightOn ∧ m1.state.WantedState.LightAutoOffSecs > 0 ∧
        m1.state.OperStateParsed.LightOnSecs ≥ m1.state.WantedState.LightAutoOffSecs then
      cmdLightOff e now m1
    else m1
  else m

def handleSecondTick (e : Env) (now : Time) (m : Manager) : Manager :=
  handleSecondTickLight e now (handleSecondTickDiffuser e now m)

/-- The closures the public operations put on the command channel `cmds`. -/
inductive Command where
  | CurrState
  | CurrStateWater
  | CmdDiffuserOn (autoOffSecs : Int)
  | CmdDiffuserOff
  | CmdLightOn (autoOffSecs : Int) (mode : LightMode) (color : LightColor)
  | CmdLightColor (color : LightColor)
  | CmdLightDim (dim : Int)
  | CmdLightOff
  | CmdQueryStatus
  deriving DecidableEq, Repr

/-- The method `run` of a queued command: the body of its closure. -/
def Command.run (e : Env) (now : Time) (cmd : Command) (m : Manager) : Manager :=
  match cmd with
  | Command.CurrState => currentState m
  | Command.CurrStateWater => currentStateWater m
  | Command.CmdDiffuserOn autoOffSecs => cmdDiffuserOn e now autoOffSecs m
  | Command.CmdDiffuserOff => cmdDiffuserOff e now m
  | Command.CmdLightOn autoOffSecs mode color => cmdLightOn e now autoOffSecs mode color m
  | Command.CmdLightColor color =>
    let r := LightColorInt color (fun i => e.rand (m.randDraws + i))
    let colorInt := r.1
    let m1 : Manager := { m with randDraws := m.randDraws + r.2 }
    if colorInt = 0 then cmdLightOff e now m1
    else if m1.state.WantedState.LightMode ≠ LightMode.Solid ∨
        !m1.state.OperStateParsed.LightOn then
      cmdLightOn e now DefaultAutoOffSeconds LightMode.Solid color m1
    else cmdLightColor e color m1
  | Command.CmdLightDim dim => cmdLightDim e dim m
  | Command.CmdLightOff => cmdLightOff e now m
  | Command.CmdQueryStatus => cmdPubQueryStatus e m

/-- The cases of the `select` in `mainLoop`. -/
inductive Event where
  | mqttSub (msg : Msg)
  | secondTick
  | checkStatusTickFast
  | checkStatusTickSlow
  | cmds (cmd : Command)
  | timeout
  deriving DecidableEq, Repr

/-- One turn of the `for`/`select` loop of `mainLoop`, taken at the instant `now`. -/
def mainLoop (e : Env) (now : Time) (ev : Event) (m : Manager) : Manager :=
  match ev with
  | Event.mqttSub msg =>
    if msg.Topic = TopicSubPower1 e then msgParseStatePower1 msg.Payload m
    else if msg.Topic = TopicSubPower2 e then msgParseStatePower2 msg.Payload m
    else if msg.Topic = TopicSubState e then msgParseState e now msg.Payload m
    else if msg.Topic = TopicSubStatus11 e then msgParseStatus11 e now msg.Payload m
    else if msg.Topic = TopicSubError e then msgParseSmokeyError msg.Payload m
    else m
  | Event.secondTick => handleSecondTick e now m
  | Event.checkStatusTickFast =>
    let m1 : Manager :=
      if m.state.OperStateParsed.DiffuserOn ∨ m.state.OperStateParsed.LightOn ∨
          m.state.OperStateParsed.DiffuserOn ≠ m.state.WantedState.DiffuserOn ∨
          m.state.OperStateParsed.LightOn ≠ m.state.WantedState.LightOn then
        cmdPubQueryStatus e m
      else m
    bumpIncreaseDim e now m1
  | Event.checkStatusTickSlow => cmdPubQueryStatus e m
  | Event.cmds cmd => cmd.run e now m
  | Event.timeout => m

/-- The manager after the loop has served a list of events, each at its own instant. -/
def runEvents (e : Env) : List (Time × Event) → Manager → Manager
  | [], m => m
  | (now, ev) :: rest, m => runEvents e rest (mainLoop e now ev m)

/-- The states the manager can be in. -/
def Reachable (e : Env) (m : Manager) : Prop :=
  ∃ evs : List (Time × Event), m = runEvents e evs Start

/-! ## Vocabulary of the properties -/

/-- The two actuators of the appliance. -/
inductive Actuator where
  | diffuser
  | light
  deriving DecidableEq, Repr

/-- Observed on/off flag of an actuator. -/
def Actuator.observedOn (a : Actuator) (m : Manager) : Bool :=
  match a with
  | Actuator.diffuser => m.state.OperStateParsed.DiffuserOn
  | Actuator.light => m.state.OperStateParsed.LightOn

/-- Wanted on/off flag of an actuator. -/
def Actuator.wantedOn (a : Actuator) (m : Manager) : Bool :=
  match a with
  | Actuator.diffuser => m.state.WantedState.DiffuserOn
  | Actuator.light => m.state.WantedState.LightOn

/-- Debounce deadline of an actuator. -/
def Actuator.dampenTs (a : Actuator) (m : Manager) : Time :=
  match a with
  | Actuator.diffuser => m.state.WantedState.DampenDiffuserTs
  | Actuator.light => m.state.WantedState.DampenLightTs

/-- Continuous-on counter of an actuator. -/
def Actuator.onSecs (a : Actuator) (m : Manager) : Int :=
  match a with
  | Actuator.diffuser => m.state.OperStateParsed.DiffuserOnSecs
  | Actuator.light => m.state.OperStateParsed.LightOnSecs

/-- Auto-off budget of an actuator. -/
def Actuator.autoOffSecs (a : Actuator) (m : Manager) : Int :=
  match a with
  | Actuator.diffuser => m.state.WantedState.DiffuserAutoOffSecs
  | Actuator.light => m.state.WantedState.LightAutoOffSecs

/-- Power topic of an actuator: `cmnd/Power1` or `cmnd/Power2` after the prefix. -/
def Actuator.powerTopic (a : Actuator) (e : Env) : String :=
  match a with
  | Actuator.diffuser => e.TopicPrefix ++ "cmnd/Power1"
  | Actuator.light => e.TopicPrefix ++ "cmnd/Power2"

/-- The messages sent between an earlier and a later manager. -/
def published (before after : Manager) : List Msg :=
  after.mqttPub.drop before.mqttPub.length

/-- The messages of a list that carry a given topic. -/
def onTopic (topic : String) (msgs : List Msg) : List Msg :=
  msgs.filter (fun msg => decide (msg.Topic = topic))

/-- A configuration for concrete runs: prefix `smokey/`, all random draws 0, no
telemetry decodes. -/
def demoEnv : Env :=
  { TopicPrefix := "smokey/", rand := fun _ => 0, unmarshalOperState := fun _ => none,
    unmarshalOperState11 := fun _ => none, ts := fun _ => "", secondsToHuman := fun _ => "" }

/-- A concrete manager: started, then the diffuser is wanted on with a budget of 60
seconds while it is still observed off. -/
def wantsDiffuserOn : Manager :=
  { Start with
    state.WantedState.DiffuserOn := true
    state.WantedState.DiffuserAutoOffSecs := 60 }

/-- A concrete manager: the light is observed on, has been so for 5 seconds, and is
wanted off; the light deadline is at 10 seconds. -/
def wantsLightOff : Manager :=
  { Start with
    state.OperStateParsed.LightOn := true
    state.OperStateParsed.LightOnSecs := 5
    state.WantedState.DampenLightTs := 10 * 1000000000 }

/-- The counter invariant of the observed state: an actuator that is observed off has
a continuous-on counter of 0. -/
def OnSecsZeroWhenOff (m : Manager) : Prop :=
  (m.state.OperStateParsed.DiffuserOn = false → m.state.OperStateParsed.DiffuserOnSecs = 0) ∧
  (m.state.OperStateParsed.LightOn = false → m.state.OperStateParsed.LightOnSecs = 0)

/-- A concrete run from the start: the diffuser is reported on, two seconds pass, the
diffuser is reported off. -/
def demoRun : List (Time × Event) :=
  [(1, Event.mqttSub { Topic := "smokey/stat/POWER1", Payload := "ON" }),
   (2, Event.secondTick),
   (3, Event.secondTick),
   (4, Event.mqttSub { Topic := "smokey/stat/POWER1", Payload := "OFF" })]

/-- A concrete manager: the diffuser is observed on and wanted on with a budget of 60
seconds, and has been on for 59 seconds. -/
def diffuserNearBudget : Manager :=
  { Start with
    state.OperStateParsed.DiffuserOn := true
    state.OperStateParsed.DiffuserOnSecs := 59
    state.WantedState.DiffuserOn := true
    state.WantedState.DiffuserAutoOffSecs := 60 }

/-- Consecutive Sunshine ramp steps, one `bumpIncreaseDim` at each of the given
instants, with no other event in between. -/
def rampSteps (e : Env) : List Time → Manager → Manager
  | [], m => m
  | now :: rest, m => rampSteps e rest (bumpIncreaseDim e now m)

/-- The light is wanted on, observed on and in Sunshine mode: the ramp step applies. -/
def Ramping (m : Manager) : Prop :=
  m.state.WantedState.LightOn = true ∧ m.state.OperStateParsed.LightOn = true ∧
    m.state.WantedState.LightMode = LightMode.Sunshine

/-- A concrete manager: started, with the light observed on. -/
def lightObservedOn : Manager :=
  { Start with state.OperStateParsed.LightOn := true }

/-- A concrete manager: the light is wanted on and observed on in Sunshine mode at full
brightness, with no auto-off budget, and has been on for 5 seconds. -/
def sunshineAtFullNoBudget : Manager :=
  { Start with
    state.OperStateParsed.LightOn := true
    state.OperStateParsed.LightOnSecs := 5
    state.WantedState.LightOn := true
    state.WantedState.LightMode := LightMode.Sunshine
    state.WantedState.IncreaseDim := true
    state.WantedState.LightDim := 99
    state.WantedState.LightAutoOffSecs := 0 }

/-- A concrete manager: as before, with a budget of 3600 seconds of which 1500 have
passed. -/
def sunshineAtFull : Manager :=
  { Start with
    state.OperStateParsed.LightOn := true
    state.OperStateParsed.LightOnSecs := 1500
    state.WantedState.LightOn := true
    state.WantedState.LightMode := LightMode.Sunshine
    state.WantedState.IncreaseDim := true
    state.WantedState.LightDim := 99
    state.WantedState.LightAutoOffSecs := 3600 }

/-- A concrete manager: the light is wanted on and observed on in Sunshine mode at
dim 1. -/
def sunshineAtOne : Manager :=
  { Start with
    state.OperStateParsed.LightOn := true
    state.WantedState.LightOn := true
    state.WantedState.LightMode := LightMode.Sunshine
    state.WantedState.IncreaseDim := true
    state.WantedState.LightDim := 1 }

/-- A concrete manager: the diffuser is wanted on and low water has been reported. -/
def lowWaterKnown : Manager :=
  { Start with
    state.OperStateParsed.LowWater := true
    state.WantedState.DiffuserOn := true }

/-- The number an error-topic payload decodes to: the text after the last `x` of the
lower-cased payload, read as hexadecimal in 64 bits (`none`: the conversion fails). -/
def errorValue (payload : String) : Option Int :=
  ParseInt (lastField (Split (ToLower payload) 'x')) 16 64

/-- A concrete telemetry record: diffuser on, light off, and a colour text that is not
hexadecimal. -/
def badColorRecord : OperState :=
  { DiffuserOn := "ON", LightOn := "OFF", LightColor := "zz", LightDim := 40,
    UptimeSec := 100, Heap := 27 }

/-- A concrete telemetry record with an empty `POWER1` field. -/
def emptyPowerRecord : OperState :=
  { DiffuserOn := "", LightOn := "OFF", LightColor := "FF2A00", LightDim := 40,
    UptimeSec := 100, Heap := 27 }

/-- The sixteen palette names of the colour command with their 24-bit values. -/
def palette : List (String × Int) :=
  [("off", 0), ("black", 0), ("red", 0xff0000), ("green", 0x00ff00), ("blue", 0x0000ff),
   ("yellow", 0xffff00), ("cyan", 0x00ffff), ("magenta", 0xff00ff), ("purple", 0x4b0082),
   ("pink", 0xff1493), ("orange", 0xff8c00), ("brown", 0x8b4513), ("gold", 0xd4af37),
   ("snow", 0xfffafa), ("azure", 0xf0ffff), ("white", 0xffffff)]

/-- The number a colour text is read as by the first step of `c.Int()`: the text after
the last `x` of the lower-cased colour, in base 16 when there is an `x` and in base 10
otherwise, within 32 bits (`none`: the text is not such a number). -/
def numericValue (c : LightColor) : Option Int :=
  ParseInt (lastField (Split (ToLower c) 'x'))
    (if (Split (ToLower c) 'x').length > 1 then 16 else 10) 32

/-- A lower-case hexadecimal digit. -/
def isLowerHex (c : Char) : Bool :=
  (decide (48 ≤ c.toNat) && decide (c.toNat ≤ 57)) ||
    (decide (97 ≤ c.toNat) && decide (c.toNat ≤ 102))

/-- A text without its first character. -/
def dropFirst (s : String) : String :=
  String.mk s.data.tail

/-- A concrete manager: the light is observed on and wanted on in Solid mode. -/
def solidLightOn : Manager :=
  { Start with
    state.OperStateParsed.LightOn := true
    state.OperStateParsed.LightOnSecs := 20
    state.WantedState.LightOn := true
    state.WantedState.LightMode := LightMode.Solid
    state.WantedState.LightModeName := "solid"
    state.WantedState.LightAutoOffSecs := 600 }

/-- The manager `m` with its counters and its list of sent messages replaced. -/
def rebase (st : Stats) (pub : List Msg) (m : Manager) : Manager :=
  { m with state.Stats := st, mqttPub := pub }

/-- An operation is blind to the counters at `m`: run from `m` with any other counters
and any other history of sent messages, it sends the same new messages and reaches the
same wanted state, observed state and random cursor; only the counters may differ, as
a function of the counters it started with. -/
def StatsBlind (op : Manager → Manager) (m : Manager) : Prop :=
  ∃ (f : Stats → Stats) (out : List Msg),
    ∀ (st : Stats) (pub : List Msg), op (rebase st pub m) = rebase (f st) (pub ++ out) (op m)

/-- A concrete manager: `diffuserNearBudget` with other counters. -/
def diffuserNearBudgetCounted : Manager :=
  { diffuserNearBudget with
    state.Stats :=
      { PubQueryStatus := 7, ParseStateMsgs := 40, GetStateHits := 3, GetStateWaterHits := 1 } }

/-- A concrete telemetry record: diffuser on, light off, colour `FF2A00`. -/
def goodRecord : OperState :=
  { DiffuserOn := "ON", LightOn := "OFF", LightColor := "FF2A00", LightDim := 100,
    UptimeSec := 1463715, Heap := 27 }

/-- The test of the 15-second tick: an actuator is observed on, or observed and wanted
differ for an actuator. -/
def needsStatusQuery (m : Manager) : Prop :=
  m.state.OperStateParsed.DiffuserOn = true ∨ m.state.OperStateParsed.LightOn = true ∨
    m.state.OperStateParsed.DiffuserOn ≠ m.state.WantedState.DiffuserOn ∨
    m.state.OperStateParsed.LightOn ≠ m.state.WantedState.LightOn

/-- A concrete manager: the light is wanted on in Sunshine mode at dim 40 and observed
off. -/
def sunshineObservedOff : Manager :=
  { Start with
    state.WantedState.LightOn := true
    state.WantedState.LightMode := LightMode.Sunshine
    state.WantedState.IncreaseDim := true
    state.WantedState.LightDim := 40
    state.WantedState.LightColorName := "gold"
    state.WantedState.LightAutoOffSecs := 3600 }

/-- A concrete run from the start: `CmdLightOn(3600, Solid, "red")` while the light is
observed off. -/
def demoLightOnRun : List (Time × Event) :=
  [(0, Event.cmds (Command.CmdLightOn 3600 LightMode.Solid "red"))]


/-- The increase-dim flag agrees with the light mode: it is set exactly in Sunshine. -/
def IncreaseDimIffSunshine (m : Manager) : Prop :=
  m.state.WantedState.IncreaseDim = true ↔ m.state.WantedState.LightMode = LightMode.Sunshine

/-- A concrete run from the start: `CmdLightOn(3600, Sunshine, "gold")`. -/
def demoSunshineRun : List (Time × Event) :=
  [(0, Event.cmds (Command.CmdLightOn 3600 LightMode.Sunshine "gold"))]

/-- The low-water report of the device: payload `0x1` on the error topic. -/
def lowWaterReport (e : Env) : Event :=
  Event.mqttSub { Topic := TopicSubError e, Payload := "0x1" }

/-- The diffuser is wanted on although low water is known, it is observed off, and an
"ON" command for it has been sent. -/
def WantedOnAtLowWater (e : Env) (m : Manager) : Prop :=
  m.state.OperStateParsed.LowWater = true ∧ m.state.WantedState.DiffuserOn = true ∧
    m.state.OperStateParsed.DiffuserOn = false ∧ MsgPubSetDiffuser e true ∈ m.mqttPub

/-! ### `LightModeVal` (`utils.go`) -/

/-- The UTF-8 encoding of a character: the bytes Go stores for it in a string. -/
def utf8Bytes (c : Char) : List Nat :=
  if c.toNat < 0x80 then [c.toNat]
  else if c.toNat < 0x800 then [0xC0 + c.toNat / 64, 0x80 + c.toNat % 64]
  else if c.toNat < 0x10000 then
    [0xE0 + c.toNat / 4096, 0x80 + c.toNat / 64 % 64, 0x80 + c.toNat % 64]
  else
    [0xF0 + c.toNat / 262144, 0x80 + c.toNat / 4096 % 64, 0x80 + c.toNat / 64 % 64,
      0x80 + c.toNat % 64]

/-- The bytes of a list of characters. -/
def bytesOfChars : List Char → List Nat
  | [] => []
  | c :: cs => utf8Bytes c ++ bytesOfChars cs

/-- The bytes of a Go string; `len(s)` is the length of this list. -/
def bytesOf (s : String) : List Nat :=
  bytesOfChars s.data

/-- What a call of `LightModeVal` does: it returns a mode with a nil error, it returns
an error (with the mode `Crazy`), or its slice expression `[:2]` is out of range and the
call does not return. -/
inductive ModeOutcome where
  | returned (mode : LightMode)
  | failed
  | sliceOutOfRange
  deriving DecidableEq, Repr

/-- The function `LightModeVal`: the guard is on the byte length of the input, the slice
`[:2]` is taken from the lower-cased input.  The outcome only depends on whether the
lower-cased text has two bytes and on whether its first two bytes are ASCII letters, and
`unicodeToLower` is exact on every code point that lower-cases into ASCII. -/
def LightModeVal (l : String) : ModeOutcome :=
  if (bytesOf l).length < 2 then ModeOutcome.failed
  else if (bytesOf (ToLower l)).length < 2 then ModeOutcome.sliceOutOfRange
  else if (bytesOf (ToLower l)).take 2 = bytesOf "cr" then
    ModeOutcome.returned LightMode.Crazy
  else if (bytesOf (ToLower l)).take 2 = bytesOf "so" then
    ModeOutcome.returned LightMode.Solid
  else if (bytesOf (ToLower l)).take 2 = bytesOf "ni" then
    ModeOutcome.returned LightMode.NightMode
  else if (bytesOf (ToLower l)).take 2 = bytesOf "su" then
    ModeOutcome.returned LightMode.Sunshine
  else ModeOutcome.failed

/-! ## Helper lemmas -/

theorem prefix_append_inj (p a b : String) : p ++ a = p ++ b ↔ a = b := by
  constructor
  · intro h
    have h1 : (p ++ a).data = (p ++ b).data := by rw [h]
    simp only [String.data_append] at h1
    exact String.ext (List.append_cancel_left h1)
  · intro h
    rw [h]

theorem published_append (m m1 : Manager) (out : List Msg)
    (h : m1.mqttPub = m.mqttPub ++ out) : published m m1 = out := by
  simp [published, h]

/-! ### What each command does to the state, the sent messages and the random cursor -/

@[simp] theorem publish_state (msg : Msg) (m : Manager) : (publish msg m).state = m.state := rfl

@[simp] theorem publish_mqttPub (msg : Msg) (m : Manager) :
    (publish msg m).mqttPub = m.mqttPub ++ [msg] := rfl

@[simp] theorem publish_randDraws (msg : Msg) (m : Manager) :
    (publish msg m).randDraws = m.randDraws := rfl

@[simp] theorem cmdPubQueryStatus_state (e : Env) (m : Manager) :
    (cmdPubQueryStatus e m).state =
      { m.state with Stats.PubQueryStatus := m.state.Stats.PubQueryStatus + 1 } := rfl

@[simp] theorem cmdPubQueryStatus_mqttPub (e : Env) (m : Manager) :
    (cmdPubQueryStatus e m).mqttPub =
      m.mqttPub ++ [MsgPubCheckStatus11 e, MsgPubCheckWater e] := by
  simp [cmdPubQueryStatus]

@[simp] theorem cmdPubQueryStatus_randDraws (e : Env) (m : Manager) :
    (cmdPubQueryStatus e m).randDraws = m.randDraws := rfl

@[simp] theorem cmdDiffuser_state (e : Env) (now : Time) (isOn : Bool) (m : Manager) :
    (cmdDiffuser e now isOn m).state =
      { m.state with
        OperStateParsed.DiffuserOnSecs := 0
        WantedState.DampenDiffuserTs := now + cmdTsDampenInterval
        Stats.PubQueryStatus := m.state.Stats.PubQueryStatus + 1 } := rfl

@[simp] theorem cmdDiffuser_mqttPub (e : Env) (now : Time) (isOn : Bool) (m : Manager) :
    (cmdDiffuser e now isOn m).mqttPub =
      m.mqttPub ++ [MsgPubSetDiffuser e isOn, MsgPubCheckStatus11 e, MsgPubCheckWater e] := by
  simp [cmdDiffuser]

@[simp] theorem cmdDiffuser_randDraws (e : Env) (now : Time) (isOn : Bool) (m : Manager) :
    (cmdDiffuser e now isOn m).randDraws = m.randDraws := rfl

@[simp] theorem cmdDiffuserOff_state (e : Env) (now : Time) (m : Manager) :
    (cmdDiffuserOff e now m).state =
      { m.state with
        OperStateParsed.DiffuserOnSecs := 0
        WantedState.DiffuserOn := false
        WantedState.DampenDiffuserTs := now + cmdTsDampenInterval
        Stats.PubQueryStatus := m.state.Stats.PubQueryStatus + 1 } := rfl

@[simp] theorem cmdDiffuserOff_mqttPub (e : Env) (now : Time) (m : Manager) :
    (cmdDiffuserOff e now m).mqttPub =
      m.mqttPub ++ [MsgPubSetDiffuser e false, MsgPubCheckStatus11 e, MsgPubCheckWater e] := by
  simp [cmdDiffuserOff]

@[simp] theorem cmdDiffuserOff_randDraws (e : Env) (now : Time) (m : Manager) :
    (cmdDiffuserOff e now m).randDraws = m.randDraws := rfl

@[simp] theorem cmdDiffuserOn_state (e : Env) (now : Time) (autoOffSecs : Int) (m : Manager) :
    (cmdDiffuserOn e now autoOffSecs m).state =
      { m.state with
        OperStateParsed.DiffuserOnSecs := 0
        WantedState.DiffuserOn := true
        WantedState.DiffuserAutoOffSecs := autoOffSecs
        WantedState.DampenDiffuserTs := now + cmdTsDampenInterval
        Stats.PubQueryStatus := m.state.Stats.PubQueryStatus + 1 } := rfl

@[simp] theorem cmdDiffuserOn_mqttPub (e : Env) (now : Time) (autoOffSecs : Int)
    (m : Manager) :
    (cmdDiffuserOn e now autoOffSecs m).mqttPub =
      m.mqttPub ++ [MsgPubSetDiffuser e true, MsgPubCheckStatus11 e, MsgPubCheckWater e] := by
  simp [cmdDiffuserOn]

@[simp] theorem cmdDiffuserOn_randDraws (e : Env) (now : Time) (autoOffSecs : Int)
    (m : Manager) : (cmdDiffuserOn e now autoOffSecs m).randDraws = m.randDraws := rfl

/-- The colour value a call of `color.Int()` returns in the manager `m`. -/
def colorValue (e : Env) (color : LightColor) (m : Manager) : Int :=
  (LightColorInt color (fun i => e.rand (m.randDraws + i))).1

/-- The number of random draws a call of `color.Int()` takes in the manager `m`. -/
def colorDraws (e : Env) (color : LightColor) (m : Manager) : Nat :=
  (LightColorInt color (fun i => e.rand (m.randDraws + i))).2

/-- The manager after the call of `color.Int()` at the head of the `CmdLightColor`
closure: the random cursor has moved past the draws of that call. -/
def afterColorDraws (e : Env) (color : LightColor) (m : Manager) : Manager :=
  { m with randDraws := m.randDraws + colorDraws e color m }

@[simp] theorem cmdLightColor_state (e : Env) (color : LightColor) (m : Manager) :
    (cmdLightColor e color m).state =
      { m.state with
        WantedState.LightColor := colorValue e color m
        WantedState.LightColorName := color } := rfl

@[simp] theorem cmdLightColor_mqttPub (e : Env) (color : LightColor) (m : Manager) :
    (cmdLightColor e color m).mqttPub =
      m.mqttPub ++ [MsgPubSetLightColor e (colorValue e color m)] := rfl

@[simp] theorem cmdLightColor_randDraws (e : Env) (color : LightColor) (m : Manager) :
    (cmdLightColor e color m).randDraws = m.randDraws + colorDraws e color m := rfl

@[simp] theorem cmdLightDim_state (e : Env) (dim : Int) (m : Manager) :
    (cmdLightDim e dim m).state = { m.state with WantedState.LightDim := dim } := rfl

@[simp] theorem cmdLightDim_mqttPub (e : Env) (dim : Int) (m : Manager) :
    (cmdLightDim e dim m).mqttPub = m.mqttPub ++ [MsgPubSetLightDim e dim] := rfl

@[simp] theorem cmdLightDim_randDraws (e : Env) (dim : Int) (m : Manager) :
    (cmdLightDim e dim m).randDraws = m.randDraws := rfl

/-- Whether `cmdLight` sends a colour: the light is set on, in Solid or Sunshine. -/
def sendsColor (isOn : Bool) (mode : LightMode) : Bool :=
  isOn && (decide (mode = LightMode.Solid) || decide (mode = LightMode.Sunshine))

theorem colorValue_congr (e : Env) (color : LightColor) (m m1 : Manager)
    (h : m1.randDraws = m.randDraws) : colorValue e color m1 = colorValue e color m := by
  simp [colorValue, h]

theorem colorDraws_congr (e : Env) (color : LightColor) (m m1 : Manager)
    (h : m1.randDraws = m.randDraws) : colorDraws e color m1 = colorDraws e color m := by
  simp [colorDraws, h]

@[simp] theorem cmdLight_state (e : Env) (now : Time) (isOn : Bool) (mode : LightMode)
    (color : LightColor) (m : Manager) :
    (cmdLight e now isOn mode color m).state =
      { m.state with
        OperStateParsed.LightOnSecs := 0
        WantedState.LightColor :=
          if sendsColor isOn mode then colorValue e color m else m.state.WantedState.LightColor
        WantedState.LightColorName :=
          if sendsColor isOn mode then color else m.state.WantedState.LightColorName
        WantedState.LightMode := mode
        WantedState.LightModeName := mode.XlateVal.1
        WantedState.IncreaseDim := decide (mode = LightMode.Sunshine)
        WantedState.DampenLightTs := now + cmdTsDampenInterval
        Stats.PubQueryStatus := m.state.Stats.PubQueryStatus + 1 } := by
  cases isOn <;> cases mode <;> cases h : m.state.OperStateParsed.LightOn <;>
    simp [cmdLight, sendsColor, h, colorValue]

@[simp] theorem cmdLight_mqttPub (e : Env) (now : Time) (isOn : Bool) (mode : LightMode)
    (color : LightColor) (m : Manager) :
    (cmdLight e now isOn mode color m).mqttPub =
      m.mqttPub ++
        ((if isOn ≠ m.state.OperStateParsed.LightOn then [MsgPubSetLight e isOn] else []) ++
          ((if isOn then [MsgPubSetLightMode e mode.XlateVal.2] else []) ++
            ((if sendsColor isOn mode then [MsgPubSetLightColor e (colorValue e color m)]
              else []) ++
              [MsgPubCheckStatus11 e, MsgPubCheckWater e]))) := by
  cases isOn <;> cases mode <;> cases h : m.state.OperStateParsed.LightOn <;>
    simp [cmdLight, sendsColor, h, colorValue]

@[simp] theorem cmdLight_randDraws (e : Env) (now : Time) (isOn : Bool) (mode : LightMode)
    (color : LightColor) (m : Manager) :
    (cmdLight e now isOn mode color m).randDraws =
      m.randDraws + (if sendsColor isOn mode then colorDraws e color m else 0) := by
  cases isOn <;> cases mode <;> cases h : m.state.OperStateParsed.LightOn <;>
    simp [cmdLight, sendsColor, h, colorDraws]

@[simp] theorem cmdLightOn_state (e : Env) (now : Time) (autoOffSecs : Int) (mode : LightMode)
    (color : LightColor) (m : Manager) :
    (cmdLightOn e now autoOffSecs mode color m).state =
      { m.state with
        OperStateParsed.LightOnSecs := 0
        WantedState.LightOn := true
        WantedState.LightAutoOffSecs := autoOffSecs
        WantedState.LightColor :=
          if sendsColor true mode then colorValue e color m else m.state.WantedState.LightColor
        WantedState.LightColorName :=
          if sendsColor true mode then color else m.state.WantedState.LightColorName
        WantedState.LightDim :=
          if mode = LightMode.Sunshine then 1 else m.state.WantedState.LightDim
        WantedState.LightMode := mode
        WantedState.LightModeName := mode.XlateVal.1
        WantedState.IncreaseDim := decide (mode = LightMode.Sunshine)
        WantedState.DampenLightTs := now + cmdTsDampenInterval
        Stats.PubQueryStatus := m.state.Stats.PubQueryStatus + 1 } := by
  cases mode <;> simp [cmdLightOn, colorValue]

@[simp] theorem cmdLightOn_mqttPub (e : Env) (now : Time) (autoOffSecs : Int)
    (mode : LightMode) (color : LightColor) (m : Manager) :
    (cmdLightOn e now autoOffSecs mode color m).mqttPub =
      m.mqttPub ++
        ((if m.state.OperStateParsed.LightOn then [] else [MsgPubSetLight e true]) ++
          ([MsgPubSetLightMode e mode.XlateVal.2] ++
            ((if sendsColor true mode then [MsgPubSetLightColor e (colorValue e color m)]
              else []) ++
              ([MsgPubCheckStatus11 e, MsgPubCheckWater e] ++
                (if mode = LightMode.Sunshine then [MsgPubSetLightDim e 1] else []))))) := by
  cases mode <;> cases h : m.state.OperStateParsed.LightOn <;>
    simp [cmdLightOn, colorValue, h]

@[simp] theorem cmdLightOn_randDraws (e : Env) (now : Time) (autoOffSecs : Int)
    (mode : LightMode) (color : LightColor) (m : Manager) :
    (cmdLightOn e now autoOffSecs mode color m).randDraws =
      m.randDraws + (if sendsColor true mode then colorDraws e color m else 0) := by
  cases mode <;> simp [cmdLightOn, colorDraws]

@[simp] theorem cmdLightOff_state (e : Env) (now : Time) (m : Manager) :
    (cmdLightOff e now m).state =
      { m.state with
        OperStateParsed.LightOnSecs := 0
        WantedState.LightOn := false
        WantedState.LightMode := LightMode.Solid
        WantedState.LightModeName := "solid"
        WantedState.IncreaseDim := false
        WantedState.DampenLightTs := now + cmdTsDampenInterval
        Stats.PubQueryStatus := m.state.Stats.PubQueryStatus + 1 } := by
  simp [cmdLightOff, sendsColor, LightMode.XlateVal]

@[simp] theorem cmdLightOff_mqttPub (e : Env) (now : Time) (m : Manager) :
    (cmdLightOff e now m).mqttPub =
      m.mqttPub ++
        ((if m.state.OperStateParsed.LightOn then [MsgPubSetLight e false] else []) ++
          [MsgPubCheckStatus11 e, MsgPubCheckWater e]) := by
  cases h : m.state.OperStateParsed.LightOn <;> simp [cmdLightOff, sendsColor, h]

@[simp] theorem cmdLightOff_randDraws (e : Env) (now : Time) (m : Manager) :
    (cmdLightOff e now m).randDraws = m.randDraws := by
  simp [cmdLightOff, sendsColor]

/-! ### Topics -/

@[simp] theorem onTopic_nil (t : String) : onTopic t [] = [] := rfl

@[simp] theorem onTopic_append (t : String) (xs ys : List Msg) :
    onTopic t (xs ++ ys) = onTopic t xs ++ onTopic t ys := by
  simp [onTopic]

@[simp] theorem onTopic_cons (t : String) (x : Msg) (xs : List Msg) :
    onTopic t (x :: xs) = if x.Topic = t then x :: onTopic t xs else onTopic t xs := by
  by_cases h : x.Topic = t <;> simp [onTopic, h]

@[simp] theorem MsgPubCheckStatus11_Topic (e : Env) :
    (MsgPubCheckStatus11 e).Topic = e.TopicPrefix ++ "cmnd/Status" := rfl

@[simp] theorem MsgPubCheckWater_Topic (e : Env) :
    (MsgPubCheckWater e).Topic = e.TopicPrefix ++ "cmnd/TuyaSend8" := rfl

@[simp] theorem MsgPubSetDiffuser_Topic (e : Env) (b : Bool) :
    (MsgPubSetDiffuser e b).Topic = e.TopicPrefix ++ "cmnd/Power1" := rfl

@[simp] theorem MsgPubSetLight_Topic (e : Env) (b : Bool) :
    (MsgPubSetLight e b).Topic = e.TopicPrefix ++ "cmnd/Power2" := rfl

@[simp] theorem MsgPubSetLightMode_Topic (e : Env) (n : Int) :
    (MsgPubSetLightMode e n).Topic = e.TopicPrefix ++ "cmnd/TuyaEnum2" := rfl

@[simp] theorem MsgPubSetLightDim_Topic (e : Env) (n : Int) :
    (MsgPubSetLightDim e n).Topic = e.TopicPrefix ++ "cmnd/Dimmer0" := rfl

@[simp] theorem MsgPubSetLightColor_Topic (e : Env) (n : Int) :
    (MsgPubSetLightColor e n).Topic = e.TopicPrefix ++ "cmnd/Color1" := rfl

theorem not_mem_of_onTopic_nil (t : String) (out : List Msg) (h : onTopic t out = [])
    (msg : Msg) (ht : msg.Topic = t) : msg ∉ out := by
  intro hmem
  have : msg ∈ onTopic t out := by
    simp [onTopic, List.mem_filter, hmem, ht]
  rw [h] at this
  exact List.not_mem_nil _ this

/-! ### The two halves of the per-second pass -/

theorem handleSecondTickDiffuser_cases (e : Env) (now : Time) (m : Manager) :
    (m.state.OperStateParsed.DiffuserOn ≠ m.state.WantedState.DiffuserOn ∧
        m.state.WantedState.DampenDiffuserTs < now ∧
        handleSecondTickDiffuser e now m = cmdDiffuser e now m.state.WantedState.DiffuserOn m) ∨
    (¬ (m.state.OperStateParsed.DiffuserOn ≠ m.state.WantedState.DiffuserOn ∧
          m.state.WantedState.DampenDiffuserTs < now) ∧
        m.state.OperStateParsed.DiffuserOn = true ∧
        (m.state.WantedState.DiffuserOn = true ∧ m.state.WantedState.DiffuserAutoOffSecs > 0 ∧
          m.state.OperStateParsed.DiffuserOnSecs + 1 ≥ m.state.WantedState.DiffuserAutoOffSecs) ∧
        handleSecondTickDiffuser e now m =
          cmdDiffuserOff e now
            { m with
              state.OperStateParsed.DiffuserOnSecs :=
                m.state.OperStateParsed.DiffuserOnSecs + 1 }) ∨
    (¬ (m.state.OperStateParsed.DiffuserOn ≠ m.state.WantedState.DiffuserOn ∧
          m.state.WantedState.DampenDiffuserTs < now) ∧
        m.state.OperStateParsed.DiffuserOn = true ∧
        ¬ (m.state.WantedState.DiffuserOn = true ∧ m.state.WantedState.DiffuserAutoOffSecs > 0 ∧
          m.state.OperStateParsed.DiffuserOnSecs + 1 ≥ m.state.WantedState.DiffuserAutoOffSecs) ∧
        handleSecondTickDiffuser e now m =
          { m with
            state.OperStateParsed.DiffuserOnSecs :=
              m.state.OperStateParsed.DiffuserOnSecs + 1 }) ∨
    (¬ (m.state.OperStateParsed.DiffuserOn ≠ m.state.WantedState.DiffuserOn ∧
          m.state.WantedState.DampenDiffuserTs < now) ∧
        m.state.OperStateParsed.DiffuserOn = false ∧
        handleSecondTickDiffuser e now m = m) := by
  unfold handleSecondTickDiffuser After
  by_cases h1 : m.state.OperStateParsed.DiffuserOn ≠ m.state.WantedState.DiffuserOn ∧
      m.state.WantedState.DampenDiffuserTs < now
  · left
    refine ⟨h1.1, h1.2, ?_⟩
    simp [h1.1, h1.2]
  · right
    have h1' : ¬ (m.state.OperStateParsed.DiffuserOn ≠ m.state.WantedState.DiffuserOn ∧
        decide (m.state.WantedState.DampenDiffuserTs < now) = true) := by
      simpa using h1
    rw [if_neg h1']
    by_cases h2 : m.state.OperStateParsed.DiffuserOn = true
    · rw [if_pos h2]
      by_cases h3 : m.state.WantedState.DiffuserOn = true ∧
          m.state.WantedState.DiffuserAutoOffSecs > 0 ∧
          m.state.OperStateParsed.DiffuserOnSecs + 1 ≥ m.state.WantedState.DiffuserAutoOffSecs
      · left
        refine ⟨h1, h2, h3, ?_⟩
        exact if_pos h3
      · right; left
        refine ⟨h1, h2, h3, ?_⟩
        exact if_neg h3
    · right; right
      rw [if_neg h2]
      exact ⟨h1, by simpa using h2, rfl⟩

theorem handleSecondTickLight_cases (e : Env) (now : Time) (m : Manager) :
    (m.state.OperStateParsed.LightOn = false ∧ m.state.WantedState.LightOn = true ∧
        m.state.WantedState.DampenLightTs < now ∧
        handleSecondTickLight e now m =
          (if m.state.WantedState.LightMode = LightMode.Sunshine then
            cmdLightDim e m.state.WantedState.LightDim
              (cmdLightOn e now (recalculateLightAutoOff m) m.state.WantedState.LightMode
                m.state.WantedState.LightColorName m)
          else
            cmdLightOn e now (recalculateLightAutoOff m) m.state.WantedState.LightMode
              m.state.WantedState.LightColorName m)) ∨
    (m.state.OperStateParsed.LightOn = true ∧ m.state.WantedState.LightOn = false ∧
        m.state.WantedState.DampenLightTs < now ∧
        handleSecondTickLight e now m = cmdLightOff e now m) ∨
    (¬ (m.state.OperStateParsed.LightOn ≠ m.state.WantedState.LightOn ∧
          m.state.WantedState.DampenLightTs < now) ∧
        m.state.OperStateParsed.LightOn = true ∧
        (m.state.WantedState.LightOn = true ∧ m.state.WantedState.LightAutoOffSecs > 0 ∧
          m.state.OperStateParsed.LightOnSecs + 1 ≥ m.state.WantedState.LightAutoOffSecs) ∧
        handleSecondTickLight e now m =
          cmdLightOff e now
            { m with
              state.OperStateParsed.LightOnSecs := m.state.OperStateParsed.LightOnSecs + 1 }) ∨
    (¬ (m.state.OperStateParsed.LightOn ≠ m.state.WantedState.LightOn ∧
          m.state.WantedState.DampenLightTs < now) ∧
        m.state.OperStateParsed.LightOn = true ∧
        ¬ (m.state.WantedState.LightOn = true ∧ m.state.WantedState.LightAutoOffSecs > 0 ∧
          m.state.OperStateParsed.LightOnSecs + 1 ≥ m.state.WantedState.LightAutoOffSecs) ∧
        handleSecondTickLight e now m =
          { m with
            state.OperStateParsed.LightOnSecs := m.state.OperStateParsed.LightOnSecs + 1 }) ∨
    (¬ (m.state.OperStateParsed.LightOn ≠ m.state.WantedState.LightOn ∧
          m.state.WantedState.DampenLightTs < now) ∧
        m.state.OperStateParsed.LightOn = false ∧
        handleSecondTickLight e now m = m) := by
  unfold handleSecondTickLight After
  by_cases h1 : m.state.OperStateParsed.LightOn ≠ m.state.WantedState.LightOn ∧
      m.state.WantedState.DampenLightTs < now
  · have h1' : m.state.OperStateParsed.LightOn ≠ m.state.WantedState.LightOn ∧
        decide (m.state.WantedState.DampenLightTs < now) = true := by
      simpa using h1
    rw [if_pos h1']
    by_cases h2 : m.state.WantedState.LightOn = true
    · left
      have h0 : m.state.OperStateParsed.LightOn = false := by
        have := h1.1
        rw [h2] at this
        simpa using this
      refine ⟨h0, h2, h1.2, ?_⟩
      rw [if_pos h2]
      simp
    · right; left
      have h2' : m.state.WantedState.LightOn = false := by simpa using h2
      have h0 : m.state.OperStateParsed.LightOn = true := by
        have := h1.1
        rw [h2'] at this
        simpa using this
      refine ⟨h0, h2', h1.2, ?_⟩
      rw [if_neg h2]
  · right; right
    have h1' : ¬ (m.state.OperStateParsed.LightOn ≠ m.state.WantedState.LightOn ∧
        decide (m.state.WantedState.DampenLightTs < now) = true) := by
      simpa using h1
    rw [if_neg h1']
    by_cases h2 : m.state.OperStateParsed.LightOn = true
    · rw [if_pos h2]
      by_cases h3 : m.state.WantedState.LightOn = true ∧
          m.state.WantedState.LightAutoOffSecs > 0 ∧
          m.state.OperStateParsed.LightOnSecs + 1 ≥ m.state.WantedState.LightAutoOffSecs
      · left
        refine ⟨h1, h2, h3, ?_⟩
        exact if_pos h3
      · right; left
        refine ⟨h1, h2, h3, ?_⟩
        exact if_neg h3
    · right; right
      rw [if_neg h2]
      exact ⟨h1, by simpa using h2, rfl⟩

/-- The diffuser half of the pass publishes only on the diffuser power topic and on the
two status-query topics, and touches only the diffuser fields. -/
theorem handleSecondTickDiffuser_frame (e : Env) (now : Time) (m : Manager) :
    ∃ out : List Msg,
      (handleSecondTickDiffuser e now m).mqttPub = m.mqttPub ++ out ∧
      onTopic (e.TopicPrefix ++ "cmnd/Power2") out = [] ∧
      (handleSecondTickDiffuser e now m).randDraws = m.randDraws ∧
      (handleSecondTickDiffuser e now m).state.OperStateParsed =
        { m.state.OperStateParsed with
          DiffuserOnSecs :=
            (handleSecondTickDiffuser e now m).state.OperStateParsed.DiffuserOnSecs } ∧
      (handleSecondTickDiffuser e now m).state.WantedState =
        { m.state.WantedState with
          DiffuserOn := (handleSecondTickDiffuser e now m).state.WantedState.DiffuserOn
          DampenDiffuserTs :=
            (handleSecondTickDiffuser e now m).state.WantedState.DampenDiffuserTs } := by
  rcases handleSecondTickDiffuser_cases e now m with
    ⟨_, _, h⟩ | ⟨_, _, _, h⟩ | ⟨_, _, _, h⟩ | ⟨_, _, h⟩
  · exact ⟨_, by rw [h, cmdDiffuser_mqttPub], by simp [prefix_append_inj], by rw [h]; rfl,
      by rw [h]; rfl, by rw [h]; rfl⟩
  · exact ⟨_, by rw [h, cmdDiffuserOff_mqttPub], by simp [prefix_append_inj], by rw [h]; rfl,
      by rw [h]; rfl, by rw [h]; rfl⟩
  · exact ⟨[], by rw [h]; simp, rfl, by rw [h], by rw [h], by rw [h]⟩
  · exact ⟨[], by rw [h]; simp, rfl, by rw [h], by rw [h], by rw [h]⟩

/-- The light half of the pass publishes nothing on the diffuser power topic and leaves
the diffuser fields and the low-water flag as they are. -/
theorem handleSecondTickLight_frame (e : Env) (now : Time) (m : Manager) :
    ∃ out : List Msg,
      (handleSecondTickLight e now m).mqttPub = m.mqttPub ++ out ∧
      onTopic (e.TopicPrefix ++ "cmnd/Power1") out = [] ∧
      (handleSecondTickLight e now m).state.OperStateParsed.DiffuserOn =
        m.state.OperStateParsed.DiffuserOn ∧
      (handleSecondTickLight e now m).state.OperStateParsed.DiffuserOnSecs =
        m.state.OperStateParsed.DiffuserOnSecs ∧
      (handleSecondTickLight e now m).state.OperStateParsed.LowWater =
        m.state.OperStateParsed.LowWater ∧
      (handleSecondTickLight e now m).state.WantedState.DiffuserOn =
        m.state.WantedState.DiffuserOn ∧
      (handleSecondTickLight e now m).state.WantedState.DiffuserAutoOffSecs =
        m.state.WantedState.DiffuserAutoOffSecs ∧
      (handleSecondTickLight e now m).state.WantedState.DampenDiffuserTs =
        m.state.WantedState.DampenDiffuserTs := by
  rcases handleSecondTickLight_cases e now m with
    ⟨_, _, _, h⟩ | ⟨_, _, _, h⟩ | ⟨_, _, _, h⟩ | ⟨_, _, _, h⟩ | ⟨_, _, h⟩
  · by_cases hs : m.state.WantedState.LightMode = LightMode.Sunshine
    · rw [if_pos hs] at h
      refine ⟨_, by rw [h, cmdLightDim_mqttPub, cmdLightOn_mqttPub, List.append_assoc], ?_,
        by rw [h]; simp, by rw [h]; simp, by rw [h]; simp, by rw [h]; simp, by rw [h]; simp,
        by rw [h]; simp⟩
      simp [prefix_append_inj, apply_ite (onTopic _)]
    · rw [if_neg hs] at h
      refine ⟨_, by rw [h, cmdLightOn_mqttPub], ?_,
        by rw [h]; simp, by rw [h]; simp, by rw [h]; simp, by rw [h]; simp, by rw [h]; simp,
        by rw [h]; simp⟩
      simp [prefix_append_inj, apply_ite (onTopic _)]
  · refine ⟨_, by rw [h, cmdLightOff_mqttPub], ?_,
      by rw [h]; simp, by rw [h]; simp, by rw [h]; simp, by rw [h]; simp, by rw [h]; simp,
      by rw [h]; simp⟩
    simp [prefix_append_inj, apply_ite (onTopic _)]
  · refine ⟨_, by rw [h, cmdLightOff_mqttPub], ?_,
      by rw [h]; simp, by rw [h]; simp, by rw [h]; simp, by rw [h]; simp, by rw [h]; simp,
      by rw [h]; simp⟩
    simp [prefix_append_inj, apply_ite (onTopic _)]
  · exact ⟨[], by rw [h]; simp, rfl, by rw [h], by rw [h], by rw [h], by rw [h], by rw [h],
      by rw [h]⟩
  · exact ⟨[], by rw [h]; simp, rfl, by rw [h], by rw [h], by rw [h], by rw [h], by rw [h],
      by rw [h]⟩

/-! ### The telemetry parser in closed form -/

theorem msgParseStateCommon_dropped (e : Env) (now : Time) (o : OperState) (raw : String)
    (m : Manager) (h : o.DiffuserOn = "" ∨ o.LightOn = "" ∨ o.LightColor = "") :
    msgParseStateCommon e now o raw m = m := by
  unfold msgParseStateCommon
  rw [if_pos h]

theorem msgParseStateCommon_accepted (e : Env) (now : Time) (o : OperState) (raw : String)
    (m : Manager) (h : ¬ (o.DiffuserOn = "" ∨ o.LightOn = "" ∨ o.LightColor = "")) :
    msgParseStateCommon e now o raw m =
      { m with
        state.OperStateParsed :=
          { DiffuserOn := decide (ToLower o.DiffuserOn = "on")
            LightOn := decide (ToLower o.LightOn = "on")
            LightColor := (parseOperLightColor o.LightColor).getD m.state.OperStateParsed.LightColor
            LightDim := o.LightDim
            Uptime := e.secondsToHuman o.UptimeSec
            Heap := o.Heap
            LowWater := m.state.OperStateParsed.LowWater
            Raw := raw
            LastReceiveTs := e.ts now
            DiffuserOnSecs :=
              if ToLower o.DiffuserOn = "on" then m.state.OperStateParsed.DiffuserOnSecs else 0
            LightOnSecs :=
              if ToLower o.LightOn = "on" then m.state.OperStateParsed.LightOnSecs else 0 }
        state.Stats.ParseStateMsgs := m.state.Stats.ParseStateMsgs + 1 } := by
  unfold msgParseStateCommon
  rw [if_neg h]
  by_cases hd : ToLower o.DiffuserOn = "on" <;> by_cases hl : ToLower o.LightOn = "on" <;>
    cases hc : parseOperLightColor o.LightColor <;> simp [hd, hl]

/-! ### The counter invariant is kept by every turn of the loop -/

theorem OnSecsZeroWhenOff_of_oper (m m1 : Manager)
    (h : m1.state.OperStateParsed.DiffuserOn = m.state.OperStateParsed.DiffuserOn ∧
      m1.state.OperStateParsed.LightOn = m.state.OperStateParsed.LightOn ∧
      (m1.state.OperStateParsed.DiffuserOnSecs = m.state.OperStateParsed.DiffuserOnSecs ∨
        m1.state.OperStateParsed.DiffuserOnSecs = 0) ∧
      (m1.state.OperStateParsed.LightOnSecs = m.state.OperStateParsed.LightOnSecs ∨
        m1.state.OperStateParsed.LightOnSecs = 0))
    (hm : OnSecsZeroWhenOff m) : OnSecsZeroWhenOff m1 := by
  obtain ⟨h1, h2, h3, h4⟩ := h
  constructor
  · intro hoff
    rw [h1] at hoff
    rcases h3 with h3 | h3
    · rw [h3]; exact hm.1 hoff
    · exact h3
  · intro hoff
    rw [h2] at hoff
    rcases h4 with h4 | h4
    · rw [h4]; exact hm.2 hoff
    · exact h4

theorem OnSecsZeroWhenOff_msgParseStatePower1 (raw : String) (m : Manager)
    (hm : OnSecsZeroWhenOff m) : OnSecsZeroWhenOff (msgParseStatePower1 raw m) := by
  unfold msgParseStatePower1
  by_cases h : ToLower raw = "on"
  · simp only [h, decide_True, Bool.not_true, Bool.false_eq_true, if_false]
    exact ⟨fun hoff => by simp at hoff, hm.2⟩
  · simp only [h, decide_False, Bool.not_false, if_true]
    exact ⟨fun _ => rfl, hm.2⟩

theorem OnSecsZeroWhenOff_msgParseStatePower2 (raw : String) (m : Manager)
    (hm : OnSecsZeroWhenOff m) : OnSecsZeroWhenOff (msgParseStatePower2 raw m) := by
  unfold msgParseStatePower2
  by_cases h : ToLower raw = "on"
  · simp only [h, decide_True, Bool.not_true, Bool.false_eq_true, if_false]
    exact ⟨hm.1, fun hoff => by simp at hoff⟩
  · simp only [h, decide_False, Bool.not_false, if_true]
    exact ⟨hm.1, fun _ => rfl⟩

theorem OnSecsZeroWhenOff_msgParseStateCommon (e : Env) (now : Time) (o : OperState)
    (raw : String) (m : Manager) (hm : OnSecsZeroWhenOff m) :
    OnSecsZeroWhenOff (msgParseStateCommon e now o raw m) := by
  by_cases h : o.DiffuserOn = "" ∨ o.LightOn = "" ∨ o.LightColor = ""
  · rw [msgParseStateCommon_dropped e now o raw m h]
    exact hm
  · rw [msgParseStateCommon_accepted e now o raw m h]
    constructor
    · intro hoff
      have hne : ¬ ToLower o.DiffuserOn = "on" := by simpa using hoff
      simp [hne]
    · intro hoff
      have hne : ¬ ToLower o.LightOn = "on" := by simpa using hoff
      simp [hne]

theorem msgParseSmokeyError_oper (payload : String) (m : Manager) :
    (msgParseSmokeyError payload m).state.OperStateParsed =
      { m.state.OperStateParsed with
        LowWater := (msgParseSmokeyError payload m).state.OperStateParsed.LowWater } := by
  unfold msgParseSmokeyError
  simp only
  split
  · rfl
  · split
    · rfl
    · split <;> rfl

theorem OnSecsZeroWhenOff_msgParseSmokeyError (payload : String) (m : Manager)
    (hm : OnSecsZeroWhenOff m) : OnSecsZeroWhenOff (msgParseSmokeyError payload m) := by
  refine OnSecsZeroWhenOff_of_oper m _ ?_ hm
  rw [msgParseSmokeyError_oper]
  exact ⟨rfl, rfl, Or.inl rfl, Or.inl rfl⟩

theorem OnSecsZeroWhenOff_handleSecondTickDiffuser (e : Env) (now : Time) (m : Manager)
    (hm : OnSecsZeroWhenOff m) : OnSecsZeroWhenOff (handleSecondTickDiffuser e now m) := by
  rcases handleSecondTickDiffuser_cases e now m with
    ⟨_, _, h⟩ | ⟨_, _, _, h⟩ | ⟨_, ho, _, h⟩ | ⟨_, _, h⟩
  · rw [h]
    exact OnSecsZeroWhenOff_of_oper m _ ⟨rfl, rfl, Or.inr rfl, Or.inl rfl⟩ hm
  · rw [h]
    exact OnSecsZeroWhenOff_of_oper m _ ⟨rfl, rfl, Or.inr rfl, Or.inl rfl⟩ hm
  · rw [h]
    exact ⟨fun hoff => by simp [ho] at hoff, hm.2⟩
  · rw [h]
    exact hm

theorem OnSecsZeroWhenOff_cmdLightOn (e : Env) (now : Time) (autoOffSecs : Int)
    (mode : LightMode) (color : LightColor) (m : Manager) (hm : OnSecsZeroWhenOff m) :
    OnSecsZeroWhenOff (cmdLightOn e now autoOffSecs mode color m) :=
  OnSecsZeroWhenOff_of_oper m _ (by simp) hm

theorem OnSecsZeroWhenOff_cmdLightOff (e : Env) (now : Time) (m : Manager)
    (hm : OnSecsZeroWhenOff m) : OnSecsZeroWhenOff (cmdLightOff e now m) :=
  OnSecsZeroWhenOff_of_oper m _ (by simp) hm

theorem OnSecsZeroWhenOff_cmdLightDim (e : Env) (dim : Int) (m : Manager)
    (hm : OnSecsZeroWhenOff m) : OnSecsZeroWhenOff (cmdLightDim e dim m) :=
  OnSecsZeroWhenOff_of_oper m _ (by simp) hm

theorem OnSecsZeroWhenOff_cmdPubQueryStatus (e : Env) (m : Manager)
    (hm : OnSecsZeroWhenOff m) : OnSecsZeroWhenOff (cmdPubQueryStatus e m) :=
  OnSecsZeroWhenOff_of_oper m _ (by simp) hm

theorem OnSecsZeroWhenOff_handleSecondTickLight (e : Env) (now : Time) (m : Manager)
    (hm : OnSecsZeroWhenOff m) : OnSecsZeroWhenOff (handleSecondTickLight e now m) := by
  rcases handleSecondTickLight_cases e now m with
    ⟨_, _, _, h⟩ | ⟨_, _, _, h⟩ | ⟨_, _, _, h⟩ | ⟨_, ho, _, h⟩ | ⟨_, _, h⟩
  · rw [h]
    split
    · exact OnSecsZeroWhenOff_cmdLightDim _ _ _ (OnSecsZeroWhenOff_cmdLightOn _ _ _ _ _ _ hm)
    · exact OnSecsZeroWhenOff_cmdLightOn _ _ _ _ _ _ hm
  · rw [h]
    exact OnSecsZeroWhenOff_cmdLightOff _ _ _ hm
  · rw [h]
    exact OnSecsZeroWhenOff_of_oper m _ (by simp) hm
  · rw [h]
    exact ⟨hm.1, fun hoff => by simp [ho] at hoff⟩
  · rw [h]
    exact hm

theorem OnSecsZeroWhenOff_bumpIncreaseDim (e : Env) (now : Time) (m : Manager)
    (hm : OnSecsZeroWhenOff m) : OnSecsZeroWhenOff (bumpIncreaseDim e now m) := by
  unfold bumpIncreaseDim
  split
  · exact hm
  · split
    · exact OnSecsZeroWhenOff_cmdLightOn _ _ _ _ _ _ hm
    · exact OnSecsZeroWhenOff_cmdLightDim _ _ _ hm

theorem OnSecsZeroWhenOff_run (e : Env) (now : Time) (cmd : Command) (m : Manager)
    (hm : OnSecsZeroWhenOff m) : OnSecsZeroWhenOff (cmd.run e now m) := by
  cases cmd with
  | CurrState => exact hm
  | CurrStateWater => exact hm
  | CmdDiffuserOn autoOffSecs =>
    exact OnSecsZeroWhenOff_of_oper m _ ⟨rfl, rfl, Or.inr rfl, Or.inl rfl⟩ hm
  | CmdDiffuserOff =>
    exact OnSecsZeroWhenOff_of_oper m _ ⟨rfl, rfl, Or.inr rfl, Or.inl rfl⟩ hm
  | CmdLightOn autoOffSecs mode color => exact OnSecsZeroWhenOff_cmdLightOn _ _ _ _ _ _ hm
  | CmdLightColor color =>
    have hm1 : OnSecsZeroWhenOff
        { m with
          randDraws :=
            m.randDraws + (LightColorInt color (fun i => e.rand (m.randDraws + i))).2 } := hm
    simp only [Command.run]
    split
    · exact OnSecsZeroWhenOff_cmdLightOff _ _ _ hm1
    · split
      · exact OnSecsZeroWhenOff_cmdLightOn _ _ _ _ _ _ hm1
      · exact OnSecsZeroWhenOff_of_oper _ _ (by simp) hm1
  | CmdLightDim dim => exact OnSecsZeroWhenOff_cmdLightDim _ _ _ hm
  | CmdLightOff => exact OnSecsZeroWhenOff_cmdLightOff _ _ _ hm
  | CmdQueryStatus => exact OnSecsZeroWhenOff_cmdPubQueryStatus _ _ hm

theorem OnSecsZeroWhenOff_mainLoop (e : Env) (now : Time) (ev : Event) (m : Manager)
    (hm : OnSecsZeroWhenOff m) : OnSecsZeroWhenOff (mainLoop e now ev m) := by
  cases ev with
  | mqttSub msg =>
    simp only [mainLoop]
    split
    · exact OnSecsZeroWhenOff_msgParseStatePower1 _ _ hm
    · split
      · exact OnSecsZeroWhenOff_msgParseStatePower2 _ _ hm
      · split
        · unfold msgParseState
          split
          · exact hm
          · exact OnSecsZeroWhenOff_msgParseStateCommon _ _ _ _ _ hm
        · split
          · unfold msgParseStatus11
            split
            · exact hm
            · exact OnSecsZeroWhenOff_msgParseStateCommon _ _ _ _ _ hm
          · split
            · exact OnSecsZeroWhenOff_msgParseSmokeyError _ _ hm
            · exact hm
  | secondTick =>
    exact OnSecsZeroWhenOff_handleSecondTickLight _ _ _
      (OnSecsZeroWhenOff_handleSecondTickDiffuser _ _ _ hm)
  | checkStatusTickFast =>
    simp only [mainLoop]
    apply OnSecsZeroWhenOff_bumpIncreaseDim
    split
    · exact OnSecsZeroWhenOff_cmdPubQueryStatus _ _ hm
    · exact hm
  | checkStatusTickSlow => exact OnSecsZeroWhenOff_cmdPubQueryStatus _ _ hm
  | cmds cmd => exact OnSecsZeroWhenOff_run _ _ _ _ hm
  | timeout => exact hm

theorem OnSecsZeroWhenOff_runEvents (e : Env) (evs : List (Time × Event)) :
    ∀ m : Manager, OnSecsZeroWhenOff m → OnSecsZeroWhenOff (runEvents e evs m) := by
  induction evs with
  | nil => intro m hm; exact hm
  | cons ev rest ih =>
    intro m hm
    obtain ⟨now, ev⟩ := ev
    exact ih _ (OnSecsZeroWhenOff_mainLoop e now ev m hm)

/-! ### The Sunshine ramp -/

theorem bumpIncreaseDim_below (e : Env) (now : Time) (m : Manager) (h : Ramping m)
    (hd : m.state.WantedState.LightDim < 99) :
    bumpIncreaseDim e now m = cmdLightDim e (m.state.WantedState.LightDim + 1) m := by
  obtain ⟨h1, h2, h3⟩ := h
  unfold bumpIncreaseDim
  rw [if_neg (by simp [h1, h2, h3]), if_neg (by omega)]

theorem bumpIncreaseDim_full (e : Env) (now : Time) (m : Manager) (h : Ramping m)
    (hd : 99 ≤ m.state.WantedState.LightDim) :
    bumpIncreaseDim e now m =
      cmdLightOn e now (recalculateLightAutoOff m) LightMode.Crazy "" m := by
  obtain ⟨h1, h2, h3⟩ := h
  unfold bumpIncreaseDim
  rw [if_neg (by simp [h1, h2, h3]), if_pos (by omega)]

theorem bumpIncreaseDim_idle (e : Env) (now : Time) (m : Manager)
    (h : m.state.WantedState.LightMode ≠ LightMode.Sunshine) :
    bumpIncreaseDim e now m = m := by
  unfold bumpIncreaseDim
  rw [if_pos (Or.inr (Or.inr h))]

theorem rampSteps_idle (e : Env) (ts : List Time) :
    ∀ m : Manager, m.state.WantedState.LightMode ≠ LightMode.Sunshine →
      rampSteps e ts m = m := by
  induction ts with
  | nil => intro m _; rfl
  | cons now rest ih =>
    intro m h
    rw [rampSteps, bumpIncreaseDim_idle e now m h]
    exact ih m h

/-- While the dim level stays below 99, each ramp step adds one to it and keeps the light
ramping with the increase-dim flag as it was. -/
theorem rampSteps_below (e : Env) (ts : List Time) :
    ∀ m : Manager, Ramping m → m.state.WantedState.LightDim + ts.length ≤ 99 →
      Ramping (rampSteps e ts m) ∧
      (rampSteps e ts m).state.WantedState.LightDim =
        m.state.WantedState.LightDim + ts.length ∧
      (rampSteps e ts m).state.WantedState.IncreaseDim = m.state.WantedState.IncreaseDim := by
  induction ts with
  | nil =>
    intro m h _
    exact ⟨h, by simp [rampSteps], rfl⟩
  | cons now rest ih =>
    intro m h hlen
    simp only [List.length_cons, Nat.cast_add, Nat.cast_one] at hlen
    have hstep := bumpIncreaseDim_below e now m h (by omega)
    have hr : Ramping (cmdLightDim e (m.state.WantedState.LightDim + 1) m) := h
    have hrec := ih (cmdLightDim e (m.state.WantedState.LightDim + 1) m) hr
      (by simp only [cmdLightDim_state]; omega)
    rw [rampSteps, hstep]
    refine ⟨hrec.1, ?_, hrec.2.2⟩
    rw [hrec.2.1]
    simp only [cmdLightDim_state, List.length_cons, Nat.cast_add, Nat.cast_one]
    omega

/-! ### The colour value -/

theorem LightColorInt_numeric (c : LightColor) (draw : Nat → Nat) (v : Int)
    (h : numericValue c = some v) : LightColorInt c draw = (v, 0) := by
  unfold numericValue at h
  unfold LightColorInt
  simp only [h]

theorem LightColorInt_named (c : LightColor) (draw : Nat → Nat) (v : Int)
    (h1 : numericValue c = none) (h2 : namedColor (ToLower c) = some v) :
    LightColorInt c draw = (v, 0) := by
  unfold numericValue at h1
  unfold LightColorInt
  simp only [h1, h2]

theorem LightColorInt_random (c : LightColor) (draw : Nat → Nat)
    (h1 : numericValue c = none) (h2 : namedColor (ToLower c) = none) :
    LightColorInt c draw =
      (((Intn (draw 2) 256 + Intn (draw 1) 256 <<< 8 + Intn (draw 0) 256 <<< 16 : Nat) : Int),
        3) := by
  unfold numericValue at h1
  unfold LightColorInt
  simp only [h1, h2]

theorem numericValue_of_lower (c : LightColor) (name : String) (h : ToLower c = name) :
    numericValue c =
      ParseInt (lastField (Split name 'x')) (if (Split name 'x').length > 1 then 16 else 10)
        32 := by
  unfold numericValue
  rw [h]

theorem palette_facts :
    ∀ p ∈ palette,
      ParseInt (lastField (Split p.1 'x')) (if (Split p.1 'x').length > 1 then 16 else 10) 32
          = none ∧
        namedColor p.1 = some p.2 ∧ ToLower p.1 = p.1 ∧
        parseOperLightColor (fmtColor p.2) = none ∧
        parseOperLightColor (dropFirst (fmtColor p.2)) = some p.2 ∧
        (fmtColor p.2).data.head? = some '#' ∧ (dropFirst (fmtColor p.2)).length = 6 := by
  decide

theorem ParseInt_range (s : String) (base bitSize : Nat) (v : Int)
    (h : ParseInt s base bitSize = some v) :
    -(2 : Int) ^ (bitSize - 1) ≤ v ∧ v < (2 : Int) ^ (bitSize - 1) := by
  unfold ParseInt at h
  split at h
  · exact absurd h (by simp)
  · split at h
    · split at h
      · exact absurd h (by simp)
      · rename_i n _
        split at h
        · rename_i hle
          have hv : v = -(n : Int) := by
            injection h with h
            exact h.symm
          have hle' : (n : Int) ≤ (2 : Int) ^ (bitSize - 1) := by exact_mod_cast hle
          have hpos : (0 : Int) < (2 : Int) ^ (bitSize - 1) := by positivity
          constructor
          · rw [hv]; omega
          · rw [hv]; omega
        · exact absurd h (by simp)
    · split at h
      · exact absurd h (by simp)
      · rename_i n _
        split at h
        · rename_i hlt
          have hv : v = (n : Int) := by
            injection h with h
            exact h.symm
          have hlt' : (n : Int) < (2 : Int) ^ (bitSize - 1) := by exact_mod_cast hlt
          have hpos : (0 : Int) < (2 : Int) ^ (bitSize - 1) := by positivity
          constructor
          · rw [hv]; omega
          · rw [hv]; omega
        · exact absurd h (by simp)

theorem ite_some_range (P : Prop) [Decidable P] (a : Int) (rest : Option Int) (v : Int)
    (ha : 0 ≤ a ∧ a ≤ 0xFFFFFF) (hrest : rest = some v → 0 ≤ v ∧ v ≤ 0xFFFFFF) :
    (if P then some a else rest) = some v → 0 ≤ v ∧ v ≤ 0xFFFFFF := by
  intro h
  by_cases hP : P
  · rw [if_pos hP] at h
    injection h with h
    rw [← h]
    exact ha
  · rw [if_neg hP] at h
    exact hrest h

theorem namedColor_range (name : String) (v : Int) (h : namedColor name = some v) :
    0 ≤ v ∧ v ≤ 0xFFFFFF := by
  revert h
  unfold namedColor
  iterate 18 refine ite_some_range _ _ _ v (by decide) ?_
  intro h
  exact absurd h (by simp)

theorem random_color_range (r g b : Nat) :
    (0 : Int) ≤ ((Intn b 256 + Intn g 256 <<< 8 + Intn r 256 <<< 16 : Nat) : Int) ∧
      ((Intn b 256 + Intn g 256 <<< 8 + Intn r 256 <<< 16 : Nat) : Int) ≤ 0xFFFFFF := by
  have hb : Intn b 256 < 256 := Nat.mod_lt _ (by decide)
  have hg : Intn g 256 < 256 := Nat.mod_lt _ (by decide)
  have hr : Intn r 256 < 256 := Nat.mod_lt _ (by decide)
  simp only [Nat.shiftLeft_eq]
  constructor
  · exact Int.natCast_nonneg _
  · have : Intn b 256 + Intn g 256 * 2 ^ 8 + Intn r 256 * 2 ^ 16 ≤ 0xFFFFFF := by
      norm_num
      omega
    exact_mod_cast this

theorem digitChar_isLowerHex : ∀ k < 16, isLowerHex (Nat.digitChar k) = true := by
  decide

theorem toDigitsCore_isLowerHex (fuel : Nat) :
    ∀ (n : Nat) (ds : List Char), (∀ c ∈ ds, isLowerHex c = true) →
      ∀ c ∈ Nat.toDigitsCore 16 fuel n ds, isLowerHex c = true := by
  induction fuel with
  | zero =>
    intro n ds hds c hc
    simp only [Nat.toDigitsCore] at hc
    exact hds c hc
  | succ fuel ih =>
    intro n ds hds c hc
    have hd : ∀ c ∈ Nat.digitChar (n % 16) :: ds, isLowerHex c = true := by
      intro c hc
      rcases List.mem_cons.mp hc with h | h
      · rw [h]
        exact digitChar_isLowerHex _ (Nat.mod_lt _ (by decide))
      · exact hds c h
    simp only [Nat.toDigitsCore] at hc
    split at hc
    · exact hd c hc
    · exact ih _ _ hd c hc

/-- A value from 0 to 0xFFFFFF is formatted as `#` and exactly six lower-case
hexadecimal digits. -/
theorem fmtColor_shape (v : Int) (h0 : 0 ≤ v) (h1 : v ≤ 0xFFFFFF) :
    ∃ ds : List Char, fmtColor v = String.mk ('#' :: ds) ∧ ds.length = 6 ∧
      ∀ c ∈ ds, isLowerHex c = true := by
  obtain ⟨k, rfl⟩ := Int.eq_ofNat_of_zero_le h0
  have hk : k < 16 ^ 6 := by
    have : (k : Int) < 16 ^ 6 := by
      norm_num
      omega
    exact_mod_cast this
  have hlen : (Nat.toDigits 16 k).length ≤ 6 :=
    Nat.toDigitsCore_length 16 (by decide) (k + 1) k 6 hk (by decide)
  refine ⟨zeroPad 6 (Nat.toDigits 16 k), rfl, ?_, ?_⟩
  · simp only [zeroPad, List.length_append, List.length_replicate]
    omega
  · intro c hc
    simp only [zeroPad, List.mem_append, List.mem_replicate] at hc
    rcases hc with ⟨_, h⟩ | h
    · rw [h]
      decide
    · exact toDigitsCore_isLowerHex _ _ _ (fun _ hmem => absurd hmem (List.not_mem_nil _)) c h

theorem LightColorInt_deterministic (c : LightColor) (v : Int)
    (h : numericValue c = some v ∨ (numericValue c = none ∧ namedColor (ToLower c) = some v))
    (draw : Nat → Nat) : LightColorInt c draw = (v, 0) := by
  rcases h with h | ⟨h1, h2⟩
  · exact LightColorInt_numeric c draw v h
  · exact LightColorInt_named c draw v h1 h2

theorem run_CmdLightColor_deterministic (e : Env) (now : Time) (c : LightColor) (v : Int)
    (m : Manager) (hdet : ∀ draw : Nat → Nat, LightColorInt c draw = (v, 0)) :
    (Command.CmdLightColor c).run e now m =
      if v = 0 then cmdLightOff e now m
      else if m.state.WantedState.LightMode ≠ LightMode.Solid ∨
          m.state.OperStateParsed.LightOn = false then
        cmdLightOn e now DefaultAutoOffSeconds LightMode.Solid c m
      else cmdLightColor e c m := by
  have hm : ({ m with randDraws := m.randDraws + 0 } : Manager) = m := rfl
  simp only [Command.run, hdet, hm, Bool.not_eq_true']

/-! ### The message parser leaves the wanted light mode alone -/

theorem msgParseStatePower1_wanted (raw : String) (m : Manager) :
    (msgParseStatePower1 raw m).state.WantedState = m.state.WantedState := by
  unfold msgParseStatePower1
  simp only
  split <;> rfl

theorem msgParseStatePower2_wanted (raw : String) (m : Manager) :
    (msgParseStatePower2 raw m).state.WantedState = m.state.WantedState := by
  unfold msgParseStatePower2
  simp only
  split <;> rfl

theorem msgParseStateCommon_wanted (e : Env) (now : Time) (o : OperState) (raw : String)
    (m : Manager) :
    (msgParseStateCommon e now o raw m).state.WantedState = m.state.WantedState := by
  by_cases h : o.DiffuserOn = "" ∨ o.LightOn = "" ∨ o.LightColor = ""
  · rw [msgParseStateCommon_dropped e now o raw m h]
  · rw [msgParseStateCommon_accepted e now o raw m h]

theorem msgParseState_wanted (e : Env) (now : Time) (payload : String) (m : Manager) :
    (msgParseState e now payload m).state.WantedState = m.state.WantedState := by
  unfold msgParseState
  split
  · rfl
  · exact msgParseStateCommon_wanted _ _ _ _ _

theorem msgParseStatus11_wanted (e : Env) (now : Time) (payload : String) (m : Manager) :
    (msgParseStatus11 e now payload m).state.WantedState = m.state.WantedState := by
  unfold msgParseStatus11
  split
  · rfl
  · exact msgParseStateCommon_wanted _ _ _ _ _

theorem msgParseSmokeyError_wanted (payload : String) (m : Manager) :
    (msgParseSmokeyError payload m).state.WantedState =
      { m.state.WantedState with
        DiffuserOn := (msgParseSmokeyError payload m).state.WantedState.DiffuserOn } := by
  unfold msgParseSmokeyError
  simp only
  split
  · rfl
  · split
    · rfl
    · split <;> rfl

theorem mqttSub_LightMode (e : Env) (now : Time) (msg : Msg) (m : Manager) :
    (mainLoop e now (Event.mqttSub msg) m).state.WantedState.LightMode =
      m.state.WantedState.LightMode := by
  simp only [mainLoop]
  split
  · rw [msgParseStatePower1_wanted]
  · split
    · rw [msgParseStatePower2_wanted]
    · split
      · rw [msgParseState_wanted]
      · split
        · rw [msgParseStatus11_wanted]
        · split
          · rw [msgParseSmokeyError_wanted]
          · rfl

theorem handleSecondTick_LightMode (e : Env) (now : Time) (m : Manager) :
    (handleSecondTick e now m).state.WantedState.LightMode = m.state.WantedState.LightMode ∨
      ((handleSecondTick e now m).state.WantedState.LightMode = LightMode.Solid ∧
        (handleSecondTick e now m).state.WantedState.LightOn = false) := by
  obtain ⟨outD, -, -, -, -, hDw⟩ := handleSecondTickDiffuser_frame e now m
  have hmode : (handleSecondTickDiffuser e now m).state.WantedState.LightMode =
      m.state.WantedState.LightMode := by rw [hDw]
  rw [handleSecondTick]
  rcases handleSecondTickLight_cases e now (handleSecondTickDiffuser e now m) with
    ⟨_, _, _, h⟩ | ⟨_, _, _, h⟩ | ⟨_, _, _, h⟩ | ⟨_, _, _, h⟩ | ⟨_, _, h⟩
  · left
    rw [h, ← hmode]
    split <;> simp
  · right
    rw [h]
    simp
  · right
    rw [h]
    simp
  · left
    rw [h, ← hmode]
  · left
    rw [h, ← hmode]

theorem bumpIncreaseDim_LightMode (e : Env) (now : Time) (m : Manager) :
    (bumpIncreaseDim e now m).state.WantedState.LightMode = m.state.WantedState.LightMode ∨
      (m.state.WantedState.LightMode = LightMode.Sunshine ∧
        (bumpIncreaseDim e now m).state.WantedState.LightMode = LightMode.Crazy) := by
  by_cases hs : m.state.WantedState.LightMode = LightMode.Sunshine
  · by_cases hw : m.state.WantedState.LightOn = true
    · by_cases ho : m.state.OperStateParsed.LightOn = true
      · by_cases hd : 99 ≤ m.state.WantedState.LightDim
        · right
          rw [bumpIncreaseDim_full e now m ⟨hw, ho, hs⟩ hd]
          exact ⟨hs, by simp⟩
        · left
          rw [bumpIncreaseDim_below e now m ⟨hw, ho, hs⟩ (by omega)]
          rfl
      · left
        unfold bumpIncreaseDim
        rw [if_pos (Or.inr (Or.inl (by simpa using ho)))]
    · left
      unfold bumpIncreaseDim
      rw [if_pos (Or.inl (by simpa using hw))]
  · left
    rw [bumpIncreaseDim_idle e now m hs]

/-! ### The counters never steer the manager -/

theorem Manager.ext_fields (a b : Manager)
    (hW : a.state.WantedState = b.state.WantedState)
    (hO : a.state.OperStateParsed = b.state.OperStateParsed)
    (hS : a.state.Stats = b.state.Stats)
    (hp : a.mqttPub = b.mqttPub) (hr : a.randDraws = b.randDraws) : a = b := by
  cases a with
  | mk sa pa ra =>
    cases b with
    | mk sb pb rb =>
      cases sa
      cases sb
      simp only at hW hO hS hp hr
      subst hW hO hS hp hr
      rfl

@[simp] theorem rebase_wanted (st : Stats) (pub : List Msg) (m : Manager) :
    (rebase st pub m).state.WantedState = m.state.WantedState := rfl

@[simp] theorem rebase_oper (st : Stats) (pub : List Msg) (m : Manager) :
    (rebase st pub m).state.OperStateParsed = m.state.OperStateParsed := rfl

@[simp] theorem rebase_stats (st : Stats) (pub : List Msg) (m : Manager) :
    (rebase st pub m).state.Stats = st := rfl

@[simp] theorem rebase_mqttPub (st : Stats) (pub : List Msg) (m : Manager) :
    (rebase st pub m).mqttPub = pub := rfl

@[simp] theorem rebase_randDraws (st : Stats) (pub : List Msg) (m : Manager) :
    (rebase st pub m).randDraws = m.randDraws := rfl

theorem rebase_rebase (st st1 : Stats) (pub pub1 : List Msg) (m : Manager) :
    rebase st pub (rebase st1 pub1 m) = rebase st pub m := rfl

theorem StatsBlind_id (m : Manager) : StatsBlind (fun m => m) m :=
  ⟨fun st => st, [], fun st pub => by simp [rebase]⟩

theorem StatsBlind_comp (op1 op2 : Manager → Manager) (m : Manager)
    (h1 : StatsBlind op1 m) (h2 : StatsBlind op2 (op1 m)) :
    StatsBlind (fun m => op2 (op1 m)) m := by
  obtain ⟨f1, out1, h1⟩ := h1
  obtain ⟨f2, out2, h2⟩ := h2
  refine ⟨fun st => f2 (f1 st), out1 ++ out2, fun st pub => ?_⟩
  show op2 (op1 (rebase st pub m)) = _
  rw [h1, h2, List.append_assoc]

theorem StatsBlind_ite (c : Manager → Prop) [DecidablePred c] (opA opB : Manager → Manager)
    (m : Manager) (hc : ∀ (st : Stats) (pub : List Msg), c (rebase st pub m) ↔ c m)
    (hA : c m → StatsBlind opA m) (hB : ¬ c m → StatsBlind opB m) :
    StatsBlind (fun m => if c m then opA m else opB m) m := by
  by_cases h : c m
  · obtain ⟨f, out, hA⟩ := hA h
    refine ⟨f, out, fun st pub => ?_⟩
    show (if c (rebase st pub m) then _ else _) = rebase _ _ (if c m then _ else _)
    rw [if_pos ((hc st pub).mpr h), if_pos h]
    exact hA st pub
  · obtain ⟨f, out, hB⟩ := hB h
    refine ⟨f, out, fun st pub => ?_⟩
    show (if c (rebase st pub m) then _ else _) = rebase _ _ (if c m then _ else _)
    rw [if_neg (fun h1 => h ((hc st pub).mp h1)), if_neg h]
    exact hB st pub

/-- An operation given by its effect on the state, the sent messages and the cursor, none
of which reads the counters or the history, is blind to the counters. -/
theorem StatsBlind_of_fields (op : Manager → Manager) (m : Manager)
    (f : Stats → Stats) (out : List Msg)
    (hW : ∀ st pub, (op (rebase st pub m)).state.WantedState = (op m).state.WantedState)
    (hO : ∀ st pub,
      (op (rebase st pub m)).state.OperStateParsed = (op m).state.OperStateParsed)
    (hS : ∀ st pub, (op (rebase st pub m)).state.Stats = f st)
    (hp : ∀ st pub, (op (rebase st pub m)).mqttPub = pub ++ out)
    (hr : ∀ st pub, (op (rebase st pub m)).randDraws = (op m).randDraws) :
    StatsBlind op m :=
  ⟨f, out, fun st pub =>
    Manager.ext_fields _ _ (hW st pub) (hO st pub) (hS st pub) (hp st pub) (hr st pub)⟩

theorem StatsBlind_cmdPubQueryStatus (e : Env) (m : Manager) :
    StatsBlind (cmdPubQueryStatus e) m :=
  StatsBlind_of_fields _ m (fun st => { st with PubQueryStatus := st.PubQueryStatus + 1 })
    [MsgPubCheckStatus11 e, MsgPubCheckWater e]
    (fun _ _ => rfl) (fun _ _ => rfl) (fun _ _ => rfl) (fun _ _ => by simp) (fun _ _ => rfl)

theorem StatsBlind_cmdDiffuser (e : Env) (now : Time) (isOn : Bool) (m : Manager) :
    StatsBlind (cmdDiffuser e now isOn) m :=
  StatsBlind_of_fields _ m (fun st => { st with PubQueryStatus := st.PubQueryStatus + 1 })
    [MsgPubSetDiffuser e isOn, MsgPubCheckStatus11 e, MsgPubCheckWater e]
    (fun _ _ => rfl) (fun _ _ => rfl) (fun _ _ => rfl) (fun _ _ => by simp) (fun _ _ => rfl)

theorem StatsBlind_cmdDiffuserOn (e : Env) (now : Time) (autoOffSecs : Int) (m : Manager) :
    StatsBlind (cmdDiffuserOn e now autoOffSecs) m :=
  StatsBlind_of_fields _ m (fun st => { st with PubQueryStatus := st.PubQueryStatus + 1 })
    [MsgPubSetDiffuser e true, MsgPubCheckStatus11 e, MsgPubCheckWater e]
    (fun _ _ => rfl) (fun _ _ => rfl) (fun _ _ => rfl) (fun _ _ => by simp) (fun _ _ => rfl)

theorem StatsBlind_cmdDiffuserOff (e : Env) (now : Time) (m : Manager) :
    StatsBlind (cmdDiffuserOff e now) m :=
  StatsBlind_of_fields _ m (fun st => { st with PubQueryStatus := st.PubQueryStatus + 1 })
    [MsgPubSetDiffuser e false, MsgPubCheckStatus11 e, MsgPubCheckWater e]
    (fun _ _ => rfl) (fun _ _ => rfl) (fun _ _ => rfl) (fun _ _ => by simp) (fun _ _ => rfl)

theorem StatsBlind_cmdLightColor (e : Env) (color : LightColor) (m : Manager) :
    StatsBlind (cmdLightColor e color) m :=
  StatsBlind_of_fields _ m (fun st => st) [MsgPubSetLightColor e (colorValue e color m)]
    (fun _ _ => rfl) (fun _ _ => rfl) (fun _ _ => rfl) (fun _ _ => rfl) (fun _ _ => rfl)

theorem StatsBlind_cmdLightDim (e : Env) (dim : Int) (m : Manager) :
    StatsBlind (cmdLightDim e dim) m :=
  StatsBlind_of_fields _ m (fun st => st) [MsgPubSetLightDim e dim]
    (fun _ _ => rfl) (fun _ _ => rfl) (fun _ _ => rfl) (fun _ _ => rfl) (fun _ _ => rfl)

theorem StatsBlind_cmdLightOn (e : Env) (now : Time) (autoOffSecs : Int) (mode : LightMode)
    (color : LightColor) (m : Manager) :
    StatsBlind (cmdLightOn e now autoOffSecs mode color) m :=
  StatsBlind_of_fields _ m (fun st => { st with PubQueryStatus := st.PubQueryStatus + 1 })
    (published m (cmdLightOn e now autoOffSecs mode color m))
    (fun _ _ => by simp [colorValue]) (fun _ _ => by simp) (fun _ _ => by simp)
    (fun _ _ => by
      rw [published_append m _ _ (cmdLightOn_mqttPub e now autoOffSecs mode color m)]
      simp [colorValue])
    (fun _ _ => by simp [colorDraws])

theorem StatsBlind_cmdLightOff (e : Env) (now : Time) (m : Manager) :
    StatsBlind (cmdLightOff e now) m :=
  StatsBlind_of_fields _ m (fun st => { st with PubQueryStatus := st.PubQueryStatus + 1 })
    (published m (cmdLightOff e now m))
    (fun _ _ => by simp) (fun _ _ => by simp) (fun _ _ => by simp)
    (fun _ _ => by
      rw [published_append m _ _ (cmdLightOff_mqttPub e now m)]
      simp)
    (fun _ _ => by simp)

theorem StatsBlind_bumpIncreaseDim (e : Env) (now : Time) (m : Manager) :
    StatsBlind (bumpIncreaseDim e now) m :=
  StatsBlind_ite
    (fun m => (!m.state.WantedState.LightOn) = true ∨ (!m.state.OperStateParsed.LightOn) = true ∨
      m.state.WantedState.LightMode ≠ LightMode.Sunshine)
    (fun m => m)
    (fun m =>
      if m.state.WantedState.LightDim ≥ 99 then
        cmdLightOn e now (recalculateLightAutoOff m) LightMode.Crazy "" m
      else cmdLightDim e (m.state.WantedState.LightDim + 1) m)
    m (fun _ _ => Iff.rfl) (fun _ => StatsBlind_id m)
    (fun _ =>
      StatsBlind_ite (fun m => m.state.WantedState.LightDim ≥ 99)
        (fun m => cmdLightOn e now (recalculateLightAutoOff m) LightMode.Crazy "" m)
        (fun m => cmdLightDim e (m.state.WantedState.LightDim + 1) m)
        m (fun _ _ => Iff.rfl)
        (fun _ => StatsBlind_cmdLightOn e now (recalculateLightAutoOff m) LightMode.Crazy "" m)
        (fun _ => StatsBlind_cmdLightDim e (m.state.WantedState.LightDim + 1) m))

theorem StatsBlind_handleSecondTickDiffuser (e : Env) (now : Time) (m : Manager) :
    StatsBlind (handleSecondTickDiffuser e now) m :=
  StatsBlind_ite
    (fun m => m.state.OperStateParsed.DiffuserOn ≠ m.state.WantedState.DiffuserOn ∧
      After now m.state.WantedState.DampenDiffuserTs = true)
    (fun m => cmdDiffuser e now m.state.WantedState.DiffuserOn m)
    (fun m =>
      if m.state.OperStateParsed.DiffuserOn = true then
        (fun m1 : Manager =>
          if m1.state.WantedState.DiffuserOn = true ∧
              m1.state.WantedState.DiffuserAutoOffSecs > 0 ∧
              m1.state.OperStateParsed.DiffuserOnSecs ≥
                m1.state.WantedState.DiffuserAutoOffSecs then
            cmdDiffuserOff e now m1
          else m1)
          { m with
            state.OperStateParsed.DiffuserOnSecs :=
              m.state.OperStateParsed.DiffuserOnSecs + 1 }
      else m)
    m (fun _ _ => Iff.rfl)
    (fun _ => StatsBlind_cmdDiffuser e now m.state.WantedState.DiffuserOn m)
    (fun _ =>
      StatsBlind_ite (fun m => m.state.OperStateParsed.DiffuserOn = true) _ (fun m => m)
        m (fun _ _ => Iff.rfl)
        (fun _ =>
          StatsBlind_comp
            (fun m : Manager =>
              { m with
                state.OperStateParsed.DiffuserOnSecs :=
                  m.state.OperStateParsed.DiffuserOnSecs + 1 })
            _ m
            (StatsBlind_of_fields _ m (fun st => st) []
              (fun _ _ => rfl) (fun _ _ => rfl) (fun _ _ => rfl) (fun _ _ => by simp)
              (fun _ _ => rfl))
            (StatsBlind_ite
              (fun m1 => m1.state.WantedState.DiffuserOn = true ∧
                m1.state.WantedState.DiffuserAutoOffSecs > 0 ∧
                m1.state.OperStateParsed.DiffuserOnSecs ≥
                  m1.state.WantedState.DiffuserAutoOffSecs)
              (cmdDiffuserOff e now) (fun m1 => m1) _ (fun _ _ => Iff.rfl)
              (fun _ => StatsBlind_cmdDiffuserOff e now _) (fun _ => StatsBlind_id _)))
        (fun _ => StatsBlind_id m))

theorem StatsBlind_handleSecondTickLight (e : Env) (now : Time) (m : Manager) :
    StatsBlind (handleSecondTickLight e now) m :=
  StatsBlind_ite
    (fun m => m.state.OperStateParsed.LightOn ≠ m.state.WantedState.LightOn ∧
      After now m.state.WantedState.DampenLightTs = true)
    (fun m =>
      if m.state.WantedState.LightOn = true then
        (fun m1 : Manager =>
          if m1.state.WantedState.LightMode = LightMode.Sunshine then
            cmdLightDim e m.state.WantedState.LightDim m1
          else m1)
          (cmdLightOn e now (recalculateLightAutoOff m) m.state.WantedState.LightMode
            m.state.WantedState.LightColorName m)
      else cmdLightOff e now m)
    (fun m =>
      if m.state.OperStateParsed.LightOn = true then
        (fun m1 : Manager =>
          if m1.state.WantedState.LightOn = true ∧
              m1.state.WantedState.LightAutoOffSecs > 0 ∧
              m1.state.OperStateParsed.LightOnSecs ≥ m1.state.WantedState.LightAutoOffSecs then
            cmdLightOff e now m1
          else m1)
          { m with
            state.OperStateParsed.LightOnSecs := m.state.OperStateParsed.LightOnSecs + 1 }
      else m)
    m (fun _ _ => Iff.rfl)
    (fun _ =>
      StatsBlind_ite (fun m => m.state.WantedState.LightOn = true)
        (fun m' =>
          (fun m1 : Manager =>
            if m1.state.WantedState.LightMode = LightMode.Sunshine then
              cmdLightDim e m'.state.WantedState.LightDim m1
            else m1)
            (cmdLightOn e now (recalculateLightAutoOff m') m'.state.WantedState.LightMode
              m'.state.WantedState.LightColorName m'))
        (cmdLightOff e now) m (fun _ _ => Iff.rfl)
        (fun _ =>
          StatsBlind_comp
            (cmdLightOn e now (recalculateLightAutoOff m) m.state.WantedState.LightMode
              m.state.WantedState.LightColorName)
            (fun m1 : Manager =>
              if m1.state.WantedState.LightMode = LightMode.Sunshine then
                cmdLightDim e m.state.WantedState.LightDim m1
              else m1)
            m (StatsBlind_cmdLightOn e now _ _ _ m)
            (StatsBlind_ite (fun m1 => m1.state.WantedState.LightMode = LightMode.Sunshine)
              (cmdLightDim e m.state.WantedState.LightDim) (fun m1 => m1) _
              (fun _ _ => Iff.rfl) (fun _ => StatsBlind_cmdLightDim e _ _)
              (fun _ => StatsBlind_id _)))
        (fun _ => StatsBlind_cmdLightOff e now m))
    (fun _ =>
      StatsBlind_ite (fun m => m.state.OperStateParsed.LightOn = true) _ (fun m => m)
        m (fun _ _ => Iff.rfl)
        (fun _ =>
          StatsBlind_comp
            (fun m : Manager =>
              { m with
                state.OperStateParsed.LightOnSecs :=
                  m.state.OperStateParsed.LightOnSecs + 1 })
            _ m
            (StatsBlind_of_fields _ m (fun st => st) []
              (fun _ _ => rfl) (fun _ _ => rfl) (fun _ _ => rfl) (fun _ _ => by simp)
              (fun _ _ => rfl))
            (StatsBlind_ite
              (fun m1 => m1.state.WantedState.LightOn = true ∧
                m1.state.WantedState.LightAutoOffSecs > 0 ∧
                m1.state.OperStateParsed.LightOnSecs ≥ m1.state.WantedState.LightAutoOffSecs)
              (cmdLightOff e now) (fun m1 => m1) _ (fun _ _ => Iff.rfl)
              (fun _ => StatsBlind_cmdLightOff e now _) (fun _ => StatsBlind_id _)))
        (fun _ => StatsBlind_id m))

theorem StatsBlind_handleSecondTick (e : Env) (now : Time) (m : Manager) :
    StatsBlind (handleSecondTick e now) m :=
  StatsBlind_comp (handleSecondTickDiffuser e now) (handleSecondTickLight e now) m
    (StatsBlind_handleSecondTickDiffuser e now m) (StatsBlind_handleSecondTickLight e now _)

theorem msgParseStatePower1_eq (raw : String) (m : Manager) :
    msgParseStatePower1 raw m =
      { m with
        state.OperStateParsed.DiffuserOn := decide (ToLower raw = "on")
        state.OperStateParsed.DiffuserOnSecs :=
          if ToLower raw = "on" then m.state.OperStateParsed.DiffuserOnSecs else 0 } := by
  unfold msgParseStatePower1
  by_cases h : ToLower raw = "on" <;> simp [h]

theorem msgParseStatePower2_eq (raw : String) (m : Manager) :
    msgParseStatePower2 raw m =
      { m with
        state.OperStateParsed.LightOn := decide (ToLower raw = "on")
        state.OperStateParsed.LightOnSecs :=
          if ToLower raw = "on" then m.state.OperStateParsed.LightOnSecs else 0 } := by
  unfold msgParseStatePower2
  by_cases h : ToLower raw = "on" <;> simp [h]

theorem msgParseSmokeyError_none (payload : String) (m : Manager)
    (h : errorValue payload = none) : msgParseSmokeyError payload m = m := by
  unfold errorValue at h
  unfold msgParseSmokeyError
  simp only [h]

theorem msgParseSmokeyError_same (payload : String) (m : Manager) (value : Int)
    (hv : errorValue payload = some value)
    (hb : decide (Int.land value 1 = 1) = m.state.OperStateParsed.LowWater) :
    msgParseSmokeyError payload m = m := by
  unfold errorValue at hv
  unfold msgParseSmokeyError
  simp only [hv]
  rw [if_pos hb]

theorem msgParseSmokeyError_changed (payload : String) (m : Manager) (value : Int)
    (hv : errorValue payload = some value)
    (hb : ¬ decide (Int.land value 1 = 1) = m.state.OperStateParsed.LowWater) :
    msgParseSmokeyError payload m =
      { m with
        state.OperStateParsed.LowWater := decide (Int.land value 1 = 1)
        state.WantedState.DiffuserOn :=
          if Int.land value 1 = 1 then false else m.state.WantedState.DiffuserOn } := by
  unfold errorValue at hv
  unfold msgParseSmokeyError
  simp only [hv]
  rw [if_neg hb]
  by_cases h1 : Int.land value 1 = 1 <;> simp [h1]

theorem StatsBlind_msgParseStatePower1 (raw : String) (m : Manager) :
    StatsBlind (msgParseStatePower1 raw) m :=
  StatsBlind_of_fields _ m (fun st => st) []
    (fun _ _ => by rw [msgParseStatePower1_eq, msgParseStatePower1_eq]; rfl)
    (fun _ _ => by rw [msgParseStatePower1_eq, msgParseStatePower1_eq]; rfl)
    (fun _ _ => by rw [msgParseStatePower1_eq]; rfl)
    (fun _ _ => by rw [msgParseStatePower1_eq]; simp)
    (fun _ _ => by rw [msgParseStatePower1_eq, msgParseStatePower1_eq]; rfl)

theorem StatsBlind_msgParseStatePower2 (raw : String) (m : Manager) :
    StatsBlind (msgParseStatePower2 raw) m :=
  StatsBlind_of_fields _ m (fun st => st) []
    (fun _ _ => by rw [msgParseStatePower2_eq, msgParseStatePower2_eq]; rfl)
    (fun _ _ => by rw [msgParseStatePower2_eq, msgParseStatePower2_eq]; rfl)
    (fun _ _ => by rw [msgParseStatePower2_eq]; rfl)
    (fun _ _ => by rw [msgParseStatePower2_eq]; simp)
    (fun _ _ => by rw [msgParseStatePower2_eq, msgParseStatePower2_eq]; rfl)

theorem StatsBlind_msgParseStateCommon (e : Env) (now : Time) (o : OperState) (raw : String)
    (m : Manager) : StatsBlind (msgParseStateCommon e now o raw) m := by
  by_cases h : o.DiffuserOn = "" ∨ o.LightOn = "" ∨ o.LightColor = ""
  · refine ⟨fun st => st, [], fun st pub => ?_⟩
    rw [msgParseStateCommon_dropped e now o raw _ h, msgParseStateCommon_dropped e now o raw _ h]
    simp [rebase]
  · refine ⟨fun st => { st with ParseStateMsgs := st.ParseStateMsgs + 1 }, [],
      fun st pub => ?_⟩
    rw [msgParseStateCommon_accepted e now o raw _ h, msgParseStateCommon_accepted e now o raw _ h]
    simp [rebase]

theorem StatsBlind_msgParseSmokeyError (payload : String) (m : Manager) :
    StatsBlind (msgParseSmokeyError payload) m := by
  refine ⟨fun st => st, [], fun st pub => ?_⟩
  cases hv : errorValue payload with
  | none =>
    rw [msgParseSmokeyError_none payload _ hv, msgParseSmokeyError_none payload _ hv]
    simp [rebase]
  | some value =>
    by_cases hb : decide (Int.land value 1 = 1) = m.state.OperStateParsed.LowWater
    · rw [msgParseSmokeyError_same payload (rebase st pub m) value hv hb,
        msgParseSmokeyError_same payload m value hv hb]
      simp [rebase]
    · rw [msgParseSmokeyError_changed payload (rebase st pub m) value hv hb,
        msgParseSmokeyError_changed payload m value hv hb]
      simp [rebase]

theorem run_CmdLightColor_eq (e : Env) (now : Time) (color : LightColor) (m : Manager) :
    (Command.CmdLightColor color).run e now m =
      if colorValue e color m = 0 then cmdLightOff e now (afterColorDraws e color m)
      else if m.state.WantedState.LightMode ≠ LightMode.Solid ∨
          m.state.OperStateParsed.LightOn = false then
        cmdLightOn e now DefaultAutoOffSeconds LightMode.Solid color (afterColorDraws e color m)
      else cmdLightColor e color (afterColorDraws e color m) := by
  simp only [Command.run, colorValue, colorDraws, afterColorDraws, Bool.not_eq_true']

theorem StatsBlind_run (e : Env) (now : Time) (cmd : Command) (m : Manager) :
    StatsBlind (cmd.run e now) m := by
  cases cmd with
  | CurrState =>
    exact StatsBlind_of_fields _ m (fun st => { st with GetStateHits := st.GetStateHits + 1 }) []
      (fun _ _ => rfl) (fun _ _ => rfl) (fun _ _ => rfl) (fun _ _ => by simp [Command.run, currentState])
      (fun _ _ => rfl)
  | CurrStateWater =>
    exact StatsBlind_of_fields _ m
      (fun st => { st with GetStateWaterHits := st.GetStateWaterHits + 1 }) []
      (fun _ _ => rfl) (fun _ _ => rfl) (fun _ _ => rfl)
      (fun _ _ => by simp [Command.run, currentStateWater]) (fun _ _ => rfl)
  | CmdDiffuserOn autoOffSecs => exact StatsBlind_cmdDiffuserOn e now autoOffSecs m
  | CmdDiffuserOff => exact StatsBlind_cmdDiffuserOff e now m
  | CmdLightOn autoOffSecs mode color => exact StatsBlind_cmdLightOn e now autoOffSecs mode color m
  | CmdLightColor color =>
    have hv : ∀ (st : Stats) (pub : List Msg),
        colorValue e color (rebase st pub m) = colorValue e color m := fun _ _ => rfl
    have hadv : ∀ (st : Stats) (pub : List Msg),
        afterColorDraws e color (rebase st pub m) = rebase st pub (afterColorDraws e color m) :=
      fun _ _ => rfl
    have hc : ∀ (st : Stats) (pub : List Msg),
        (m.state.WantedState.LightMode ≠ LightMode.Solid ∨
          m.state.OperStateParsed.LightOn = false) →
        ((rebase st pub m).state.WantedState.LightMode ≠ LightMode.Solid ∨
          (rebase st pub m).state.OperStateParsed.LightOn = false) := fun _ _ h => h
    have hc' : ∀ (st : Stats) (pub : List Msg),
        ((rebase st pub m).state.WantedState.LightMode ≠ LightMode.Solid ∨
          (rebase st pub m).state.OperStateParsed.LightOn = false) →
        (m.state.WantedState.LightMode ≠ LightMode.Solid ∨
          m.state.OperStateParsed.LightOn = false) := fun _ _ h => h
    by_cases h0 : colorValue e color m = 0
    · obtain ⟨f, out, h⟩ := StatsBlind_cmdLightOff e now (afterColorDraws e color m)
      refine ⟨f, out, fun st pub => ?_⟩
      rw [run_CmdLightColor_eq, run_CmdLightColor_eq, hv, if_pos h0, if_pos h0, hadv]
      exact h st pub
    · by_cases h1 : m.state.WantedState.LightMode ≠ LightMode.Solid ∨
          m.state.OperStateParsed.LightOn = false
      · obtain ⟨f, out, h⟩ := StatsBlind_cmdLightOn e now DefaultAutoOffSeconds
          LightMode.Solid color (afterColorDraws e color m)
        refine ⟨f, out, fun st pub => ?_⟩
        rw [run_CmdLightColor_eq, run_CmdLightColor_eq, hv, if_neg h0, if_neg h0,
          if_pos h1, if_pos (hc st pub h1), hadv]
        exact h st pub
      · obtain ⟨f, out, h⟩ := StatsBlind_cmdLightColor e color (afterColorDraws e color m)
        refine ⟨f, out, fun st pub => ?_⟩
        rw [run_CmdLightColor_eq, run_CmdLightColor_eq, hv, if_neg h0, if_neg h0,
          if_neg h1, if_neg (fun h2 => h1 (hc' st pub h2)), hadv]
        exact h st pub
  | CmdLightDim dim => exact StatsBlind_cmdLightDim e dim m
  | CmdLightOff => exact StatsBlind_cmdLightOff e now m
  | CmdQueryStatus => exact StatsBlind_cmdPubQueryStatus e m

theorem StatsBlind_mainLoop (e : Env) (now : Time) (ev : Event) (m : Manager) :
    StatsBlind (mainLoop e now ev) m := by
  cases ev with
  | mqttSub msg =>
    exact StatsBlind_ite (fun _ => msg.Topic = TopicSubPower1 e)
      (msgParseStatePower1 msg.Payload) _ m (fun _ _ => Iff.rfl)
      (fun _ => StatsBlind_msgParseStatePower1 _ m)
      (fun _ =>
        StatsBlind_ite (fun _ => msg.Topic = TopicSubPower2 e)
          (msgParseStatePower2 msg.Payload) _ m (fun _ _ => Iff.rfl)
          (fun _ => StatsBlind_msgParseStatePower2 _ m)
          (fun _ =>
            StatsBlind_ite (fun _ => msg.Topic = TopicSubState e)
              (msgParseState e now msg.Payload) _ m (fun _ _ => Iff.rfl)
              (fun _ => by
                unfold msgParseState
                cases e.unmarshalOperState msg.Payload with
                | none => exact StatsBlind_id m
                | some o => exact StatsBlind_msgParseStateCommon e now o _ m)
              (fun _ =>
                StatsBlind_ite (fun _ => msg.Topic = TopicSubStatus11 e)
                  (msgParseStatus11 e now msg.Payload) _ m (fun _ _ => Iff.rfl)
                  (fun _ => by
                    unfold msgParseStatus11
                    cases e.unmarshalOperState11 msg.Payload with
                    | none => exact StatsBlind_id m
                    | some o => exact StatsBlind_msgParseStateCommon e now o _ m)
                  (fun _ =>
                    StatsBlind_ite (fun _ => msg.Topic = TopicSubError e)
                      (msgParseSmokeyError msg.Payload) (fun m => m) m (fun _ _ => Iff.rfl)
                      (fun _ => StatsBlind_msgParseSmokeyError _ m)
                      (fun _ => StatsBlind_id m)))))
  | secondTick => exact StatsBlind_handleSecondTick e now m
  | checkStatusTickFast =>
    exact StatsBlind_comp
      (fun m : Manager =>
        if m.state.OperStateParsed.DiffuserOn = true ∨ m.state.OperStateParsed.LightOn = true ∨
            m.state.OperStateParsed.DiffuserOn ≠ m.state.WantedState.DiffuserOn ∨
            m.state.OperStateParsed.LightOn ≠ m.state.WantedState.LightOn then
          cmdPubQueryStatus e m
        else m)
      (bumpIncreaseDim e now) m
      (StatsBlind_ite
        (fun m => m.state.OperStateParsed.DiffuserOn = true ∨
          m.state.OperStateParsed.LightOn = true ∨
          m.state.OperStateParsed.DiffuserOn ≠ m.state.WantedState.DiffuserOn ∨
          m.state.OperStateParsed.LightOn ≠ m.state.WantedState.LightOn)
        (cmdPubQueryStatus e) (fun m => m) m (fun _ _ => Iff.rfl)
        (fun _ => StatsBlind_cmdPubQueryStatus e m) (fun _ => StatsBlind_id m))
      (StatsBlind_bumpIncreaseDim e now _)
  | checkStatusTickSlow => exact StatsBlind_cmdPubQueryStatus e m
  | cmds cmd => exact StatsBlind_run e now cmd m
  | timeout => exact StatsBlind_id m

/-! ### Letter case of the power payload -/

theorem unicodeToLower_eq_o (c : Char) : unicodeToLower c = 'o' ↔ c = 'o' ∨ c = 'O' := by
  constructor
  · intro h
    unfold unicodeToLower at h
    split_ifs at h with h1 h2 h3
    · generalize hn : c.toNat = n at h h1
      obtain ⟨hlo, hhi⟩ := h1
      interval_cases n <;> first
        | exact absurd h (by decide)
        | (right; rw [← Char.ofNat_toNat c, hn])
    · exact absurd h (by decide)
    · exact absurd h (by decide)
    · exact Or.inl h
  · rintro (rfl | rfl) <;> decide

theorem unicodeToLower_eq_n (c : Char) : unicodeToLower c = 'n' ↔ c = 'n' ∨ c = 'N' := by
  constructor
  · intro h
    unfold unicodeToLower at h
    split_ifs at h with h1 h2 h3
    · generalize hn : c.toNat = n at h h1
      obtain ⟨hlo, hhi⟩ := h1
      interval_cases n <;> first
        | exact absurd h (by decide)
        | (right; rw [← Char.ofNat_toNat c, hn])
    · exact absurd h (by decide)
    · exact absurd h (by decide)
    · exact Or.inl h
  · rintro (rfl | rfl) <;> decide

/-- The lower-cased payload is `on` exactly for the four spellings of the word. -/
theorem ToLower_eq_on (p : String) :
    ToLower p = "on" ↔ p = "on" ∨ p = "On" ∨ p = "oN" ∨ p = "ON" := by
  constructor
  · intro h
    cases p with
    | mk l =>
      have hl : l.map unicodeToLower = ['o', 'n'] := by
        have := congrArg String.data h
        simpa [ToLower] using this
      rcases l with _ | ⟨a, _ | ⟨b, _ | ⟨c, l⟩⟩⟩
      · exact absurd hl (by simp)
      · exact absurd hl (by simp)
      · simp only [List.map_cons, List.map_nil, List.cons.injEq, and_true] at hl
        obtain ⟨ha, hb⟩ := hl
        rcases (unicodeToLower_eq_o a).mp ha with rfl | rfl <;>
          rcases (unicodeToLower_eq_n b).mp hb with rfl | rfl
        · exact Or.inl rfl
        · exact Or.inr (Or.inr (Or.inl rfl))
        · exact Or.inr (Or.inl rfl)
        · exact Or.inr (Or.inr (Or.inr rfl))
      · exact absurd hl (by simp)
  · rintro (rfl | rfl | rfl | rfl) <;> decide

/-! ### The ramp step and the sent messages -/

theorem bumpIncreaseDim_extends (e : Env) (now : Time) (m : Manager) :
    ∃ out : List Msg, (bumpIncreaseDim e now m).mqttPub = m.mqttPub ++ out := by
  unfold bumpIncreaseDim
  split
  · exact ⟨[], by simp⟩
  · split
    · exact ⟨_, cmdLightOn_mqttPub _ _ _ _ _ _⟩
    · exact ⟨_, cmdLightDim_mqttPub _ _ _⟩

theorem bumpIncreaseDim_wanted_off (e : Env) (now : Time) (m : Manager)
    (h : m.state.WantedState.LightOn = false) : bumpIncreaseDim e now m = m := by
  unfold bumpIncreaseDim
  rw [if_pos (Or.inl (by simp [h]))]

theorem handleSecondTick_LightDim (e : Env) (now : Time) (m : Manager) :
    (handleSecondTick e now m).state.WantedState.LightDim = m.state.WantedState.LightDim := by
  obtain ⟨outD, -, -, -, -, hDw⟩ := handleSecondTickDiffuser_frame e now m
  have hdim : (handleSecondTickDiffuser e now m).state.WantedState.LightDim =
      m.state.WantedState.LightDim := by rw [hDw]
  rw [handleSecondTick, ← hdim]
  rcases handleSecondTickLight_cases e now (handleSecondTickDiffuser e now m) with
    ⟨_, _, _, h⟩ | ⟨_, _, _, h⟩ | ⟨_, _, _, h⟩ | ⟨_, _, _, h⟩ | ⟨_, _, h⟩
  · rw [h]
    split
    · simp
    · rename_i hs
      simp [hs]
  · rw [h]; simp
  · rw [h]; simp
  · rw [h]
  · rw [h]

/-! ### The increase-dim flag follows the mode -/

theorem IncreaseDimIffSunshine_of_same (m m1 : Manager)
    (h1 : m1.state.WantedState.IncreaseDim = m.state.WantedState.IncreaseDim)
    (h2 : m1.state.WantedState.LightMode = m.state.WantedState.LightMode)
    (hm : IncreaseDimIffSunshine m) : IncreaseDimIffSunshine m1 := by
  unfold IncreaseDimIffSunshine at hm ⊢
  rw [h1, h2]
  exact hm

theorem IncreaseDimIffSunshine_of_set (m1 : Manager)
    (h : m1.state.WantedState.IncreaseDim =
      decide (m1.state.WantedState.LightMode = LightMode.Sunshine)) :
    IncreaseDimIffSunshine m1 := by
  unfold IncreaseDimIffSunshine
  rw [h]
  simp

theorem IncreaseDimIffSunshine_of_wanted (m m1 : Manager)
    (h : m1.state.WantedState = m.state.WantedState) (hm : IncreaseDimIffSunshine m) :
    IncreaseDimIffSunshine m1 :=
  IncreaseDimIffSunshine_of_same m m1 (by rw [h]) (by rw [h]) hm

theorem IncreaseDimIffSunshine_cmdLightOn (e : Env) (now : Time) (autoOffSecs : Int)
    (mode : LightMode) (color : LightColor) (m : Manager) :
    IncreaseDimIffSunshine (cmdLightOn e now autoOffSecs mode color m) :=
  IncreaseDimIffSunshine_of_set _ (by simp)

theorem IncreaseDimIffSunshine_cmdLightOff (e : Env) (now : Time) (m : Manager) :
    IncreaseDimIffSunshine (cmdLightOff e now m) :=
  IncreaseDimIffSunshine_of_set _ (by simp)

theorem IncreaseDimIffSunshine_handleSecondTick (e : Env) (now : Time) (m : Manager)
    (hm : IncreaseDimIffSunshine m) : IncreaseDimIffSunshine (handleSecondTick e now m) := by
  obtain ⟨outD, -, -, -, -, hDw⟩ := handleSecondTickDiffuser_frame e now m
  have hmD : IncreaseDimIffSunshine (handleSecondTickDiffuser e now m) :=
    IncreaseDimIffSunshine_of_same m _ (by rw [hDw]) (by rw [hDw]) hm
  rw [handleSecondTick]
  rcases handleSecondTickLight_cases e now (handleSecondTickDiffuser e now m) with
    ⟨_, _, _, h⟩ | ⟨_, _, _, h⟩ | ⟨_, _, _, h⟩ | ⟨_, _, _, h⟩ | ⟨_, _, h⟩
  · rw [h]
    split
    · exact IncreaseDimIffSunshine_of_same _ _ rfl rfl (IncreaseDimIffSunshine_cmdLightOn _ _ _ _ _ _)
    · exact IncreaseDimIffSunshine_cmdLightOn _ _ _ _ _ _
  · rw [h]
    exact IncreaseDimIffSunshine_cmdLightOff _ _ _
  · rw [h]
    exact IncreaseDimIffSunshine_cmdLightOff _ _ _
  · rw [h]
    exact hmD
  · rw [h]
    exact hmD

theorem IncreaseDimIffSunshine_bumpIncreaseDim (e : Env) (now : Time) (m : Manager)
    (hm : IncreaseDimIffSunshine m) : IncreaseDimIffSunshine (bumpIncreaseDim e now m) := by
  unfold bumpIncreaseDim
  split
  · exact hm
  · split
    · exact IncreaseDimIffSunshine_cmdLightOn _ _ _ _ _ _
    · exact IncreaseDimIffSunshine_of_same m _ rfl rfl hm

theorem IncreaseDimIffSunshine_run (e : Env) (now : Time) (cmd : Command) (m : Manager)
    (hm : IncreaseDimIffSunshine m) : IncreaseDimIffSunshine (cmd.run e now m) := by
  cases cmd with
  | CurrState => exact hm
  | CurrStateWater => exact hm
  | CmdDiffuserOn autoOffSecs => exact IncreaseDimIffSunshine_of_same m _ rfl rfl hm
  | CmdDiffuserOff => exact IncreaseDimIffSunshine_of_same m _ rfl rfl hm
  | CmdLightOn autoOffSecs mode color => exact IncreaseDimIffSunshine_cmdLightOn _ _ _ _ _ _
  | CmdLightColor color =>
    rw [run_CmdLightColor_eq]
    split
    · exact IncreaseDimIffSunshine_cmdLightOff _ _ _
    · split
      · exact IncreaseDimIffSunshine_cmdLightOn _ _ _ _ _ _
      · exact IncreaseDimIffSunshine_of_same m _ rfl rfl hm
  | CmdLightDim dim => exact IncreaseDimIffSunshine_of_same m _ rfl rfl hm
  | CmdLightOff => exact IncreaseDimIffSunshine_cmdLightOff _ _ _
  | CmdQueryStatus => exact IncreaseDimIffSunshine_of_same m _ rfl rfl hm

theorem IncreaseDimIffSunshine_mainLoop (e : Env) (now : Time) (ev : Event) (m : Manager)
    (hm : IncreaseDimIffSunshine m) : IncreaseDimIffSunshine (mainLoop e now ev m) := by
  cases ev with
  | mqttSub msg =>
    simp only [mainLoop]
    split
    · exact IncreaseDimIffSunshine_of_wanted m _ (msgParseStatePower1_wanted _ _) hm
    · split
      · exact IncreaseDimIffSunshine_of_wanted m _ (msgParseStatePower2_wanted _ _) hm
      · split
        · exact IncreaseDimIffSunshine_of_wanted m _ (msgParseState_wanted _ _ _ _) hm
        · split
          · exact IncreaseDimIffSunshine_of_wanted m _ (msgParseStatus11_wanted _ _ _ _) hm
          · split
            · exact IncreaseDimIffSunshine_of_same m _
                (by rw [msgParseSmokeyError_wanted]) (by rw [msgParseSmokeyError_wanted]) hm
            · exact hm
  | secondTick => exact IncreaseDimIffSunshine_handleSecondTick e now m hm
  | checkStatusTickFast =>
    simp only [mainLoop]
    apply IncreaseDimIffSunshine_bumpIncreaseDim
    split
    · exact IncreaseDimIffSunshine_of_same m _ rfl rfl hm
    · exact hm
  | checkStatusTickSlow => exact IncreaseDimIffSunshine_of_same m _ rfl rfl hm
  | cmds cmd => exact IncreaseDimIffSunshine_run e now cmd m hm
  | timeout => exact hm

theorem IncreaseDimIffSunshine_runEvents (e : Env) (evs : List (Time × Event)) :
    ∀ m : Manager, IncreaseDimIffSunshine m → IncreaseDimIffSunshine (runEvents e evs m) := by
  induction evs with
  | nil => intro m hm; exact hm
  | cons ev rest ih =>
    intro m hm
    obtain ⟨now, ev⟩ := ev
    exact ih _ (IncreaseDimIffSunshine_mainLoop e now ev m hm)

/-! ### Low water and the diffuser command -/

theorem mainLoop_lowWaterReport (e : Env) (now : Time) (m : Manager) :
    mainLoop e now (lowWaterReport e) m = msgParseSmokeyError "0x1" m := by
  simp [mainLoop, lowWaterReport, TopicSubError, TopicSubPower1, TopicSubPower2, TopicSubState,
    TopicSubStatus11, prefix_append_inj]

theorem errorValue_lowWater : errorValue "0x1" = some 1 := by decide

theorem WantedOnAtLowWater_report (e : Env) (now : Time) (m : Manager)
    (hm : WantedOnAtLowWater e m) : WantedOnAtLowWater e (mainLoop e now (lowWaterReport e) m) := by
  rw [mainLoop_lowWaterReport,
    msgParseSmokeyError_same "0x1" m 1 errorValue_lowWater (by rw [hm.1]; decide)]
  exact hm

theorem WantedOnAtLowWater_secondTick (e : Env) (now : Time) (m : Manager)
    (hm : WantedOnAtLowWater e m) :
    WantedOnAtLowWater e (mainLoop e now Event.secondTick m) := by
  obtain ⟨hlow, hwant, hobs, hsent⟩ := hm
  obtain ⟨outL, hL, -, hLo, -, hLlow, hLw, -, -⟩ :=
    handleSecondTickLight_frame e now (handleSecondTickDiffuser e now m)
  have hD : WantedOnAtLowWater e (handleSecondTickDiffuser e now m) := by
    rcases handleSecondTickDiffuser_cases e now m with
      ⟨_, _, h⟩ | ⟨_, ho, _, _⟩ | ⟨_, ho, _, _⟩ | ⟨_, _, h⟩
    · rw [h]
      refine ⟨hlow, hwant, hobs, ?_⟩
      rw [cmdDiffuser_mqttPub]
      exact List.mem_append_left _ hsent
    · rw [hobs] at ho
      exact absurd ho (by decide)
    · rw [hobs] at ho
      exact absurd ho (by decide)
    · rw [h]
      exact ⟨hlow, hwant, hobs, hsent⟩
  show WantedOnAtLowWater e (handleSecondTickLight e now (handleSecondTickDiffuser e now m))
  refine ⟨by rw [hLlow]; exact hD.1, by rw [hLw]; exact hD.2.1, by rw [hLo]; exact hD.2.2.1, ?_⟩
  rw [hL]
  exact List.mem_append_left _ hD.2.2.2

theorem WantedOnAtLowWater_runEvents (e : Env) (rest : List (Time × Event)) :
    ∀ m : Manager, WantedOnAtLowWater e m →
      (∀ x ∈ rest, x.2 = Event.secondTick ∨ x.2 = lowWaterReport e) →
      WantedOnAtLowWater e (runEvents e rest m) := by
  induction rest with
  | nil => intro m hm _; exact hm
  | cons ev rest ih =>
    intro m hm hall
    obtain ⟨now, ev⟩ := ev
    have hev := hall (now, ev) (List.mem_cons_self _ _)
    have hrest : ∀ x ∈ rest, x.2 = Event.secondTick ∨ x.2 = lowWaterReport e :=
      fun x hx => hall x (List.mem_cons_of_mem _ hx)
    simp only at hev
    rw [runEvents]
    rcases hev with rfl | rfl
    · exact ih _ (WantedOnAtLowWater_secondTick e now m hm) hrest
    · exact ih _ (WantedOnAtLowWater_report e now m hm) hrest

/-! ## The per-second reconciliation pass -/

/-- C1: for each actuator, when the observed on/off flag differs from the wanted one and
`now` is strictly after the actuator's debounce deadline, `handleSecondTick` publishes
exactly one message on the actuator's power topic, with payload "ON" if the actuator is
wanted on and "OFF" otherwise, and leaves the deadline at `now` plus six seconds. -/
theorem corrective_command_once (e : Env) (now : Time) (m : Manager) (a : Actuator)
    (hdiff : a.observedOn m ≠ a.wantedOn m) (hlate : a.dampenTs m < now) :
    onTopic (a.powerTopic e) (published m (handleSecondTick e now m)) =
        [{ Topic := a.powerTopic e, Payload := if a.wantedOn m then "ON" else "OFF" }] ∧
      a.dampenTs (handleSecondTick e now m) = now + 6 * 1000000000 := by
  obtain ⟨outD, hD, hD2, hDr, hDo, hDw⟩ := handleSecondTickDiffuser_frame e now m
  obtain ⟨outL, hL, hL1, -, -, -, -, -, hLts⟩ :=
    handleSecondTickLight_frame e now (handleSecondTickDiffuser e now m)
  have hpub : published m (handleSecondTick e now m) = outD ++ outL :=
    published_append _ _ _ (by rw [handleSecondTick, hL, hD, List.append_assoc])
  cases a
  · simp only [Actuator.observedOn, Actuator.wantedOn, Actuator.dampenTs,
      Actuator.powerTopic] at hdiff hlate ⊢
    rcases handleSecondTickDiffuser_cases e now m with
      ⟨_, _, h⟩ | ⟨hn, _⟩ | ⟨hn, _⟩ | ⟨hn, _⟩
    · have hout : outD = [MsgPubSetDiffuser e m.state.WantedState.DiffuserOn,
          MsgPubCheckStatus11 e, MsgPubCheckWater e] := by
        have := hD
        rw [h, cmdDiffuser_mqttPub] at this
        exact (List.append_cancel_left this).symm
      constructor
      · rw [hpub, onTopic_append, hL1, hout]
        simp [prefix_append_inj, MsgPubSetDiffuser, onOff]
      · rw [handleSecondTick, hLts, h]
        simp [cmdTsDampenInterval]
    · exact absurd ⟨hdiff, hlate⟩ hn
    · exact absurd ⟨hdiff, hlate⟩ hn
    · exact absurd ⟨hdiff, hlate⟩ hn
  · simp only [Actuator.observedOn, Actuator.wantedOn, Actuator.dampenTs,
      Actuator.powerTopic] at hdiff hlate ⊢
    have hobs : (handleSecondTickDiffuser e now m).state.OperStateParsed.LightOn =
        m.state.OperStateParsed.LightOn := by rw [hDo]
    have hwant : (handleSecondTickDiffuser e now m).state.WantedState.LightOn =
        m.state.WantedState.LightOn := by rw [hDw]
    have hts : (handleSecondTickDiffuser e now m).state.WantedState.DampenLightTs =
        m.state.WantedState.DampenLightTs := by rw [hDw]
    rcases handleSecondTickLight_cases e now (handleSecondTickDiffuser e now m) with
      ⟨ho, hw, _, h⟩ | ⟨ho, hw, _, h⟩ | ⟨hn, _⟩ | ⟨hn, _⟩ | ⟨hn, _⟩
    · rw [hobs] at ho
      rw [hwant] at hw
      have hout : onTopic (e.TopicPrefix ++ "cmnd/Power2") outL = [MsgPubSetLight e true] := by
        have := hL
        rw [h] at this
        split at this
        · rw [cmdLightDim_mqttPub, cmdLightOn_mqttPub, List.append_assoc] at this
          rw [← List.append_cancel_left this]
          simp [prefix_append_inj, apply_ite (onTopic _), hobs, ho]
        · rw [cmdLightOn_mqttPub] at this
          rw [← List.append_cancel_left this]
          simp [prefix_append_inj, apply_ite (onTopic _), hobs, ho]
      constructor
      · rw [hpub, onTopic_append, hD2, hout]
        simp [MsgPubSetLight, onOff, hw]
      · rw [handleSecondTick, h]
        split <;> simp [cmdTsDampenInterval]
    · rw [hobs] at ho
      rw [hwant] at hw
      have hout : onTopic (e.TopicPrefix ++ "cmnd/Power2") outL = [MsgPubSetLight e false] := by
        have := hL
        rw [h, cmdLightOff_mqttPub] at this
        rw [← List.append_cancel_left this]
        simp [prefix_append_inj, hobs, ho]
      constructor
      · rw [hpub, onTopic_append, hD2, hout]
        simp [MsgPubSetLight, onOff, hw]
      · rw [handleSecondTick, h]
        simp [cmdTsDampenInterval]
    · rw [hobs, hwant, hts] at hn
      exact absurd ⟨hdiff, hlate⟩ hn
    · rw [hobs, hwant, hts] at hn
      exact absurd ⟨hdiff, hlate⟩ hn
    · rw [hobs, hwant, hts] at hn
      exact absurd ⟨hdiff, hlate⟩ hn

/-- Witness of C1: the diffuser is wanted on and observed off, one nanosecond after the
zero deadline. -/
theorem corrective_command_once_witness :
    (Actuator.diffuser.observedOn wantsDiffuserOn ≠ Actuator.diffuser.wantedOn wantsDiffuserOn ∧
      Actuator.diffuser.dampenTs wantsDiffuserOn < 1) ∧
    (onTopic (Actuator.diffuser.powerTopic demoEnv)
        (published wantsDiffuserOn (handleSecondTick demoEnv 1 wantsDiffuserOn)) =
        [{ Topic := Actuator.diffuser.powerTopic demoEnv,
           Payload := if Actuator.diffuser.wantedOn wantsDiffuserOn then "ON" else "OFF" }] ∧
      Actuator.diffuser.dampenTs (handleSecondTick demoEnv 1 wantsDiffuserOn) =
        1 + 6 * 1000000000) :=
  ⟨⟨by decide, by decide⟩,
    corrective_command_once demoEnv 1 wantsDiffuserOn Actuator.diffuser (by decide) (by decide)⟩

/-- C2: for each actuator, when the observed on/off flag differs from the wanted one but
`now` is not after the actuator's debounce deadline, `handleSecondTick` publishes nothing
on the actuator's power topic and leaves its wanted flag and its deadline unchanged. -/
theorem no_command_within_debounce (e : Env) (now : Time) (m : Manager) (a : Actuator)
    (hdiff : a.observedOn m ≠ a.wantedOn m) (hearly : ¬ a.dampenTs m < now) :
    onTopic (a.powerTopic e) (published m (handleSecondTick e now m)) = [] ∧
      a.wantedOn (handleSecondTick e now m) = a.wantedOn m ∧
      a.dampenTs (handleSecondTick e now m) = a.dampenTs m := by
  obtain ⟨outD, hD, hD2, hDr, hDo, hDw⟩ := handleSecondTickDiffuser_frame e now m
  obtain ⟨outL, hL, hL1, -, -, -, hLw, -, hLts⟩ :=
    handleSecondTickLight_frame e now (handleSecondTickDiffuser e now m)
  have hpub : published m (handleSecondTick e now m) = outD ++ outL :=
    published_append _ _ _ (by rw [handleSecondTick, hL, hD, List.append_assoc])
  cases a
  · simp only [Actuator.observedOn, Actuator.wantedOn, Actuator.dampenTs,
      Actuator.powerTopic] at hdiff hearly ⊢
    have hobs : m.state.OperStateParsed.DiffuserOn = true →
        ¬ m.state.WantedState.DiffuserOn = true := by
      intro h1 h2
      exact hdiff (h1.trans h2.symm)
    rcases handleSecondTickDiffuser_cases e now m with
      ⟨_, hl, _⟩ | ⟨_, ho, hw, _⟩ | ⟨_, _, _, h⟩ | ⟨_, _, h⟩
    · exact absurd hl hearly
    · exact absurd hw.1 (hobs ho)
    · have hout : outD = [] := by
        have := hD
        rw [h] at this
        simpa using this
      rw [hpub, onTopic_append, hL1, hout, handleSecondTick, hLw, hLts, h]
      exact ⟨rfl, rfl, rfl⟩
    · have hout : outD = [] := by
        have := hD
        rw [h] at this
        simpa using this
      rw [hpub, onTopic_append, hL1, hout, handleSecondTick, hLw, hLts, h]
      exact ⟨rfl, rfl, rfl⟩
  · simp only [Actuator.observedOn, Actuator.wantedOn, Actuator.dampenTs,
      Actuator.powerTopic] at hdiff hearly ⊢
    have hobs : (handleSecondTickDiffuser e now m).state.OperStateParsed.LightOn =
        m.state.OperStateParsed.LightOn := by rw [hDo]
    have hwant : (handleSecondTickDiffuser e now m).state.WantedState.LightOn =
        m.state.WantedState.LightOn := by rw [hDw]
    have hts : (handleSecondTickDiffuser e now m).state.WantedState.DampenLightTs =
        m.state.WantedState.DampenLightTs := by rw [hDw]
    have hne : m.state.OperStateParsed.LightOn = true →
        ¬ m.state.WantedState.LightOn = true := by
      intro h1 h2
      exact hdiff (h1.trans h2.symm)
    rcases handleSecondTickLight_cases e now (handleSecondTickDiffuser e now m) with
      ⟨_, _, hl, _⟩ | ⟨_, _, hl, _⟩ | ⟨_, ho, hw, _⟩ | ⟨_, _, _, h⟩ | ⟨_, _, h⟩
    · rw [hts] at hl
      exact absurd hl hearly
    · rw [hts] at hl
      exact absurd hl hearly
    · rw [hobs] at ho
      rw [hwant] at hw
      exact absurd hw.1 (hne ho)
    · have hout : outL = [] := by
        have := hL
        rw [h] at this
        simpa using this
      rw [hpub, onTopic_append, hD2, hout, handleSecondTick, h]
      exact ⟨rfl, hwant, hts⟩
    · have hout : outL = [] := by
        have := hL
        rw [h] at this
        simpa using this
      rw [hpub, onTopic_append, hD2, hout, handleSecondTick, h]
      exact ⟨rfl, hwant, hts⟩

/-- Witness of C2: the light is observed on and wanted off, five seconds before its
deadline. -/
theorem no_command_within_debounce_witness :
    (Actuator.light.observedOn wantsLightOff ≠ Actuator.light.wantedOn wantsLightOff ∧
      ¬ Actuator.light.dampenTs wantsLightOff < 5 * 1000000000) ∧
    (onTopic (Actuator.light.powerTopic demoEnv)
        (published wantsLightOff (handleSecondTick demoEnv (5 * 1000000000) wantsLightOff)) =
        [] ∧
      Actuator.light.wantedOn (handleSecondTick demoEnv (5 * 1000000000) wantsLightOff) =
        Actuator.light.wantedOn wantsLightOff ∧
      Actuator.light.dampenTs (handleSecondTick demoEnv (5 * 1000000000) wantsLightOff) =
        Actuator.light.dampenTs wantsLightOff) :=
  ⟨⟨by decide, by decide⟩,
    no_command_within_debounce demoEnv (5 * 1000000000) wantsLightOff Actuator.light
      (by decide) (by decide)⟩

/-- C3: in every state reachable from the zero-initialised manager by any sequence of
loop events (inbound messages, the three ticks, the idle timeout and every queued
command), an actuator that is observed off has its continuous-on counter at 0. -/
theorem on_counter_zero_when_off (e : Env) (m : Manager) (h : Reachable e m) :
    (m.state.OperStateParsed.DiffuserOn = false → m.state.OperStateParsed.DiffuserOnSecs = 0) ∧
    (m.state.OperStateParsed.LightOn = false → m.state.OperStateParsed.LightOnSecs = 0) := by
  obtain ⟨evs, rfl⟩ := h
  exact OnSecsZeroWhenOff_runEvents e evs Start ⟨fun _ => rfl, fun _ => rfl⟩

/-- Witness of C3: after the diffuser was reported on for two seconds and then off, both
actuators are observed off and both counters are 0. -/
theorem on_counter_zero_when_off_witness :
    Reachable demoEnv (runEvents demoEnv demoRun Start) ∧
    (runEvents demoEnv demoRun Start).state.OperStateParsed.DiffuserOn = false ∧
    (runEvents demoEnv demoRun Start).state.OperStateParsed.LightOn = false ∧
    (runEvents demoEnv demoRun Start).state.OperStateParsed.DiffuserOnSecs = 0 ∧
    (runEvents demoEnv demoRun Start).state.OperStateParsed.LightOnSecs = 0 :=
  have hr : Reachable demoEnv (runEvents demoEnv demoRun Start) := ⟨demoRun, rfl⟩
  ⟨hr, by decide, by decide,
    (on_counter_zero_when_off demoEnv _ hr).1 (by decide),
    (on_counter_zero_when_off demoEnv _ hr).2 (by decide)⟩

/-- C4 as stated fails: with the light observed on for 5 seconds, wanted off and past its
deadline, the pass takes the corrective branch and the counter goes to 0, not to 6. -/
theorem on_counter_plus_one_counterexample :
    ¬ (∀ (e : Env) (now : Time) (m : Manager) (a : Actuator), a.observedOn m = true →
        a.onSecs (handleSecondTick e now m) = a.onSecs m + 1) := by
  intro h
  have h1 := h demoEnv (11 * 1000000000) wantsLightOff Actuator.light (by decide)
  revert h1
  decide

/-- C4, amended: for each actuator observed on, one `handleSecondTick` sets the
continuous-on counter to 0 when the pass issues a power command for that actuator (the
corrective one: wanted off and `now` after the deadline; or the auto-off: wanted on,
budget above 0 and counter plus one at or above the budget), and otherwise increases
it by exactly 1. -/
theorem on_counter_step (e : Env) (now : Time) (m : Manager) (a : Actuator)
    (hon : a.observedOn m = true) :
    a.onSecs (handleSecondTick e now m) =
      if (a.wantedOn m = false ∧ a.dampenTs m < now) ∨
          (a.wantedOn m = true ∧ 0 < a.autoOffSecs m ∧ a.autoOffSecs m ≤ a.onSecs m + 1)
      then 0 else a.onSecs m + 1 := by
  obtain ⟨outD, hD, hD2, hDr, hDo, hDw⟩ := handleSecondTickDiffuser_frame e now m
  obtain ⟨outL, hL, hL1, -, hLs, -, -, -, -⟩ :=
    handleSecondTickLight_frame e now (handleSecondTickDiffuser e now m)
  cases a
  · simp only [Actuator.observedOn, Actuator.wantedOn, Actuator.dampenTs, Actuator.onSecs,
      Actuator.autoOffSecs] at hon ⊢
    rw [handleSecondTick, hLs]
    rcases handleSecondTickDiffuser_cases e now m with
      ⟨hne, hl, h⟩ | ⟨_, _, hw, h⟩ | ⟨hn, _, hw, h⟩ | ⟨_, ho, _⟩
    · have hoff : m.state.WantedState.DiffuserOn = false := by
        rw [hon] at hne
        simpa using hne
      rw [h, if_pos (Or.inl ⟨hoff, hl⟩)]
      rfl
    · rw [h, if_pos (Or.inr ⟨hw.1, hw.2.1, hw.2.2⟩)]
      rfl
    · rw [h, if_neg]
      rintro (⟨hoff, hl⟩ | hw')
      · exact hn ⟨by rw [hon, hoff]; decide, hl⟩
      · exact hw ⟨hw'.1, hw'.2.1, hw'.2.2⟩
    · rw [hon] at ho
      exact absurd ho (by decide)
  · simp only [Actuator.observedOn, Actuator.wantedOn, Actuator.dampenTs, Actuator.onSecs,
      Actuator.autoOffSecs] at hon ⊢
    have hobs : (handleSecondTickDiffuser e now m).state.OperStateParsed.LightOn =
        m.state.OperStateParsed.LightOn := by rw [hDo]
    have hsecs : (handleSecondTickDiffuser e now m).state.OperStateParsed.LightOnSecs =
        m.state.OperStateParsed.LightOnSecs := by rw [hDo]
    have hwant : (handleSecondTickDiffuser e now m).state.WantedState.LightOn =
        m.state.WantedState.LightOn := by rw [hDw]
    have hts : (handleSecondTickDiffuser e now m).state.WantedState.DampenLightTs =
        m.state.WantedState.DampenLightTs := by rw [hDw]
    have hbud : (handleSecondTickDiffuser e now m).state.WantedState.LightAutoOffSecs =
        m.state.WantedState.LightAutoOffSecs := by rw [hDw]
    rw [handleSecondTick]
    rcases handleSecondTickLight_cases e now (handleSecondTickDiffuser e now m) with
      ⟨ho, _, _, _⟩ | ⟨_, hw, hl, h⟩ | ⟨_, _, hw, h⟩ | ⟨hn, _, hw, h⟩ | ⟨_, ho, _⟩
    · rw [hobs, hon] at ho
      exact absurd ho (by decide)
    · rw [hwant] at hw
      rw [hts] at hl
      rw [h, if_pos (Or.inl ⟨hw, hl⟩)]
      simp
    · rw [hwant, hbud, hsecs] at hw
      rw [h, if_pos (Or.inr ⟨hw.1, hw.2.1, hw.2.2⟩)]
      simp
    · rw [hobs, hwant, hts] at hn
      rw [hwant, hbud, hsecs] at hw
      rw [h, if_neg]
      · simp [hsecs]
      · rintro (⟨hoff, hl⟩ | hw')
        · exact hn ⟨by rw [hon, hoff]; decide, hl⟩
        · exact hw ⟨hw'.1, hw'.2.1, hw'.2.2⟩
    · rw [hobs, hon] at ho
      exact absurd ho (by decide)

/-- Witness of C4 (amended): the light is observed on for 5 seconds; five seconds before
its deadline the counter goes to 6. -/
theorem on_counter_step_witness :
    Actuator.light.observedOn wantsLightOff = true ∧
    Actuator.light.onSecs (handleSecondTick demoEnv (5 * 1000000000) wantsLightOff) = 6 :=
  ⟨by decide,
    (on_counter_step demoEnv (5 * 1000000000) wantsLightOff Actuator.light (by decide)).trans
      (by decide)⟩

/-- C5: for each actuator observed on and wanted on with an auto-off budget above 0,
`handleSecondTick` publishes an "OFF" message on the actuator's power topic exactly when
the continuous-on counter plus this pass's increment is at or above the budget; and when
it does, the actuator is wanted off and its counter is 0 afterwards. -/
theorem auto_off_at_budget (e : Env) (now : Time) (m : Manager) (a : Actuator)
    (hobs : a.observedOn m = true) (hwant : a.wantedOn m = true) (hB : 0 < a.autoOffSecs m) :
    ((({ Topic := a.powerTopic e, Payload := "OFF" } : Msg) ∈
          published m (handleSecondTick e now m)) ↔ a.autoOffSecs m ≤ a.onSecs m + 1) ∧
      (a.autoOffSecs m ≤ a.onSecs m + 1 →
        a.wantedOn (handleSecondTick e now m) = false ∧
        a.onSecs (handleSecondTick e now m) = 0) := by
  obtain ⟨outD, hD, hD2, hDr, hDo, hDw⟩ := handleSecondTickDiffuser_frame e now m
  obtain ⟨outL, hL, hL1, -, hLs, -, hLw, -, -⟩ :=
    handleSecondTickLight_frame e now (handleSecondTickDiffuser e now m)
  have hpub : published m (handleSecondTick e now m) = outD ++ outL :=
    published_append _ _ _ (by rw [handleSecondTick, hL, hD, List.append_assoc])
  cases a
  · simp only [Actuator.observedOn, Actuator.wantedOn, Actuator.onSecs,
      Actuator.autoOffSecs, Actuator.powerTopic] at hobs hwant hB ⊢
    have hnotL : ({ Topic := e.TopicPrefix ++ "cmnd/Power1", Payload := "OFF" } : Msg) ∉ outL :=
      not_mem_of_onTopic_nil _ _ hL1 _ rfl
    rw [hpub, List.mem_append, handleSecondTick, hLw, hLs]
    rcases handleSecondTickDiffuser_cases e now m with
      ⟨hne, _, _⟩ | ⟨_, _, hw, h⟩ | ⟨_, _, hw, h⟩ | ⟨_, ho, _⟩
    · exact absurd (hobs.trans hwant.symm) hne
    · have hout : outD = [MsgPubSetDiffuser e false, MsgPubCheckStatus11 e,
          MsgPubCheckWater e] := by
        have := hD
        rw [h, cmdDiffuserOff_mqttPub] at this
        exact (List.append_cancel_left this).symm
      rw [h, hout]
      refine ⟨⟨fun _ => hw.2.2, fun _ => Or.inl ?_⟩, fun _ => ⟨rfl, rfl⟩⟩
      simp [MsgPubSetDiffuser, onOff]
    · have hout : outD = [] := by
        have := hD
        rw [h] at this
        simpa using this
      have hlt : ¬ m.state.WantedState.DiffuserAutoOffSecs ≤
          m.state.OperStateParsed.DiffuserOnSecs + 1 := fun hle => hw ⟨hwant, hB, hle⟩
      rw [hout]
      refine ⟨⟨?_, fun hle => absurd hle hlt⟩, fun hle => absurd hle hlt⟩
      rintro (hmem | hmem)
      · exact absurd hmem (List.not_mem_nil _)
      · exact absurd hmem hnotL
    · rw [hobs] at ho
      exact absurd ho (by decide)
  · simp only [Actuator.observedOn, Actuator.wantedOn, Actuator.onSecs,
      Actuator.autoOffSecs, Actuator.powerTopic] at hobs hwant hB ⊢
    have hobs1 : (handleSecondTickDiffuser e now m).state.OperStateParsed.LightOn =
        m.state.OperStateParsed.LightOn := by rw [hDo]
    have hsecs : (handleSecondTickDiffuser e now m).state.OperStateParsed.LightOnSecs =
        m.state.OperStateParsed.LightOnSecs := by rw [hDo]
    have hwant1 : (handleSecondTickDiffuser e now m).state.WantedState.LightOn =
        m.state.WantedState.LightOn := by rw [hDw]
    have hbud : (handleSecondTickDiffuser e now m).state.WantedState.LightAutoOffSecs =
        m.state.WantedState.LightAutoOffSecs := by rw [hDw]
    have hnotD : ({ Topic := e.TopicPrefix ++ "cmnd/Power2", Payload := "OFF" } : Msg) ∉ outD :=
      not_mem_of_onTopic_nil _ _ hD2 _ rfl
    rw [hpub, List.mem_append, handleSecondTick]
    rcases handleSecondTickLight_cases e now (handleSecondTickDiffuser e now m) with
      ⟨ho, _, _, _⟩ | ⟨_, hw, _, _⟩ | ⟨_, _, hw, h⟩ | ⟨_, _, hw, h⟩ | ⟨_, ho, _⟩
    · rw [hobs1, hobs] at ho
      exact absurd ho (by decide)
    · rw [hwant1, hwant] at hw
      exact absurd hw (by decide)
    · rw [hbud, hsecs] at hw
      have hout : outL = [MsgPubSetLight e false, MsgPubCheckStatus11 e,
          MsgPubCheckWater e] := by
        have := hL
        rw [h, cmdLightOff_mqttPub] at this
        rw [← List.append_cancel_left this]
        simp [hobs1, hobs]
      rw [h, hout]
      refine ⟨⟨fun _ => hw.2.2, fun _ => Or.inr ?_⟩, fun _ => ⟨by simp, by simp⟩⟩
      simp [MsgPubSetLight, onOff]
    · rw [hwant1, hbud, hsecs] at hw
      have hout : outL = [] := by
        have := hL
        rw [h] at this
        simpa using this
      have hlt : ¬ m.state.WantedState.LightAutoOffSecs ≤
          m.state.OperStateParsed.LightOnSecs + 1 := fun hle => hw ⟨hwant, hB, hle⟩
      rw [hout]
      refine ⟨⟨?_, fun hle => absurd hle hlt⟩, fun hle => absurd hle hlt⟩
      rintro (hmem | hmem)
      · exact absurd hmem hnotD
      · exact absurd hmem (List.not_mem_nil _)
    · rw [hobs1, hobs] at ho
      exact absurd ho (by decide)

/-- Witness of C5: the diffuser has been on for 59 of its 60 seconds; the pass sends
"OFF", and the diffuser is wanted off with its counter at 0. -/
theorem auto_off_at_budget_witness :
    (Actuator.diffuser.observedOn diffuserNearBudget = true ∧
      Actuator.diffuser.wantedOn diffuserNearBudget = true ∧
      0 < Actuator.diffuser.autoOffSecs diffuserNearBudget ∧
      Actuator.diffuser.autoOffSecs diffuserNearBudget ≤
        Actuator.diffuser.onSecs diffuserNearBudget + 1) ∧
    (({ Topic := "smokey/cmnd/Power1", Payload := "OFF" } : Msg) ∈
        published diffuserNearBudget (handleSecondTick demoEnv 1 diffuserNearBudget) ∧
      Actuator.diffuser.wantedOn (handleSecondTick demoEnv 1 diffuserNearBudget) = false ∧
      Actuator.diffuser.onSecs (handleSecondTick demoEnv 1 diffuserNearBudget) = 0) :=
  have h := auto_off_at_budget demoEnv 1 diffuserNearBudget Actuator.diffuser
    (by decide) (by decide) (by decide)
  ⟨⟨by decide, by decide, by decide, by decide⟩,
    h.1.2 (by decide), (h.2 (by decide)).1, (h.2 (by decide)).2⟩

/-! ## The Sunshine ramp -/

/-- C6: for every budget, every colour and every number k of ramp steps from 0 to 98,
starting from any state with the light observed on, `cmdLightOn` in Sunshine mode followed
by k consecutive `bumpIncreaseDim` steps gives wanted dim 1 + k, mode Sunshine and the
increase-dim flag set. -/
theorem sunshine_ramp_dim (e : Env) (now : Time) (autoOffSecs : Int) (color : LightColor)
    (ts : List Time) (m : Manager) (hon : m.state.OperStateParsed.LightOn = true)
    (hk : ts.length ≤ 98) :
    (rampSteps e ts (cmdLightOn e now autoOffSecs LightMode.Sunshine color m)).state.WantedState.LightDim =
        1 + (ts.length : Int) ∧
      (rampSteps e ts (cmdLightOn e now autoOffSecs LightMode.Sunshine color m)).state.WantedState.LightMode =
        LightMode.Sunshine ∧
      (rampSteps e ts (cmdLightOn e now autoOffSecs LightMode.Sunshine color m)).state.WantedState.IncreaseDim =
        true := by
  have hr : Ramping (cmdLightOn e now autoOffSecs LightMode.Sunshine color m) := by
    simp [Ramping, hon]
  have hd : (cmdLightOn e now autoOffSecs LightMode.Sunshine color m).state.WantedState.LightDim
      = 1 := by simp
  have hi : (cmdLightOn e now autoOffSecs LightMode.Sunshine color m).state.WantedState.IncreaseDim
      = true := by simp
  obtain ⟨h1, h2, h3⟩ := rampSteps_below e ts _ hr (by rw [hd]; omega)
  exact ⟨by rw [h2, hd], h1.2.2, by rw [h3, hi]⟩

/-- Witness of C6: `SetLightOn(3600, Sunshine, "")` with the light observed on, then 15
ramp ticks 15 seconds apart: dim 16, mode Sunshine, increase-dim set. -/
theorem sunshine_ramp_dim_witness :
    lightObservedOn.state.OperStateParsed.LightOn = true ∧
    (rampSteps demoEnv ((List.range 15).map (fun i => ((i : Int) + 1) * 15000000000))
        (cmdLightOn demoEnv 0 3600 LightMode.Sunshine "" lightObservedOn)).state.WantedState.LightDim
      = 16 ∧
    (rampSteps demoEnv ((List.range 15).map (fun i => ((i : Int) + 1) * 15000000000))
        (cmdLightOn demoEnv 0 3600 LightMode.Sunshine "" lightObservedOn)).state.WantedState.LightMode
      = LightMode.Sunshine ∧
    (rampSteps demoEnv ((List.range 15).map (fun i => ((i : Int) + 1) * 15000000000))
        (cmdLightOn demoEnv 0 3600 LightMode.Sunshine "" lightObservedOn)).state.WantedState.IncreaseDim
      = true :=
  have h := sunshine_ramp_dim demoEnv 0 3600 "" ((List.range 15).map
    (fun i => ((i : Int) + 1) * 15000000000)) lightObservedOn (by decide) (by decide)
  ⟨by decide, h.1.trans (by decide), h.2.1, h.2.2⟩

/-- C7: from a state with the light wanted on, observed on, in Sunshine mode at dim 1,
98 consecutive ramp steps lead to dim 99 with the mode still Sunshine; the 99th step
switches the mode to Crazy and leaves the dim at 99; every later ramp step leaves the
manager, its sent messages included, exactly as it is. -/
theorem sunshine_ramp_terminates (e : Env) (m : Manager) (ts : List Time) (now99 : Time)
    (later : List Time) (hr : Ramping m) (hd : m.state.WantedState.LightDim = 1)
    (hlen : ts.length = 98) :
    (rampSteps e ts m).state.WantedState.LightDim = 99 ∧
      (rampSteps e ts m).state.WantedState.LightMode = LightMode.Sunshine ∧
      (bumpIncreaseDim e now99 (rampSteps e ts m)).state.WantedState.LightMode =
        LightMode.Crazy ∧
      (bumpIncreaseDim e now99 (rampSteps e ts m)).state.WantedState.LightDim = 99 ∧
      rampSteps e later (bumpIncreaseDim e now99 (rampSteps e ts m)) =
        bumpIncreaseDim e now99 (rampSteps e ts m) := by
  obtain ⟨h1, h2, -⟩ := rampSteps_below e ts m hr (by rw [hd, hlen]; norm_num)
  have hdim : (rampSteps e ts m).state.WantedState.LightDim = 99 := by
    rw [h2, hd, hlen]
    norm_num
  have hstep := bumpIncreaseDim_full e now99 (rampSteps e ts m) h1 (by rw [hdim])
  have hmode : (bumpIncreaseDim e now99 (rampSteps e ts m)).state.WantedState.LightMode =
      LightMode.Crazy := by
    rw [hstep]
    simp
  refine ⟨hdim, h1.2.2, hmode, ?_, ?_⟩
  · rw [hstep]
    simp [hdim]
  · exact rampSteps_idle e later _ (by rw [hmode]; decide)

/-- Witness of C7: the ramp from dim 1, one step at each of 98 instants, a 99th step and
three later ones. -/
theorem sunshine_ramp_terminates_witness :
    (Ramping sunshineAtOne ∧ sunshineAtOne.state.WantedState.LightDim = 1 ∧
      (List.replicate 98 (0 : Time)).length = 98) ∧
    (bumpIncreaseDim demoEnv 0
        (rampSteps demoEnv (List.replicate 98 0) sunshineAtOne)).state.WantedState.LightMode =
      LightMode.Crazy ∧
    rampSteps demoEnv [1, 2, 3]
        (bumpIncreaseDim demoEnv 0 (rampSteps demoEnv (List.replicate 98 0) sunshineAtOne)) =
      bumpIncreaseDim demoEnv 0 (rampSteps demoEnv (List.replicate 98 0) sunshineAtOne) :=
  have hr : Ramping sunshineAtOne := ⟨rfl, rfl, rfl⟩
  have h := sunshine_ramp_terminates demoEnv sunshineAtOne (List.replicate 98 0) 0 [1, 2, 3]
    hr rfl (by simp)
  ⟨⟨hr, rfl, by simp⟩, h.2.2.1, h.2.2.2.2⟩

/-- C8 as stated fails: at full brightness with budget 0 (no auto-off) and 5 elapsed
seconds, the ramp step leaves the budget at 0, not at 1. -/
theorem ramp_budget_counterexample :
    ¬ (∀ (e : Env) (now : Time) (m : Manager), Ramping m →
        99 ≤ m.state.WantedState.LightDim →
        (bumpIncreaseDim e now m).state.WantedState.LightMode = LightMode.Crazy ∧
        (bumpIncreaseDim e now m).state.WantedState.LightAutoOffSecs =
          if 0 < m.state.WantedState.LightAutoOffSecs - m.state.OperStateParsed.LightOnSecs
          then m.state.WantedState.LightAutoOffSecs - m.state.OperStateParsed.LightOnSecs
          else 1) := by
  intro h
  have h1 := (h demoEnv 0 sunshineAtFullNoBudget ⟨rfl, rfl, rfl⟩ (by decide)).2
  revert h1
  decide

/-- C8, amended: with the light wanted on, observed on, in Sunshine mode at dim 99 or
above, budget B and elapsed on-seconds E, the ramp step leaves the mode at Crazy and the
budget at B - E when B > 0 and B - E > 0, at 1 when B > 0 and B - E is 0 or less, and
at B itself when B is 0 or less. -/
theorem ramp_budget_handoff (e : Env) (now : Time) (m : Manager) (hr : Ramping m)
    (hd : 99 ≤ m.state.WantedState.LightDim) :
    (bumpIncreaseDim e now m).state.WantedState.LightMode = LightMode.Crazy ∧
      (bumpIncreaseDim e now m).state.WantedState.LightAutoOffSecs =
        if 0 < m.state.WantedState.LightAutoOffSecs then
          if 0 < m.state.WantedState.LightAutoOffSecs - m.state.OperStateParsed.LightOnSecs
          then m.state.WantedState.LightAutoOffSecs - m.state.OperStateParsed.LightOnSecs
          else 1
        else m.state.WantedState.LightAutoOffSecs := by
  rw [bumpIncreaseDim_full e now m hr hd]
  refine ⟨by simp, ?_⟩
  simp only [cmdLightOn_state, recalculateLightAutoOff]
  by_cases hB : 0 < m.state.WantedState.LightAutoOffSecs
  · by_cases hE : 0 < m.state.WantedState.LightAutoOffSecs - m.state.OperStateParsed.LightOnSecs
    · simp [hB, hE, not_le.mpr hE]
    · simp [hB, hE, not_lt.mp hE]
  · simp [hB]

/-- Witness of C8 (amended): budget 3600 with 1500 seconds elapsed hands over 2100. -/
theorem ramp_budget_handoff_witness :
    (Ramping sunshineAtFull ∧ 99 ≤ sunshineAtFull.state.WantedState.LightDim) ∧
    (bumpIncreaseDim demoEnv 0 sunshineAtFull).state.WantedState.LightMode = LightMode.Crazy ∧
    (bumpIncreaseDim demoEnv 0 sunshineAtFull).state.WantedState.LightAutoOffSecs = 2100 :=
  have hr : Ramping sunshineAtFull := ⟨rfl, rfl, rfl⟩
  have h := ramp_budget_handoff demoEnv 0 sunshineAtFull hr (by decide)
  ⟨⟨hr, by decide⟩, h.1, h.2.trans (by decide)⟩

/-! ## The water-level report -/

/-- C9: `msgParseSmokeyError` is idempotent: processing a payload twice in a row gives
exactly the manager that processing it once gives; and whenever the low-water bit the
payload decodes to equals the current low-water flag, the manager is left as it is. -/
theorem water_report_idempotent (payload : String) (m : Manager) :
    msgParseSmokeyError payload (msgParseSmokeyError payload m) =
        msgParseSmokeyError payload m ∧
      (∀ value : Int, errorValue payload = some value →
        decide (Int.land value 1 = 1) = m.state.OperStateParsed.LowWater →
        msgParseSmokeyError payload m = m) := by
  have hsame : ∀ (m1 : Manager) (value : Int), errorValue payload = some value →
      decide (Int.land value 1 = 1) = m1.state.OperStateParsed.LowWater →
      msgParseSmokeyError payload m1 = m1 := by
    intro m1 value hv hb
    unfold errorValue at hv
    unfold msgParseSmokeyError
    simp only [hv]
    rw [if_pos hb]
  refine ⟨?_, hsame m⟩
  cases hv : errorValue payload with
  | none =>
    have hnone : ∀ m1 : Manager, msgParseSmokeyError payload m1 = m1 := by
      intro m1
      unfold errorValue at hv
      unfold msgParseSmokeyError
      simp only [hv]
    rw [hnone, hnone]
  | some value =>
    by_cases hb : decide (Int.land value 1 = 1) = m.state.OperStateParsed.LowWater
    · rw [hsame m value hv hb, hsame m value hv hb]
    · apply hsame _ value hv
      unfold errorValue at hv
      unfold msgParseSmokeyError
      simp only [hv]
      rw [if_neg hb]
      split <;> rfl

/-- Witness of C9: a second low-water report `0x1` changes nothing. -/
theorem water_report_idempotent_witness :
    (errorValue "0x1" = some 1 ∧
      decide (Int.land 1 1 = 1) = lowWaterKnown.state.OperStateParsed.LowWater) ∧
    msgParseSmokeyError "0x1" lowWaterKnown = lowWaterKnown :=
  ⟨⟨by decide, by decide⟩,
    (water_report_idempotent "0x1" lowWaterKnown).2 1 (by decide) (by decide)⟩

/-- C10: with the low-water flag clear, an error-topic payload whose text after the last
`x` or `X` parses as a hexadecimal number with bit 0 set (whether or not the number is
one of the known values 0 and 1) sets the low-water flag and clears the wanted diffuser
flag; no other field changes and nothing is published. -/
theorem low_water_forces_diffuser_off (payload : String) (m : Manager) (value : Int)
    (hclear : m.state.OperStateParsed.LowWater = false)
    (hparse : errorValue payload = some value) (hbit : Int.land value 1 = 1) :
    msgParseSmokeyError payload m =
        { m with
          state.OperStateParsed.LowWater := true
          state.WantedState.DiffuserOn := false } ∧
      (msgParseSmokeyError payload m).mqttPub = m.mqttPub := by
  have h : msgParseSmokeyError payload m =
      { m with
        state.OperStateParsed.LowWater := true
        state.WantedState.DiffuserOn := false } := by
    unfold errorValue at hparse
    unfold msgParseSmokeyError
    simp only [hparse]
    simp [hbit, hclear]
  exact ⟨h, by rw [h]⟩

/-- Witness of C10: the payload `Ox81` decodes to 0x81 = 129, outside the known values,
with bit 0 set. -/
theorem low_water_forces_diffuser_off_witness :
    (wantsDiffuserOn.state.OperStateParsed.LowWater = false ∧
      errorValue "Ox81" = some 129 ∧ Int.land 129 1 = 1) ∧
    (msgParseSmokeyError "Ox81" wantsDiffuserOn).state.OperStateParsed.LowWater = true ∧
    (msgParseSmokeyError "Ox81" wantsDiffuserOn).state.WantedState.DiffuserOn = false ∧
    (msgParseSmokeyError "Ox81" wantsDiffuserOn).mqttPub = [] :=
  have h := low_water_forces_diffuser_off "Ox81" wantsDiffuserOn 129 rfl (by decide) (by decide)
  ⟨⟨rfl, by decide, by decide⟩, by rw [h.1], by rw [h.1], h.2⟩

/-! ## The telemetry parser -/

/-- C11: a decoded telemetry record in which POWER1, POWER2 or Color is the empty string
leaves the whole manager as it is (observed state, wanted state and counters), through
`msgParseStateCommon` and through both wire shapes that call it. -/
theorem empty_field_record_dropped (e : Env) (now : Time) (o : OperState) (raw : String)
    (m : Manager) (h : o.DiffuserOn = "" ∨ o.LightOn = "" ∨ o.LightColor = "") :
    msgParseStateCommon e now o raw m = m ∧
      (e.unmarshalOperState raw = some o → msgParseState e now raw m = m) ∧
      (e.unmarshalOperState11 raw = some o → msgParseStatus11 e now raw m = m) := by
  have hdrop := msgParseStateCommon_dropped e now o raw m h
  refine ⟨hdrop, ?_, ?_⟩
  · intro hdec
    unfold msgParseState
    rw [hdec]
    exact hdrop
  · intro hdec
    unfold msgParseStatus11
    rw [hdec]
    exact hdrop

/-- Witness of C11: a record with an empty POWER1 field changes nothing at the start. -/
theorem empty_field_record_dropped_witness :
    (emptyPowerRecord.DiffuserOn = "" ∨ emptyPowerRecord.LightOn = "" ∨
      emptyPowerRecord.LightColor = "") ∧
    msgParseStateCommon demoEnv 1 emptyPowerRecord "raw" Start = Start :=
  ⟨Or.inl rfl, (empty_field_record_dropped demoEnv 1 emptyPowerRecord "raw" Start (Or.inl rfl)).1⟩

/-- C12 as stated fails: a record with POWER1 "ON", POWER2 "OFF" and the colour text
"zz", which is not hexadecimal, is processed all the same: at the start it sets the
diffuser observed on and counts one parsed message. -/
theorem bad_color_record_counterexample :
    ¬ (∀ (e : Env) (now : Time) (o : OperState) (raw : String) (m : Manager),
        o.LightColor ≠ "" → parseOperLightColor o.LightColor = none →
        (msgParseStateCommon e now o raw m).state = m.state) := by
  intro h
  have h1 := h demoEnv 1 badColorRecord "raw" Start (by decide) (by decide)
  have h2 : (msgParseStateCommon demoEnv 1 badColorRecord "raw" Start).state.Stats.ParseStateMsgs
      = Start.state.Stats.ParseStateMsgs := by rw [h1]
  revert h2
  decide

/-- C12, amended: a telemetry record with non-empty POWER1 and POWER2 whose Color is
non-empty but badly encoded is processed like a well-formed one, except that the observed
light colour keeps its previous value: both power flags, the dim level, the uptime text,
the heap, the raw payload and the receive time are updated, the counters of actuators
now off are reset, and the parsed-message counter goes up by 1. -/
theorem bad_color_record_processed (e : Env) (now : Time) (o : OperState) (raw : String)
    (m : Manager) (hp1 : o.DiffuserOn ≠ "") (hp2 : o.LightOn ≠ "") (hc : o.LightColor ≠ "")
    (hbad : parseOperLightColor o.LightColor = none) :
    msgParseStateCommon e now o raw m =
      { m with
        state.OperStateParsed :=
          { DiffuserOn := decide (ToLower o.DiffuserOn = "on")
            LightOn := decide (ToLower o.LightOn = "on")
            LightColor := m.state.OperStateParsed.LightColor
            LightDim := o.LightDim
            Uptime := e.secondsToHuman o.UptimeSec
            Heap := o.Heap
            LowWater := m.state.OperStateParsed.LowWater
            Raw := raw
            LastReceiveTs := e.ts now
            DiffuserOnSecs :=
              if ToLower o.DiffuserOn = "on" then m.state.OperStateParsed.DiffuserOnSecs else 0
            LightOnSecs :=
              if ToLower o.LightOn = "on" then m.state.OperStateParsed.LightOnSecs else 0 }
        state.Stats.ParseStateMsgs := m.state.Stats.ParseStateMsgs + 1 } := by
  rw [msgParseStateCommon_accepted e now o raw m (by simp [hp1, hp2, hc]), hbad]
  rfl

/-- Witness of C12 (amended): the record with colour "zz" at the start. -/
theorem bad_color_record_processed_witness :
    (badColorRecord.DiffuserOn ≠ "" ∧ badColorRecord.LightOn ≠ "" ∧
      badColorRecord.LightColor ≠ "" ∧ parseOperLightColor badColorRecord.LightColor = none) ∧
    (msgParseStateCommon demoEnv 1 badColorRecord "raw" Start).state.OperStateParsed.DiffuserOn
      = true ∧
    (msgParseStateCommon demoEnv 1 badColorRecord "raw" Start).state.OperStateParsed.LightColor
      = 0 ∧
    (msgParseStateCommon demoEnv 1 badColorRecord "raw" Start).state.Stats.ParseStateMsgs = 1 :=
  have h := bad_color_record_processed demoEnv 1 badColorRecord "raw" Start
    (by decide) (by decide) (by decide) (by decide)
  ⟨⟨by decide, by decide, by decide, by decide⟩, by rw [h]; decide, by rw [h]; rfl,
    by rw [h]; rfl⟩

/-! ## The colour codec -/

/-- C13 as stated fails: the payload `#ff0000` that encodes "red" is rejected by
`parseOperLightColor`, because `#` is not a hexadecimal digit. -/
theorem color_round_trip_counterexample :
    ¬ (∀ (e : Env) (draw : Nat → Nat), ∀ p ∈ palette,
        parseOperLightColor (MsgPubSetLightColor e (LightColorInt p.1 draw).1).Payload =
          some (LightColorInt p.1 draw).1) := by
  intro h
  have h1 := h demoEnv (fun _ => 0) ("red", 0xff0000) (by decide)
  revert h1
  decide

/-- C13, amended: for every named palette colour, the payload of the colour command is
`#` followed by six characters; `parseOperLightColor` returns an error on the payload
itself, and on the payload without its leading `#` it succeeds and returns the same
24-bit value as `c.Int()`. -/
theorem color_round_trip_without_hash (e : Env) (draw : Nat → Nat) (c : LightColor) (v : Int)
    (h : (c, v) ∈ palette) :
    (LightColorInt c draw).1 = v ∧
      (MsgPubSetLightColor e (LightColorInt c draw).1).Payload.data.head? = some '#' ∧
      (dropFirst (MsgPubSetLightColor e (LightColorInt c draw).1).Payload).length = 6 ∧
      parseOperLightColor (MsgPubSetLightColor e (LightColorInt c draw).1).Payload = none ∧
      parseOperLightColor (dropFirst (MsgPubSetLightColor e (LightColorInt c draw).1).Payload) =
        some (LightColorInt c draw).1 := by
  obtain ⟨h1, h2, h3, h4, h5, h6, h7⟩ := palette_facts (c, v) h
  simp only at h1 h2 h3 h4 h5 h6 h7
  have hnum : numericValue c = none := by
    rw [numericValue_of_lower c c h3]
    exact h1
  have hval : LightColorInt c draw = (v, 0) :=
    LightColorInt_named c draw v hnum (by rw [h3]; exact h2)
  rw [hval]
  exact ⟨rfl, h6, h7, h4, h5⟩

/-- Witness of C13 (amended): "red" gives 0xff0000, and the six digits after `#` decode
to it. -/
theorem color_round_trip_without_hash_witness :
    (("red", 0xff0000) : String × Int) ∈ palette ∧
    (LightColorInt "red" (fun _ => 0)).1 = 0xff0000 ∧
    parseOperLightColor
        (dropFirst (MsgPubSetLightColor demoEnv (LightColorInt "red" (fun _ => 0)).1).Payload) =
      some (LightColorInt "red" (fun _ => 0)).1 :=
  have h := color_round_trip_without_hash demoEnv (fun _ => 0) "red" 0xff0000 (by decide)
  ⟨by decide, h.1, h.2.2.2.2⟩

/-- C14 as stated fails: the colour text "-7" is numeric, `c.Int()` is -7, and the
payload is `#-00007`. -/
theorem color_range_counterexample :
    ¬ (∀ (c : LightColor) (draw : Nat → Nat),
        0 ≤ (LightColorInt c draw).1 ∧ (LightColorInt c draw).1 ≤ 0xFFFFFF) := by
  intro h
  have h1 := (h "-7" (fun _ => 0)).1
  revert h1
  decide

/-- C14, amended: for every colour text and every outcome of the random source,
`c.Int()` lies in the signed 32-bit range; when the text is not numeric (a named colour
or the random catch-all) it lies in 0..0xFFFFFF; and whenever it lies in 0..0xFFFFFF the
payload of the colour command is `#` followed by exactly six lower-case hexadecimal
digits. -/
theorem color_payload_shape (e : Env) (c : LightColor) (draw : Nat → Nat) :
    (-(2 : Int) ^ 31 ≤ (LightColorInt c draw).1 ∧ (LightColorInt c draw).1 < (2 : Int) ^ 31) ∧
      (numericValue c = none →
        0 ≤ (LightColorInt c draw).1 ∧ (LightColorInt c draw).1 ≤ 0xFFFFFF) ∧
      (0 ≤ (LightColorInt c draw).1 → (LightColorInt c draw).1 ≤ 0xFFFFFF →
        ∃ ds : List Char,
          (MsgPubSetLightColor e (LightColorInt c draw).1).Payload = String.mk ('#' :: ds) ∧
          ds.length = 6 ∧ ∀ ch ∈ ds, isLowerHex ch = true) := by
  have hnon : numericValue c = none →
      0 ≤ (LightColorInt c draw).1 ∧ (LightColorInt c draw).1 ≤ 0xFFFFFF := by
    intro hnum
    cases hname : namedColor (ToLower c) with
    | some v =>
      rw [LightColorInt_named c draw v hnum hname]
      exact namedColor_range _ v hname
    | none =>
      rw [LightColorInt_random c draw hnum hname]
      exact random_color_range _ _ _
  refine ⟨?_, hnon, fun h0 h1 => fmtColor_shape _ h0 h1⟩
  cases hnum : numericValue c with
  | some v =>
    rw [LightColorInt_numeric c draw v hnum]
    exact ParseInt_range _ _ 32 v hnum
  | none =>
    obtain ⟨h0, h1⟩ := hnon hnum
    constructor
    · omega
    · omega

/-- Witness of C14 (amended): the text "zzz" is neither numeric nor named; with the draws
1, 2, 3 the value is 0x010203 and the payload is `#010203`. -/
theorem color_payload_shape_witness :
    numericValue "zzz" = none ∧
    (0 ≤ (LightColorInt "zzz" (fun i => i + 1)).1 ∧
      (LightColorInt "zzz" (fun i => i + 1)).1 ≤ 0xFFFFFF) ∧
    (MsgPubSetLightColor demoEnv (LightColorInt "zzz" (fun i => i + 1)).1).Payload = "#010203" :=
  ⟨by decide, (color_payload_shape demoEnv "zzz" (fun i => i + 1)).2.1 (by decide), by decide⟩

/-- C15: each of the sixteen palette names, written in any letter case (any text whose
lower-cased form is the name), makes `c.Int()` return the fixed value of the palette,
whatever the random source gives, and takes no random draw. -/
theorem palette_value_fixed (c : LightColor) (name : String) (v : Int) (draw : Nat → Nat)
    (hp : (name, v) ∈ palette) (hc : ToLower c = name) :
    LightColorInt c draw = (v, 0) := by
  obtain ⟨h1, h2, -⟩ := palette_facts (name, v) hp
  simp only at h1 h2
  refine LightColorInt_named c draw v ?_ (by rw [hc]; exact h2)
  rw [numericValue_of_lower c name hc]
  exact h1

/-- Witness of C15: "PuRpLe" is 0x4b0082 for any draws. -/
theorem palette_value_fixed_witness :
    ((("purple", 0x4b0082) : String × Int) ∈ palette ∧ ToLower "PuRpLe" = "purple") ∧
    LightColorInt "PuRpLe" (fun i => 7 * i + 5) = (0x4b0082, 0) :=
  ⟨⟨by decide, by decide⟩,
    palette_value_fixed "PuRpLe" "purple" 0x4b0082 (fun i => 7 * i + 5) (by decide) (by decide)⟩

/-! ## The command encoder -/

/-- C16: `cmdLightOn` publishes exactly one `cmnd/TuyaEnum2` message, whose payload is
the decimal mode code (Crazy "0", Solid "1", NightMode "2", Sunshine "1"); it publishes a
`cmnd/Color1` message (exactly one) if and only if the mode is Solid or Sunshine; and for
Crazy and NightMode the wanted colour and colour name stay as they are. -/
theorem light_on_mode_and_color (e : Env) (now : Time) (autoOffSecs : Int) (mode : LightMode)
    (color : LightColor) (m : Manager) :
    onTopic (e.TopicPrefix ++ "cmnd/TuyaEnum2")
        (published m (cmdLightOn e now autoOffSecs mode color m)) =
        [{ Topic := e.TopicPrefix ++ "cmnd/TuyaEnum2",
           Payload :=
             match mode with
             | LightMode.Crazy => "0"
             | LightMode.Solid => "1"
             | LightMode.NightMode => "2"
             | LightMode.Sunshine => "1" }] ∧
      onTopic (e.TopicPrefix ++ "cmnd/Color1")
        (published m (cmdLightOn e now autoOffSecs mode color m)) =
        (if mode = LightMode.Solid ∨ mode = LightMode.Sunshine then
          [MsgPubSetLightColor e (colorValue e color m)] else []) ∧
      ((∃ msg ∈ published m (cmdLightOn e now autoOffSecs mode color m),
          msg.Topic = e.TopicPrefix ++ "cmnd/Color1") ↔
        (mode = LightMode.Solid ∨ mode = LightMode.Sunshine)) ∧
      (mode = LightMode.Crazy ∨ mode = LightMode.NightMode →
        (cmdLightOn e now autoOffSecs mode color m).state.WantedState.LightColor =
          m.state.WantedState.LightColor ∧
        (cmdLightOn e now autoOffSecs mode color m).state.WantedState.LightColorName =
          m.state.WantedState.LightColorName) := by
  have hpub := published_append m (cmdLightOn e now autoOffSecs mode color m) _
    (cmdLightOn_mqttPub e now autoOffSecs mode color m)
  rw [hpub]
  refine ⟨?_, ?_, ?_, ?_⟩
  · cases mode <;> cases h : m.state.OperStateParsed.LightOn <;>
      simp [prefix_append_inj, sendsColor, MsgPubSetLightMode, LightMode.XlateVal, fmtDecimal,
        Nat.toDigits, Nat.toDigitsCore, Nat.digitChar]
  · cases mode <;> cases h : m.state.OperStateParsed.LightOn <;>
      simp [prefix_append_inj, sendsColor]
  · cases mode <;> cases h : m.state.OperStateParsed.LightOn <;>
      simp [prefix_append_inj, sendsColor]
  · rintro (h | h) <;> subst h <;> simp [sendsColor]

/-- Witness of C16: in Crazy mode from the start, the wanted colour stays 0 and its name
stays empty. -/
theorem light_on_mode_and_color_witness :
    (LightMode.Crazy = LightMode.Crazy ∨ LightMode.Crazy = LightMode.NightMode) ∧
    (cmdLightOn demoEnv 0 3600 LightMode.Crazy "red" Start).state.WantedState.LightColor = 0 ∧
    (cmdLightOn demoEnv 0 3600 LightMode.Crazy "red" Start).state.WantedState.LightColorName
      = "" :=
  have h := (light_on_mode_and_color demoEnv 0 3600 LightMode.Crazy "red" Start).2.2.2
    (Or.inl rfl)
  ⟨Or.inl rfl, h.1, h.2⟩

/-- C17: the diffuser power command publishes exactly three messages, in this order: the
power message on `cmnd/Power1` ("ON" or "OFF"), the status query (`cmnd/Status`, "11")
and the water query (`cmnd/TuyaSend8`, empty payload), and it adds exactly 1 to the
status-query counter; so do `cmdDiffuserOn` (with "ON") and `cmdDiffuserOff` (with
"OFF"). -/
theorem diffuser_command_messages (e : Env) (now : Time) (isOn : Bool) (autoOffSecs : Int)
    (m : Manager) :
    (published m (cmdDiffuser e now isOn m) =
        [{ Topic := e.TopicPrefix ++ "cmnd/Power1", Payload := if isOn then "ON" else "OFF" },
         { Topic := e.TopicPrefix ++ "cmnd/Status", Payload := "11" },
         { Topic := e.TopicPrefix ++ "cmnd/TuyaSend8", Payload := "" }] ∧
      (cmdDiffuser e now isOn m).state.Stats.PubQueryStatus =
        m.state.Stats.PubQueryStatus + 1) ∧
    (published m (cmdDiffuserOn e now autoOffSecs m) =
        [{ Topic := e.TopicPrefix ++ "cmnd/Power1", Payload := "ON" },
         { Topic := e.TopicPrefix ++ "cmnd/Status", Payload := "11" },
         { Topic := e.TopicPrefix ++ "cmnd/TuyaSend8", Payload := "" }] ∧
      (cmdDiffuserOn e now autoOffSecs m).state.Stats.PubQueryStatus =
        m.state.Stats.PubQueryStatus + 1) ∧
    (published m (cmdDiffuserOff e now m) =
        [{ Topic := e.TopicPrefix ++ "cmnd/Power1", Payload := "OFF" },
         { Topic := e.TopicPrefix ++ "cmnd/Status", Payload := "11" },
         { Topic := e.TopicPrefix ++ "cmnd/TuyaSend8", Payload := "" }] ∧
      (cmdDiffuserOff e now m).state.Stats.PubQueryStatus =
        m.state.Stats.PubQueryStatus + 1) := by
  refine ⟨⟨?_, rfl⟩, ⟨?_, rfl⟩, ⟨?_, rfl⟩⟩
  · rw [published_append m _ _ (cmdDiffuser_mqttPub e now isOn m)]
    cases isOn <;> rfl
  · rw [published_append m _ _ (cmdDiffuserOn_mqttPub e now autoOffSecs m)]
    rfl
  · rw [published_append m _ _ (cmdDiffuserOff_mqttPub e now m)]
    rfl

/-- C18: for a colour text whose value v is deterministic (numeric or named), the command
queued by `CmdLightColor` behaves as follows.  If v = 0 it is exactly `cmdLightOff` (the
light is wanted off).  Otherwise, if the wanted mode is not Solid or the light is observed
off, it is exactly `cmdLightOn(3600, Solid, c)`: wanted on, budget 3600, mode Solid,
wanted colour v.  Otherwise it only sets the wanted colour to v and the colour name to c
and publishes a single `cmnd/Color1` message; every other field of the state, among them
wanted on, mode, budget, on-seconds and the light deadline, stays as it is. -/
theorem set_color_override (e : Env) (now : Time) (c : LightColor) (v : Int) (m : Manager)
    (hdet : numericValue c = some v ∨
      (numericValue c = none ∧ namedColor (ToLower c) = some v)) :
    (v = 0 →
      (Command.CmdLightColor c).run e now m = cmdLightOff e now m ∧
      ((Command.CmdLightColor c).run e now m).state.WantedState.LightOn = false) ∧
    (v ≠ 0 →
      (m.state.WantedState.LightMode ≠ LightMode.Solid ∨
        m.state.OperStateParsed.LightOn = false) →
      (Command.CmdLightColor c).run e now m =
        cmdLightOn e now 3600 LightMode.Solid c m ∧
      ((Command.CmdLightColor c).run e now m).state.WantedState.LightOn = true ∧
      ((Command.CmdLightColor c).run e now m).state.WantedState.LightAutoOffSecs = 3600 ∧
      ((Command.CmdLightColor c).run e now m).state.WantedState.LightMode = LightMode.Solid ∧
      ((Command.CmdLightColor c).run e now m).state.WantedState.LightColor = v) ∧
    (v ≠ 0 → m.state.WantedState.LightMode = LightMode.Solid →
      m.state.OperStateParsed.LightOn = true →
      ((Command.CmdLightColor c).run e now m).state =
        { m.state with
          WantedState.LightColor := v
          WantedState.LightColorName := c } ∧
      published m ((Command.CmdLightColor c).run e now m) =
        [{ Topic := e.TopicPrefix ++ "cmnd/Color1", Payload := fmtColor v }] ∧
      ((Command.CmdLightColor c).run e now m).randDraws = m.randDraws) := by
  have hd : ∀ draw : Nat → Nat, LightColorInt c draw = (v, 0) :=
    LightColorInt_deterministic c v hdet
  have hrun := run_CmdLightColor_deterministic e now c v m hd
  have hval : colorValue e c m = v := by simp [colorValue, hd]
  have hdraws : colorDraws e c m = 0 := by simp [colorDraws, hd]
  refine ⟨?_, ?_, ?_⟩
  · intro h0
    rw [hrun, if_pos h0]
    exact ⟨rfl, by simp⟩
  · intro h0 hmode
    rw [hrun, if_neg h0, if_pos hmode]
    refine ⟨rfl, ?_, ?_, ?_, ?_⟩
    · simp [DefaultAutoOffSeconds]
    · simp [DefaultAutoOffSeconds]
    · simp [DefaultAutoOffSeconds]
    · simp [DefaultAutoOffSeconds, sendsColor, hval]
  · intro h0 hmode hon
    rw [hrun, if_neg h0, if_neg (by simp [hmode, hon])]
    refine ⟨?_, ?_, ?_⟩
    · simp [hval]
    · rw [published_append m _ _ (cmdLightColor_mqttPub e c m), hval]
      rfl
    · simp [hdraws]

/-- Witness of C18: "red" is named with value 0xff0000; from the start (mode Crazy, light
observed off) the command is `cmdLightOn(3600, Solid, "red")`, and with the light on in
Solid mode it only re-applies the colour. -/
theorem set_color_override_witness :
    (numericValue "red" = none ∧ namedColor (ToLower "red") = some 0xff0000) ∧
    (Command.CmdLightColor "red").run demoEnv 0 Start =
      cmdLightOn demoEnv 0 3600 LightMode.Solid "red" Start ∧
    published solidLightOn ((Command.CmdLightColor "red").run demoEnv 0 solidLightOn) =
      [{ Topic := "smokey/cmnd/Color1", Payload := "#ff0000" }] :=
  have hd : numericValue "red" = none ∧ namedColor (ToLower "red") = some 0xff0000 :=
    ⟨by decide, by decide⟩
  ⟨hd,
    ((set_color_override demoEnv 0 "red" 0xff0000 Start (Or.inr hd)).2.1 (by decide)
      (Or.inl (by decide))).1,
    ((set_color_override demoEnv 0 "red" 0xff0000 solidLightOn (Or.inr hd)).2.2 (by decide)
      rfl rfl).2.1.trans (by decide)⟩

/-! ## The light-mode state machine -/

/-- C19 as stated fails: with the light observed on, wanted off and the mode at Crazy (the
state after the device reports the light on right after the start), a 1-second tick sends
the corrective off through `cmdLightOff`, which sets the mode to Solid. -/
theorem mode_transition_counterexample :
    ¬ (∀ (e : Env) (now : Time) (ev : Event) (m : Manager), (∀ cmd, ev ≠ Event.cmds cmd) →
        (mainLoop e now ev m).state.WantedState.LightMode = m.state.WantedState.LightMode ∨
        (m.state.WantedState.LightMode = LightMode.Sunshine ∧
          (mainLoop e now ev m).state.WantedState.LightMode = LightMode.Crazy)) := by
  intro h
  have h1 := h demoEnv 1 Event.secondTick lightObservedOn (by intro cmd; exact Event.noConfusion)
  revert h1
  decide

/-- C19, amended: every event that is not a queued command (an inbound message, a
1-second, 15-second or 5-minute tick, the idle timeout) either leaves the wanted light
mode unchanged, or changes it from Sunshine to Crazy (only on a 15-second tick), or sets
it to Solid while turning the light off (only on a 1-second tick, through `cmdLightOff`
in the corrective off or the auto-off); no such event changes the mode in any other
way. -/
theorem mode_transitions_automatic (e : Env) (now : Time) (ev : Event) (m : Manager)
    (hev : ∀ cmd, ev ≠ Event.cmds cmd) :
    (mainLoop e now ev m).state.WantedState.LightMode = m.state.WantedState.LightMode ∨
      (ev = Event.checkStatusTickFast ∧ m.state.WantedState.LightMode = LightMode.Sunshine ∧
        (mainLoop e now ev m).state.WantedState.LightMode = LightMode.Crazy) ∨
      (ev = Event.secondTick ∧
        (mainLoop e now ev m).state.WantedState.LightMode = LightMode.Solid ∧
        (mainLoop e now ev m).state.WantedState.LightOn = false) := by
  cases ev with
  | mqttSub msg => exact Or.inl (mqttSub_LightMode e now msg m)
  | secondTick =>
    rcases handleSecondTick_LightMode e now m with h | h
    · exact Or.inl h
    · exact Or.inr (Or.inr ⟨rfl, h⟩)
  | checkStatusTickFast =>
    simp only [mainLoop]
    split
    · rcases bumpIncreaseDim_LightMode e now (cmdPubQueryStatus e m) with h | h
      · exact Or.inl h
      · exact Or.inr (Or.inl ⟨trivial, h⟩)
    · rcases bumpIncreaseDim_LightMode e now m with h | h
      · exact Or.inl h
      · exact Or.inr (Or.inl ⟨trivial, h⟩)
  | checkStatusTickSlow => exact Or.inl rfl
  | cmds cmd => exact absurd rfl (hev cmd)
  | timeout => exact Or.inl rfl

/-- Witness of C19 (amended): the 1-second tick with the light observed on and wanted off
sets the mode to Solid. -/
theorem mode_transitions_automatic_witness :
    (∀ cmd, Event.secondTick ≠ Event.cmds cmd) ∧
    (mainLoop demoEnv 1 Event.secondTick lightObservedOn).state.WantedState.LightMode =
      LightMode.Solid :=
  have hev : ∀ cmd, Event.secondTick ≠ Event.cmds cmd := fun _ => Event.noConfusion
  ⟨hev, by
    rcases mode_transitions_automatic demoEnv 1 Event.secondTick lightObservedOn hev with
      h | h | h
    · exact absurd h (by decide)
    · exact absurd h.1 (by decide)
    · exact h.2.1⟩

/-! ## The counters -/

/-- C20: the counters never steer the manager.  For two managers with the same wanted
state, the same observed state and the same position in the random source, whatever
their counters (and whatever was sent before), every event of the loop, served at the
same instant, publishes the same sequence of messages and leads to the same wanted
state and the same observed state (and the same position in the random source). -/
theorem stats_never_affect_control (e : Env) (now : Time) (ev : Event) (m1 m2 : Manager)
    (hW : m1.state.WantedState = m2.state.WantedState)
    (hO : m1.state.OperStateParsed = m2.state.OperStateParsed)
    (hr : m1.randDraws = m2.randDraws) :
    published m1 (mainLoop e now ev m1) = published m2 (mainLoop e now ev m2) ∧
      (mainLoop e now ev m1).state.WantedState = (mainLoop e now ev m2).state.WantedState ∧
      (mainLoop e now ev m1).state.OperStateParsed =
        (mainLoop e now ev m2).state.OperStateParsed ∧
      (mainLoop e now ev m1).randDraws = (mainLoop e now ev m2).randDraws := by
  obtain ⟨f, out, h⟩ := StatsBlind_mainLoop e now ev m1
  have h1 : m1 = rebase m1.state.Stats m1.mqttPub m1 := rfl
  have h2 : m2 = rebase m2.state.Stats m2.mqttPub m1 :=
    Manager.ext_fields _ _ hW.symm hO.symm rfl rfl hr.symm
  have e1 : mainLoop e now ev m1 =
      rebase (f m1.state.Stats) (m1.mqttPub ++ out) (mainLoop e now ev m1) := by
    conv_lhs => rw [h1]
    exact h _ _
  have e2 : mainLoop e now ev m2 =
      rebase (f m2.state.Stats) (m2.mqttPub ++ out) (mainLoop e now ev m1) := by
    conv_lhs => rw [h2]
    exact h _ _
  have p1 : published m1 (mainLoop e now ev m1) = out :=
    published_append _ _ _ (by rw [e1]; rfl)
  have p2 : published m2 (mainLoop e now ev m2) = out :=
    published_append _ _ _ (by rw [e2]; rfl)
  refine ⟨p1.trans p2.symm, ?_, ?_, ?_⟩
  · rw [e2]; rfl
  · rw [e2]; rfl
  · rw [e2]; rfl

/-- Witness of C20: the 1-second tick on two managers that differ in their counters
sends the same auto-off messages. -/
theorem stats_never_affect_control_witness :
    (diffuserNearBudget.state.WantedState = diffuserNearBudgetCounted.state.WantedState ∧
      diffuserNearBudget.state.OperStateParsed =
        diffuserNearBudgetCounted.state.OperStateParsed ∧
      diffuserNearBudget.randDraws = diffuserNearBudgetCounted.randDraws ∧
      diffuserNearBudget.state.Stats ≠ diffuserNearBudgetCounted.state.Stats) ∧
    published diffuserNearBudget (mainLoop demoEnv 1 Event.secondTick diffuserNearBudget) =
      published diffuserNearBudgetCounted
        (mainLoop demoEnv 1 Event.secondTick diffuserNearBudgetCounted) :=
  ⟨⟨rfl, rfl, rfl, by decide⟩,
    (stats_never_affect_control demoEnv 1 Event.secondTick diffuserNearBudget
      diffuserNearBudgetCounted rfl rfl rfl).1⟩

/-- C22: a decoded telemetry record with non-empty POWER1 and POWER2 and a Color that
decodes as hexadecimal sets both observed flags to (lower-cased field = "on"), resets the
continuous-on counter of each actuator that is now off and keeps that of each actuator
that is on, sets the observed colour to the decoded value, copies Dimmer and Heap (and
the uptime text and the receive time), stores the raw payload and adds exactly 1 to the
parsed-message counter; the wanted state, the low-water flag, the other counters, the
sent messages and the random cursor stay as they are. -/
theorem telemetry_record_applied (e : Env) (now : Time) (o : OperState) (raw : String)
    (m : Manager) (v : Int) (hp1 : o.DiffuserOn ≠ "") (hp2 : o.LightOn ≠ "")
    (hcolor : parseOperLightColor o.LightColor = some v) :
    msgParseStateCommon e now o raw m =
      { m with
        state.OperStateParsed :=
          { DiffuserOn := decide (ToLower o.DiffuserOn = "on")
            LightOn := decide (ToLower o.LightOn = "on")
            LightColor := v
            LightDim := o.LightDim
            Uptime := e.secondsToHuman o.UptimeSec
            Heap := o.Heap
            LowWater := m.state.OperStateParsed.LowWater
            Raw := raw
            LastReceiveTs := e.ts now
            DiffuserOnSecs :=
              if ToLower o.DiffuserOn = "on" then m.state.OperStateParsed.DiffuserOnSecs else 0
            LightOnSecs :=
              if ToLower o.LightOn = "on" then m.state.OperStateParsed.LightOnSecs else 0 }
        state.Stats.ParseStateMsgs := m.state.Stats.ParseStateMsgs + 1 } := by
  have hc : o.LightColor ≠ "" := by
    intro h0
    have hnone : parseOperLightColor "" = none := by decide
    rw [h0, hnone] at hcolor
    exact absurd hcolor (by simp)
  rw [msgParseStateCommon_accepted e now o raw m (by simp [hp1, hp2, hc]), hcolor]
  rfl

/-- Witness of C22: the record POWER1 "ON", POWER2 "OFF", Color "FF2A00" at the start. -/
theorem telemetry_record_applied_witness :
    (goodRecord.DiffuserOn ≠ "" ∧ goodRecord.LightOn ≠ "" ∧
      parseOperLightColor goodRecord.LightColor = some 0xFF2A00) ∧
    (msgParseStateCommon demoEnv 1 goodRecord "raw" Start).state.OperStateParsed.DiffuserOn
      = true ∧
    (msgParseStateCommon demoEnv 1 goodRecord "raw" Start).state.OperStateParsed.LightColor
      = 0xFF2A00 ∧
    (msgParseStateCommon demoEnv 1 goodRecord "raw" Start).state.Stats.ParseStateMsgs = 1 ∧
    (msgParseStateCommon demoEnv 1 goodRecord "raw" Start).state.WantedState =
      Start.state.WantedState :=
  have h := telemetry_record_applied demoEnv 1 goodRecord "raw" Start 0xFF2A00
    (by decide) (by decide) (by decide)
  ⟨⟨by decide, by decide, by decide⟩, by rw [h]; decide, by rw [h], by rw [h]; rfl, by rw [h]⟩

/-- C23: `msgParseStatePower1` sets the observed diffuser flag to true exactly when the
payload is the word "on" in any letter case and to false for every other payload, sets
the diffuser counter to 0 when the flag is now off and keeps it when the flag is on, and
changes nothing else in the manager; `msgParseStatePower2` does the same for the light
flag and the light counter. -/
theorem power_topic_sets_flag (p : String) (m : Manager) :
    msgParseStatePower1 p m =
        { m with
          state.OperStateParsed.DiffuserOn := decide (ToLower p = "on")
          state.OperStateParsed.DiffuserOnSecs :=
            if ToLower p = "on" then m.state.OperStateParsed.DiffuserOnSecs else 0 } ∧
      msgParseStatePower2 p m =
        { m with
          state.OperStateParsed.LightOn := decide (ToLower p = "on")
          state.OperStateParsed.LightOnSecs :=
            if ToLower p = "on" then m.state.OperStateParsed.LightOnSecs else 0 } ∧
      (ToLower p = "on" ↔ p = "on" ∨ p = "On" ∨ p = "oN" ∨ p = "ON") :=
  ⟨msgParseStatePower1_eq p m, msgParseStatePower2_eq p m, ToLower_eq_on p⟩

/-- Witness of C23: the payload "On" turns the diffuser flag on and keeps its counter; the
payload "1" turns it off and resets its counter. -/
theorem power_topic_sets_flag_witness :
    (msgParseStatePower1 "On" diffuserNearBudget).state.OperStateParsed.DiffuserOn = true ∧
    (msgParseStatePower1 "On" diffuserNearBudget).state.OperStateParsed.DiffuserOnSecs = 59 ∧
    (msgParseStatePower1 "1" diffuserNearBudget).state.OperStateParsed.DiffuserOn = false ∧
    (msgParseStatePower1 "1" diffuserNearBudget).state.OperStateParsed.DiffuserOnSecs = 0 :=
  have h1 := (power_topic_sets_flag "On" diffuserNearBudget).1
  have h2 := (power_topic_sets_flag "1" diffuserNearBudget).1
  ⟨by rw [h1]; decide, by rw [h1]; decide, by rw [h2]; decide, by rw [h2]; decide⟩

/-! ## Re-issuing and refreshing -/

/-- C25: with the light observed off, wanted on, in Sunshine mode and past its debounce
deadline, `handleSecondTick` re-issues light-on and then re-applies the saved dim level:
the wanted dim after the pass is the wanted dim before it, and the pass ends with a
`cmnd/Dimmer0` message carrying that value, sent after the `cmnd/Power2` "ON" message (so
it is the last `cmnd/Dimmer0` message of the pass).  More generally `handleSecondTick`
never changes the wanted dim. -/
theorem sunshine_dim_reapplied (e : Env) (now : Time) (m : Manager)
    (hobs : m.state.OperStateParsed.LightOn = false)
    (hwant : m.state.WantedState.LightOn = true)
    (hmode : m.state.WantedState.LightMode = LightMode.Sunshine)
    (hlate : m.state.WantedState.DampenLightTs < now) :
    (handleSecondTick e now m).state.WantedState.LightDim = m.state.WantedState.LightDim ∧
      (∃ pre mid : List Msg,
        published m (handleSecondTick e now m) =
          pre ++ MsgPubSetLight e true :: mid ++
            [MsgPubSetLightDim e m.state.WantedState.LightDim]) ∧
      (onTopic (e.TopicPrefix ++ "cmnd/Dimmer0")
          (published m (handleSecondTick e now m))).getLast? =
        some (MsgPubSetLightDim e m.state.WantedState.LightDim) ∧
      (∀ (now1 : Time) (m1 : Manager),
        (handleSecondTick e now1 m1).state.WantedState.LightDim =
          m1.state.WantedState.LightDim) := by
  obtain ⟨outD, hD, hD2, hDr, hDo, hDw⟩ := handleSecondTickDiffuser_frame e now m
  have hobs1 : (handleSecondTickDiffuser e now m).state.OperStateParsed.LightOn = false := by
    rw [hDo]; exact hobs
  have hwant1 : (handleSecondTickDiffuser e now m).state.WantedState.LightOn = true := by
    rw [hDw]; exact hwant
  have hmode1 : (handleSecondTickDiffuser e now m).state.WantedState.LightMode =
      LightMode.Sunshine := by
    rw [hDw]; exact hmode
  have hts1 : (handleSecondTickDiffuser e now m).state.WantedState.DampenLightTs < now := by
    rw [hDw]; exact hlate
  have hdim1 : (handleSecondTickDiffuser e now m).state.WantedState.LightDim =
      m.state.WantedState.LightDim := by rw [hDw]
  have hpub : ∃ pre mid : List Msg,
      published m (handleSecondTick e now m) =
        pre ++ MsgPubSetLight e true :: mid ++
          [MsgPubSetLightDim e m.state.WantedState.LightDim] := by
    rcases handleSecondTickLight_cases e now (handleSecondTickDiffuser e now m) with
      ⟨_, _, _, h⟩ | ⟨ho, _, _, _⟩ | ⟨hn, _⟩ | ⟨hn, _⟩ | ⟨hn, _⟩
    · rw [if_pos hmode1] at h
      refine ⟨outD,
        [MsgPubSetLightMode e LightMode.Sunshine.XlateVal.2,
          MsgPubSetLightColor e
            (colorValue e (handleSecondTickDiffuser e now m).state.WantedState.LightColorName
              (handleSecondTickDiffuser e now m)),
          MsgPubCheckStatus11 e, MsgPubCheckWater e, MsgPubSetLightDim e 1],
        published_append _ _ _ ?_⟩
      rw [handleSecondTick, h, cmdLightDim_mqttPub, cmdLightOn_mqttPub, hD, hobs1, hdim1,
        hmode1]
      simp [sendsColor]
    · rw [hobs1] at ho
      exact absurd ho (by decide)
    · exact absurd ⟨by rw [hobs1, hwant1]; decide, hts1⟩ hn
    · exact absurd ⟨by rw [hobs1, hwant1]; decide, hts1⟩ hn
    · exact absurd ⟨by rw [hobs1, hwant1]; decide, hts1⟩ hn
  refine ⟨handleSecondTick_LightDim e now m, hpub, ?_, fun now1 m1 =>
    handleSecondTick_LightDim e now1 m1⟩
  obtain ⟨pre, mid, hp⟩ := hpub
  have hsplit : pre ++ MsgPubSetLight e true :: mid ++
      [MsgPubSetLightDim e m.state.WantedState.LightDim] =
      (pre ++ MsgPubSetLight e true :: mid) ++
        [MsgPubSetLightDim e m.state.WantedState.LightDim] := by simp
  rw [hp, hsplit, onTopic_append]
  simp [prefix_append_inj]

/-- Witness of C25: the light wanted on in Sunshine mode at dim 40 and observed off; the
pass keeps dim 40 and ends with `cmnd/Dimmer0` "40". -/
theorem sunshine_dim_reapplied_witness :
    (sunshineObservedOff.state.OperStateParsed.LightOn = false ∧
      sunshineObservedOff.state.WantedState.LightOn = true ∧
      sunshineObservedOff.state.WantedState.LightMode = LightMode.Sunshine ∧
      sunshineObservedOff.state.WantedState.DampenLightTs < 1) ∧
    (handleSecondTick demoEnv 1 sunshineObservedOff).state.WantedState.LightDim = 40 ∧
    (published sunshineObservedOff (handleSecondTick demoEnv 1 sunshineObservedOff)).getLast? =
      some { Topic := "smokey/cmnd/Dimmer0", Payload := "40" } :=
  ⟨⟨rfl, rfl, rfl, by decide⟩,
    (sunshine_dim_reapplied demoEnv 1 sunshineObservedOff rfl rfl rfl (by decide)).1,
    by decide⟩

/-- C26: on a 15-second tick the manager publishes the status query (`cmnd/Status` "11"
followed by `cmnd/TuyaSend8` "") if and only if the diffuser is observed on, or the light
is observed on, or observed differs from wanted for either actuator; that is, the query
is skipped exactly when all four flags are false.  The ramp step `bumpIncreaseDim` runs
afterwards in both cases. -/
theorem fast_tick_status_query (e : Env) (now : Time) (m : Manager) :
    (needsStatusQuery m ↔
        ¬ (m.state.OperStateParsed.DiffuserOn = false ∧ m.state.OperStateParsed.LightOn = false ∧
          m.state.WantedState.DiffuserOn = false ∧ m.state.WantedState.LightOn = false)) ∧
      (needsStatusQuery m →
        mainLoop e now Event.checkStatusTickFast m =
          bumpIncreaseDim e now (cmdPubQueryStatus e m) ∧
        ∃ rest : List Msg,
          published m (mainLoop e now Event.checkStatusTickFast m) =
            MsgPubCheckStatus11 e :: MsgPubCheckWater e :: rest) ∧
      (¬ needsStatusQuery m →
        mainLoop e now Event.checkStatusTickFast m = bumpIncreaseDim e now m ∧
        published m (mainLoop e now Event.checkStatusTickFast m) = []) ∧
      (MsgPubCheckStatus11 e ∈ published m (mainLoop e now Event.checkStatusTickFast m) ↔
        needsStatusQuery m) := by
  have hiff : needsStatusQuery m ↔
      ¬ (m.state.OperStateParsed.DiffuserOn = false ∧ m.state.OperStateParsed.LightOn = false ∧
        m.state.WantedState.DiffuserOn = false ∧ m.state.WantedState.LightOn = false) := by
    unfold needsStatusQuery
    cases m.state.OperStateParsed.DiffuserOn <;> cases m.state.OperStateParsed.LightOn <;>
      cases m.state.WantedState.DiffuserOn <;> cases m.state.WantedState.LightOn <;> simp
  have hyes : needsStatusQuery m →
      mainLoop e now Event.checkStatusTickFast m =
          bumpIncreaseDim e now (cmdPubQueryStatus e m) ∧
        ∃ rest : List Msg,
          published m (mainLoop e now Event.checkStatusTickFast m) =
            MsgPubCheckStatus11 e :: MsgPubCheckWater e :: rest := by
    intro h
    have hrun : mainLoop e now Event.checkStatusTickFast m =
        bumpIncreaseDim e now (cmdPubQueryStatus e m) := by
      unfold needsStatusQuery at h
      simp only [mainLoop]
      rw [if_pos h]
    obtain ⟨out, hout⟩ := bumpIncreaseDim_extends e now (cmdPubQueryStatus e m)
    refine ⟨hrun, out, published_append _ _ _ ?_⟩
    rw [hrun, hout, cmdPubQueryStatus_mqttPub]
    simp
  have hno : ¬ needsStatusQuery m →
      mainLoop e now Event.checkStatusTickFast m = bumpIncreaseDim e now m ∧
        published m (mainLoop e now Event.checkStatusTickFast m) = [] := by
    intro h
    have hrun : mainLoop e now Event.checkStatusTickFast m = bumpIncreaseDim e now m := by
      unfold needsStatusQuery at h
      simp only [mainLoop]
      rw [if_neg h]
    have hoff : m.state.WantedState.LightOn = false := by
      by_contra hne
      exact h (hiff.mpr (fun h4 => hne h4.2.2.2))
    refine ⟨hrun, ?_⟩
    rw [hrun, bumpIncreaseDim_wanted_off e now m hoff]
    simp [published]
  refine ⟨hiff, hyes, hno, ?_⟩
  constructor
  · intro hmem
    by_contra h
    rw [(hno h).2] at hmem
    exact absurd hmem (List.not_mem_nil _)
  · intro h
    obtain ⟨rest, hrest⟩ := (hyes h).2
    rw [hrest]
    exact List.mem_cons_self _ _

/-- Witness of C26: with the light observed on the tick starts with the status query;
at the start, with all four flags false, it publishes nothing. -/
theorem fast_tick_status_query_witness :
    (needsStatusQuery lightObservedOn ∧ ¬ needsStatusQuery Start) ∧
    (∃ rest : List Msg,
      published lightObservedOn (mainLoop demoEnv 1 Event.checkStatusTickFast lightObservedOn) =
        MsgPubCheckStatus11 demoEnv :: MsgPubCheckWater demoEnv :: rest) ∧
    published Start (mainLoop demoEnv 1 Event.checkStatusTickFast Start) = [] :=
  have h1 : needsStatusQuery lightObservedOn := Or.inr (Or.inl rfl)
  have h2 : ¬ needsStatusQuery Start := by
    unfold needsStatusQuery
    decide
  ⟨⟨h1, h2⟩, ((fast_tick_status_query demoEnv 1 lightObservedOn).2.1 h1).2,
    ((fast_tick_status_query demoEnv 1 Start).2.2.1 h2).2⟩

/-- C27: in every reachable state, when the 1-second pass takes the light corrective
branch with the light wanted on (observed off, past the debounce deadline), the wanted
auto-off budget, light mode and colour name are exactly as before the pass: the
recomputed budget is the old one because the light counter is 0 while the light is
observed off. -/
theorem corrective_on_keeps_budget (e : Env) (now : Time) (m : Manager) (hreach : Reachable e m)
    (hobs : m.state.OperStateParsed.LightOn = false)
    (hwant : m.state.WantedState.LightOn = true)
    (hlate : m.state.WantedState.DampenLightTs < now) :
    (handleSecondTick e now m).state.WantedState.LightAutoOffSecs =
        m.state.WantedState.LightAutoOffSecs ∧
      (handleSecondTick e now m).state.WantedState.LightMode =
        m.state.WantedState.LightMode ∧
      (handleSecondTick e now m).state.WantedState.LightColorName =
        m.state.WantedState.LightColorName := by
  obtain ⟨evs, rfl⟩ := hreach
  have hinv := OnSecsZeroWhenOff_runEvents e evs Start ⟨fun _ => rfl, fun _ => rfl⟩
  generalize runEvents e evs Start = m at hinv hobs hwant hlate ⊢
  have hzero : m.state.OperStateParsed.LightOnSecs = 0 := hinv.2 hobs
  obtain ⟨outD, hD, hD2, hDr, hDo, hDw⟩ := handleSecondTickDiffuser_frame e now m
  have hobs1 : (handleSecondTickDiffuser e now m).state.OperStateParsed.LightOn = false := by
    rw [hDo]; exact hobs
  have hwant1 : (handleSecondTickDiffuser e now m).state.WantedState.LightOn = true := by
    rw [hDw]; exact hwant
  have hts1 : (handleSecondTickDiffuser e now m).state.WantedState.DampenLightTs < now := by
    rw [hDw]; exact hlate
  have hsecs1 : (handleSecondTickDiffuser e now m).state.OperStateParsed.LightOnSecs = 0 := by
    rw [hDo]; exact hzero
  have hbud1 : (handleSecondTickDiffuser e now m).state.WantedState.LightAutoOffSecs =
      m.state.WantedState.LightAutoOffSecs := by rw [hDw]
  have hmode1 : (handleSecondTickDiffuser e now m).state.WantedState.LightMode =
      m.state.WantedState.LightMode := by rw [hDw]
  have hname1 : (handleSecondTickDiffuser e now m).state.WantedState.LightColorName =
      m.state.WantedState.LightColorName := by rw [hDw]
  have hrecalc : recalculateLightAutoOff (handleSecondTickDiffuser e now m) =
      m.state.WantedState.LightAutoOffSecs := by
    unfold recalculateLightAutoOff
    simp only [hsecs1, hbud1, sub_zero]
    by_cases hB : m.state.WantedState.LightAutoOffSecs > 0
    · rw [if_pos hB, if_neg (by omega)]
    · rw [if_neg hB]
  rw [handleSecondTick]
  rcases handleSecondTickLight_cases e now (handleSecondTickDiffuser e now m) with
    ⟨_, _, _, h⟩ | ⟨ho, _, _, _⟩ | ⟨hn, _⟩ | ⟨hn, _⟩ | ⟨hn, _⟩
  · rw [h]
    split
    · refine ⟨?_, ?_, ?_⟩
      · simp [hrecalc]
      · simp [hmode1]
      · simp [hname1]
    · refine ⟨?_, ?_, ?_⟩
      · simp [hrecalc]
      · simp [hmode1]
      · simp [hname1]
  · rw [hobs1] at ho
    exact absurd ho (by decide)
  · exact absurd ⟨by rw [hobs1, hwant1]; decide, hts1⟩ hn
  · exact absurd ⟨by rw [hobs1, hwant1]; decide, hts1⟩ hn
  · exact absurd ⟨by rw [hobs1, hwant1]; decide, hts1⟩ hn

/-- Witness of C27: after `CmdLightOn(3600, Solid, "red")` at time 0 with the light still
observed off, the pass seven seconds later re-issues light-on and keeps budget 3600, mode
Solid and colour name "red". -/
theorem corrective_on_keeps_budget_witness :
    (Reachable demoEnv (runEvents demoEnv demoLightOnRun Start) ∧
      (runEvents demoEnv demoLightOnRun Start).state.OperStateParsed.LightOn = false ∧
      (runEvents demoEnv demoLightOnRun Start).state.WantedState.LightOn = true ∧
      (runEvents demoEnv demoLightOnRun Start).state.WantedState.DampenLightTs <
        7 * 1000000000) ∧
    (handleSecondTick demoEnv (7 * 1000000000)
        (runEvents demoEnv demoLightOnRun Start)).state.WantedState.LightAutoOffSecs = 3600 ∧
    (handleSecondTick demoEnv (7 * 1000000000)
        (runEvents demoEnv demoLightOnRun Start)).state.WantedState.LightMode =
      LightMode.Solid ∧
    (handleSecondTick demoEnv (7 * 1000000000)
        (runEvents demoEnv demoLightOnRun Start)).state.WantedState.LightColorName = "red" :=
  have hr : Reachable demoEnv (runEvents demoEnv demoLightOnRun Start) := ⟨demoLightOnRun, rfl⟩
  have h := corrective_on_keeps_budget demoEnv (7 * 1000000000) _ hr
    (by decide) (by decide) (by decide)
  ⟨⟨hr, by decide, by decide, by decide⟩, h.1.trans (by decide), h.2.1.trans (by decide),
    h.2.2.trans (by decide)⟩

/-! ## Invariants of the wanted state -/

/-- C21: in every state reachable from the zero-initialised manager by any sequence of
events and commands, the increase-dim flag is set if and only if the wanted light mode is
Sunshine. -/
theorem increase_dim_iff_sunshine (e : Env) (m : Manager) (h : Reachable e m) :
    m.state.WantedState.IncreaseDim = true ↔
      m.state.WantedState.LightMode = LightMode.Sunshine := by
  obtain ⟨evs, rfl⟩ := h
  exact IncreaseDimIffSunshine_runEvents e evs Start
    (by unfold IncreaseDimIffSunshine; decide)

/-- Witness of C21: after `CmdLightOn(3600, Sunshine, "gold")` the flag is set and the mode
is Sunshine. -/
theorem increase_dim_iff_sunshine_witness :
    Reachable demoEnv (runEvents demoEnv demoSunshineRun Start) ∧
    (runEvents demoEnv demoSunshineRun Start).state.WantedState.LightMode =
      LightMode.Sunshine ∧
    (runEvents demoEnv demoSunshineRun Start).state.WantedState.IncreaseDim = true :=
  have hr : Reachable demoEnv (runEvents demoEnv demoSunshineRun Start) :=
    ⟨demoSunshineRun, rfl⟩
  ⟨hr, by decide, (increase_dim_iff_sunshine demoEnv _ hr).mpr (by decide)⟩

/-- C29: the low-water shutoff is not latched.  From the start, a low-water report on the
error topic followed by `CmdDiffuserOn`, and then any number of further identical
low-water reports and 1-second ticks, leads to a state with the low-water flag set and
the diffuser wanted on, with `cmnd/Power1` "ON" among the sent messages. -/
theorem low_water_not_latched (e : Env) (t0 t1 : Time) (autoOffSecs : Int)
    (rest : List (Time × Event))
    (hrest : ∀ x ∈ rest, x.2 = Event.secondTick ∨ x.2 = lowWaterReport e) :
    (runEvents e
        ((t0, lowWaterReport e) :: (t1, Event.cmds (Command.CmdDiffuserOn autoOffSecs)) :: rest)
        Start).state.OperStateParsed.LowWater = true ∧
      (runEvents e
        ((t0, lowWaterReport e) :: (t1, Event.cmds (Command.CmdDiffuserOn autoOffSecs)) :: rest)
        Start).state.WantedState.DiffuserOn = true ∧
      ({ Topic := e.TopicPrefix ++ "cmnd/Power1", Payload := "ON" } : Msg) ∈
        (runEvents e
          ((t0, lowWaterReport e) :: (t1, Event.cmds (Command.CmdDiffuserOn autoOffSecs)) ::
            rest)
          Start).mqttPub := by
  have h1 : mainLoop e t0 (lowWaterReport e) Start =
      { Start with
        state.OperStateParsed.LowWater := true
        state.WantedState.DiffuserOn := false } := by
    rw [mainLoop_lowWaterReport,
      msgParseSmokeyError_changed "0x1" Start 1 errorValue_lowWater (by decide)]
    rfl
  have h2 : WantedOnAtLowWater e
      (mainLoop e t1 (Event.cmds (Command.CmdDiffuserOn autoOffSecs))
        (mainLoop e t0 (lowWaterReport e) Start)) := by
    rw [h1]
    refine ⟨rfl, rfl, rfl, ?_⟩
    show MsgPubSetDiffuser e true ∈ (cmdDiffuserOn e t1 autoOffSecs _).mqttPub
    rw [cmdDiffuserOn_mqttPub]
    simp
  have h3 := WantedOnAtLowWater_runEvents e rest _ h2 hrest
  rw [runEvents, runEvents]
  exact ⟨h3.1, h3.2.1, h3.2.2.2⟩

/-- Witness of C29: low water is reported, the diffuser is switched on for 600 seconds,
low water is reported again and two seconds pass. -/
theorem low_water_not_latched_witness :
    (∀ x ∈ [((2 : Time), lowWaterReport demoEnv), (7000000000, Event.secondTick),
        (8000000000, Event.secondTick)],
      x.2 = Event.secondTick ∨ x.2 = lowWaterReport demoEnv) ∧
    (runEvents demoEnv
        ((0, lowWaterReport demoEnv) :: (1, Event.cmds (Command.CmdDiffuserOn 600)) ::
          [((2 : Time), lowWaterReport demoEnv), (7000000000, Event.secondTick),
            (8000000000, Event.secondTick)])
        Start).state.OperStateParsed.LowWater = true ∧
    (runEvents demoEnv
        ((0, lowWaterReport demoEnv) :: (1, Event.cmds (Command.CmdDiffuserOn 600)) ::
          [((2 : Time), lowWaterReport demoEnv), (7000000000, Event.secondTick),
            (8000000000, Event.secondTick)])
        Start).state.WantedState.DiffuserOn = true :=
  have hall : ∀ x ∈ [((2 : Time), lowWaterReport demoEnv), (7000000000, Event.secondTick),
      (8000000000, Event.secondTick)],
      x.2 = Event.secondTick ∨ x.2 = lowWaterReport demoEnv := by
    intro x hx
    simp only [List.mem_cons, List.mem_singleton, List.not_mem_nil, or_false] at hx
    rcases hx with rfl | rfl | rfl
    · exact Or.inr rfl
    · exact Or.inl rfl
    · exact Or.inl rfl
  have h := low_water_not_latched demoEnv 0 1 600 _ hall
  ⟨hall, h.1, h.2.1⟩

/-! ## The mode parser -/

/-- C28 fails on the code: the one-character input U+0130 (capital I with dot above) is
2 bytes long, so it passes the guard `len(l) < 2`; its lower case is the 1-byte text "i",
and the slice `[:2]` of it is out of range.  The same happens for U+212A (Kelvin sign).
Inputs such as "Sunshine" return their mode, and inputs such as "x" or "blue" return an
error. -/
theorem light_mode_val_slice_out_of_range :
    (bytesOf "\u0130").length = 2 ∧ ToLower "\u0130" = "i" ∧
      LightModeVal "\u0130" = ModeOutcome.sliceOutOfRange ∧
      LightModeVal "\u212a" = ModeOutcome.sliceOutOfRange ∧
      LightModeVal "Sunshine" = ModeOutcome.returned LightMode.Sunshine ∧
      LightModeVal "NIGHT" = ModeOutcome.returned LightMode.NightMode ∧
      LightModeVal "x" = ModeOutcome.failed ∧
      LightModeVal "blue" = ModeOutcome.failed := by
  decide

end Smokey
